import Mathlib

/-!
# M6800 family CPU core (src/emu/cpu/m6800/m6800.c)

A shallow embedding of the interrupt controller, the cycle accounting of the
execute loops, the on-chip timer events, the flag algebra, reset, the internal
register window and the serial interface of the MAME m6800 core, followed by
the properties proved about them.

Conventions of the embedding
* machine integers are natural numbers, reduced modulo 2^8, 2^16 or 2^32 where the C type wraps;
  C `int` values that can be negative (`extra_cycles`, `m6800_ICount`) are integers;
* the registers `pc`, `s`, `x` hold the low word `w.l` of their PAIR: the core only ever stores
  values below 2^16 in these PAIRs, so `PCD = PC`, `SD = S`;
* the bus (`RM`, `WM`, `M_RDOP`) is a plain byte memory, the host side of the interface;
* the constants of `m6800.h` and of the host core that the file uses but does not define are
  collected in `Hdr` and are parameters of every definition that needs them;
* the opcode bodies of `6800ops.c` are a parameter of the execute loops;
* the two serial timer callbacks act on the static `m68xx`; the host calls that select the
  CPU around them (`cpu_push_context`, `cpu_pop_context`) have no part in the embedding, and
  the value `m6800_rx()` samples on a receive tick is an argument of `RX_TICK`.
-/

namespace M6800

/-! ## Constants defined in m6800.c -/

def TCSR_OLVL : Nat := 0x01
def TCSR_IEDG : Nat := 0x02
def TCSR_ETOI : Nat := 0x04
def TCSR_EOCI : Nat := 0x08
def TCSR_EICI : Nat := 0x10
def TCSR_TOF : Nat := 0x20
def TCSR_OCF : Nat := 0x40
def TCSR_ICF : Nat := 0x80

def M6800_TRCSR_RDRF : Nat := 0x80
def M6800_TRCSR_ORFE : Nat := 0x40
def M6800_TRCSR_TDRE : Nat := 0x20
def M6800_TRCSR_RIE : Nat := 0x10
def M6800_TRCSR_RE : Nat := 0x08
def M6800_TRCSR_TIE : Nat := 0x04
def M6800_TRCSR_TE : Nat := 0x02
def M6800_TRCSR_WU : Nat := 0x01

def M6800_RMCR_SS_MASK : Nat := 0x03
def M6800_RMCR_CC_MASK : Nat := 0x0c

def M6800_TX_STATE_INIT : Int := 0
def M6800_TX_STATE_READY : Int := 1

def M6800_PORT2_IO4 : Nat := 0x10
def M6800_PORT2_IO3 : Nat := 0x08

def M6800_SERIAL_START : Int := 0
def M6800_SERIAL_STOP : Int := 9

/-- Constants that m6800.c takes from headers which are not among the sources (`m6800.h`,
the host core): the halt masks of `wai_state` under their three spellings and the level of a
released input line. Nothing is assumed about their values. -/
structure Hdr where
  M6800_WAI : Nat
  M6800_SLP : Nat
  HD63701_WAI : Nat
  HD63701_SLP : Nat
  NSC8105_WAI : Nat
  CLEAR_LINE : Nat

/-- The input lines `set_irq_line` distinguishes: `INPUT_LINE_NMI`, `M6800_IRQ_LINE` and
`M6800_TIN_LINE` (the two entries of `irq_state`, commented `[IRQ1,TIN]` in the source). -/
inductive IrqLine where
  | NMI
  | IRQ
  | TIN
deriving DecidableEq

/-! ## The register block `m6800_Regs` and the file-level globals -/

/-- The struct `m6800_Regs` without its host pointers (callback, device, tables). -/
structure m6800_Regs where
  ppc : Nat
  pc : Nat
  s : Nat
  x : Nat
  a : Nat
  b : Nat
  cc : Nat
  wai_state : Nat
  nmi_state : Nat
  irq_state_IRQ : Nat
  irq_state_TIN : Nat
  ic_eddge : Nat
  extra_cycles : Int
  port1_ddr : Nat
  port2_ddr : Nat
  port3_ddr : Nat
  port4_ddr : Nat
  port1_data : Nat
  port2_data : Nat
  port3_data : Nat
  port4_data : Nat
  tcsr : Nat
  pending_tcsr : Nat
  irq2 : Nat
  ram_ctrl : Nat
  counter : Nat
  output_compare : Nat
  input_capture : Nat
  clock : Int
  trcsr : Nat
  rmcr : Nat
  rdr : Nat
  tdr : Nat
  rsr : Nat
  tsr : Nat
  rxbits : Int
  txbits : Int
  txstate : Int
  trcsr_read : Int
  tx : Int
  timer_over : Nat
deriving DecidableEq

/-- The whole machine: the static `m68xx`, the globals `m6800_ICount`, `timer_next` and
`latch09`, the byte memory behind `RM`/`WM`, the external pins behind `io_read_byte_8be`, the
values last driven by `io_write_byte_8be`, and the trace of the `LOG` calls of
`ENTER_INTERRUPT` (one entry per interrupt taken, newest first, named by its vector). -/
structure Machine where
  m68xx : m6800_Regs
  m6800_ICount : Int
  timer_next : Nat
  latch09 : Nat
  mem : Nat → Nat
  pins : Nat → Nat
  port_out : Nat → Nat
  entry_log : List Nat

/-! ## PAIR accessors -/

/-- Field `w.l` of a PAIR. -/
def WL (d : Nat) : Nat := d % 0x10000

/-- Field `w.h` of a PAIR. -/
def WH (d : Nat) : Nat := d / 0x10000 % 0x10000

/-- A PAIR rebuilt from its two words. -/
def mkPAIR (h l : Nat) : Nat := (h % 0x10000) * 0x10000 + l % 0x10000

/-- Field `b.l` of a PAIR. -/
def BL (d : Nat) : Nat := d % 0x100

/-- Field `b.h` of a PAIR. -/
def BH (d : Nat) : Nat := d / 0x100 % 0x100

/-- A C `int` read back from a 32-bit unsigned value (two's complement). -/
def toInt32 (x : Nat) : Int :=
  if x % 0x100000000 < 0x80000000 then ((x % 0x100000000 : Nat) : Int)
  else ((x % 0x100000000 : Nat) : Int) - 0x100000000

/-- UINT32 subtraction. -/
def sub32 (x y : Nat) : Nat := (0x100000000 + x % 0x100000000 - y % 0x100000000) % 0x100000000

/-- UINT32 plus a C `int`. -/
def add32 (x : Nat) (n : Int) : Nat := (((x : Int) + n) % 0x100000000).toNat

/-- The C expression `x & ~mask` stored back into a UINT8. -/
def CLRBITS8 (x mask : Nat) : Nat := x &&& (0xff ^^^ (mask &&& 0xff))

/-! ## Memory access -/

def RM (m : Machine) (addr : Nat) : Nat := m.mem addr % 0x100

def WM (m : Machine) (addr b : Nat) : Machine :=
  { m with mem := fun a => if a = addr then b % 0x100 else m.mem a }

def M_RDOP (m : Machine) (addr : Nat) : Nat := RM m addr

def RM16 (m : Machine) (addr : Nat) : Nat :=
  (RM m addr <<< 8) ||| RM m ((addr + 1) &&& 0xffff)

/-- A UINT16 decremented by one: `w - 1` modulo 2^16. -/
def dec16 (w : Nat) : Nat := (0xffff + w) % 0x10000

/-- The statement `--S`. -/
def DEC_S (m : Machine) : Machine :=
  { m with m68xx := { m.m68xx with s := dec16 m.m68xx.s } }

def PUSHBYTE (m : Machine) (b : Nat) : Machine := DEC_S (WM m m.m68xx.s b)

def PUSHWORD (m : Machine) (w : Nat) : Machine :=
  let m1 := DEC_S (WM m m.m68xx.s (BL w))
  DEC_S (WM m1 m1.m68xx.s (BH w))

/-! ## Flag algebra -/

def CLR_HNZVC (cc : Nat) : Nat := cc &&& 0xd0
def CLR_NZV (cc : Nat) : Nat := cc &&& 0xf1
def CLR_HNZC (cc : Nat) : Nat := cc &&& 0xd2
def CLR_NZVC (cc : Nat) : Nat := cc &&& 0xf0
def CLR_Z (cc : Nat) : Nat := cc &&& 0xfb
def CLR_NZC (cc : Nat) : Nat := cc &&& 0xf2
def CLR_ZC (cc : Nat) : Nat := cc &&& 0xfa
def CLR_C (cc : Nat) : Nat := cc &&& 0xfe

def SEC (cc : Nat) : Nat := cc ||| 0x01
def CLC (cc : Nat) : Nat := cc &&& 0xfe
def SEZ (cc : Nat) : Nat := cc ||| 0x04
def CLZ (cc : Nat) : Nat := cc &&& 0xfb
def SEN (cc : Nat) : Nat := cc ||| 0x08
def CLN (cc : Nat) : Nat := cc &&& 0xf7
def SEV (cc : Nat) : Nat := cc ||| 0x02
def CLV (cc : Nat) : Nat := cc &&& 0xfd
def SEH (cc : Nat) : Nat := cc ||| 0x20
def CLH (cc : Nat) : Nat := cc &&& 0xdf
def SEI (cc : Nat) : Nat := cc ||| 0x10
def CLI (cc : Nat) : Nat := cc &&& 0xef

def SET_Z (cc a : Nat) : Nat := if a = 0 then SEZ cc else cc
def SET_Z8 (cc a : Nat) : Nat := SET_Z cc (a % 0x100)
def SET_Z16 (cc a : Nat) : Nat := SET_Z cc (a % 0x10000)
def SET_N8 (cc a : Nat) : Nat := cc ||| ((a &&& 0x80) >>> 4)
def SET_N16 (cc a : Nat) : Nat := cc ||| ((a &&& 0x8000) >>> 12)
def SET_H (cc a b r : Nat) : Nat := cc ||| (((a ^^^ b ^^^ r) &&& 0x10) <<< 1)
def SET_C8 (cc a : Nat) : Nat := cc ||| ((a &&& 0x100) >>> 8)
def SET_C16 (cc a : Nat) : Nat := cc ||| ((a &&& 0x10000) >>> 16)
def SET_V8 (cc a b r : Nat) : Nat := cc ||| (((a ^^^ b ^^^ r ^^^ (r >>> 1)) &&& 0x80) >>> 6)
def SET_V16 (cc a b r : Nat) : Nat := cc ||| (((a ^^^ b ^^^ r ^^^ (r >>> 1)) &&& 0x8000) >>> 14)

def SET_NZ8 (cc a : Nat) : Nat := SET_Z8 (SET_N8 cc a) a
def SET_NZ16 (cc a : Nat) : Nat := SET_Z16 (SET_N16 cc a) a
def SET_FLAGS8 (cc a b r : Nat) : Nat := SET_C8 (SET_V8 (SET_Z8 (SET_N8 cc r) r) a b r) r
def SET_FLAGS16 (cc a b r : Nat) : Nat := SET_C16 (SET_V16 (SET_Z16 (SET_N16 cc r) r) a b r) r

/-- A byte read as a two's-complement number. -/
def signed8 (a : Nat) : Int := if a % 0x100 < 0x80 then ((a % 0x100 : Nat) : Int) else ((a % 0x100 : Nat) : Int) - 0x100

/-- The ranges the C types give the CPU registers: 16 bits for PC, S and X, 8 bits for A, B,
CC and `wai_state`. -/
def regs_in_range (r : m6800_Regs) : Prop :=
  r.pc < 0x10000 ∧ r.s < 0x10000 ∧ r.x < 0x10000 ∧ r.a < 0x100 ∧ r.b < 0x100 ∧ r.cc < 0x100 ∧
  r.wai_state < 0x100

instance (r : m6800_Regs) : Decidable (regs_in_range r) := by
  unfold regs_in_range; infer_instance

/-- The stack address `k` bytes below `s`, modulo 2^16. -/
def below (s k : Nat) : Nat := (0x10000 + s - k) % 0x10000

/-! ## Timer bookkeeping -/

/-- The macro `MODIFIED_tcsr`. -/
def MODIFIED_tcsr (m : Machine) : Machine :=
  { m with m68xx := { m.m68xx with
      irq2 := ((m.m68xx.tcsr &&& (m.m68xx.tcsr <<< 3)) &&& (TCSR_ICF ||| TCSR_OCF ||| TCSR_TOF)) % 0x100 } }

/-- The macro `SET_TIMER_EVENT`. -/
def SET_TIMER_EVENT (m : Machine) : Machine :=
  { m with timer_next :=
      if sub32 m.m68xx.output_compare m.m68xx.counter < sub32 m.m68xx.timer_over m.m68xx.counter
      then m.m68xx.output_compare else m.m68xx.timer_over }

/-- The macro `CLEANUP_conters`: `OCH -= CTH; TOH -= CTH; CTH = 0; SET_TIMER_EVENT`, where `OCH`
is `output_compare.w.h`, `TOH` is `timer_over.w.l` and `CTH` is `counter.w.h`. -/
def CLEANUP_conters (m : Machine) : Machine :=
  let r := m.m68xx
  let cth := WH r.counter
  let oc := mkPAIR (0x10000 + WH r.output_compare - cth) (WL r.output_compare)
  let tov := mkPAIR (WH r.timer_over) (0x10000 + WL r.timer_over - cth)
  SET_TIMER_EVENT { m with m68xx := { r with
      output_compare := oc, timer_over := tov, counter := mkPAIR 0 (WL r.counter) } }

/-- The macro `MODIFIED_counters`. -/
def MODIFIED_counters (m : Machine) : Machine :=
  let r := m.m68xx
  let och := if WL r.output_compare ≥ WL r.counter then WH r.counter else WH r.counter + 1
  SET_TIMER_EVENT { m with m68xx := { r with output_compare := mkPAIR och (WL r.output_compare) } }

/-! ## Interrupt entry -/

/-- The statement `SEI` on the machine. -/
def SEI_m (m : Machine) : Machine := { m with m68xx := { m.m68xx with cc := SEI m.m68xx.cc } }

/-- The statement `m68xx.extra_cycles += n`. -/
def ADD_EXTRA (n : Int) (m : Machine) : Machine :=
  { m with m68xx := { m.m68xx with extra_cycles := m.m68xx.extra_cycles + n } }

/-- The statement `PCD = RM16( irq_vector )`. -/
def LOAD_VECTOR (irq_vector : Nat) (m : Machine) : Machine :=
  { m with m68xx := { m.m68xx with pc := RM16 m irq_vector } }

/-- The `LOG` call of `ENTER_INTERRUPT`, kept as an entry of `entry_log`. -/
def LOG_ENTRY (irq_vector : Nat) (m : Machine) : Machine :=
  { m with entry_log := irq_vector :: m.entry_log }

/-- The halted branch of `ENTER_INTERRUPT`: 4 extra cycles after WAI, none after SLEEP, and the
halt bits cleared. -/
def RESUME (h : Hdr) (m : Machine) : Machine :=
  let m2 := if m.m68xx.wai_state &&& h.M6800_WAI ≠ 0 then ADD_EXTRA 4 m else m
  { m2 with m68xx := { m2.m68xx with
      wai_state := CLRBITS8 m2.m68xx.wai_state (h.M6800_WAI ||| h.M6800_SLP) } }

/-- The statements `PUSHWORD(pPC)`, `PUSHWORD(pX)`, `PUSHBYTE(A)`, `PUSHBYTE(B)`,
`PUSHBYTE(CC)`. -/
def PUSH_PC (m : Machine) : Machine := PUSHWORD m m.m68xx.pc
def PUSH_X (m : Machine) : Machine := PUSHWORD m m.m68xx.x
def PUSH_A (m : Machine) : Machine := PUSHBYTE m m.m68xx.a
def PUSH_B (m : Machine) : Machine := PUSHBYTE m m.m68xx.b
def PUSH_CC (m : Machine) : Machine := PUSHBYTE m m.m68xx.cc

/-- The running branch of `ENTER_INTERRUPT`: the five pushes and 12 extra cycles. -/
def SAVE_CONTEXT (m : Machine) : Machine :=
  ADD_EXTRA 12 (PUSH_CC (PUSH_B (PUSH_A (PUSH_X (PUSH_PC m)))))

/-- The function `ENTER_INTERRUPT`. -/
def ENTER_INTERRUPT (h : Hdr) (irq_vector : Nat) (m : Machine) : Machine :=
  let m0 := LOG_ENTRY irq_vector m
  let m1 :=
    if m0.m68xx.wai_state &&& (h.M6800_WAI ||| h.M6800_SLP) ≠ 0 then RESUME h m0
    else SAVE_CONTEXT m0
  LOAD_VECTOR irq_vector (SEI_m m1)

def TAKE_ICI (h : Hdr) (m : Machine) : Machine := ENTER_INTERRUPT h 0xfff6 m
def TAKE_OCI (h : Hdr) (m : Machine) : Machine := ENTER_INTERRUPT h 0xfff4 m
def TAKE_TOI (h : Hdr) (m : Machine) : Machine := ENTER_INTERRUPT h 0xfff2 m
def TAKE_SCI (h : Hdr) (m : Machine) : Machine := ENTER_INTERRUPT h 0xfff0 m
def TAKE_TRAP (h : Hdr) (m : Machine) : Machine := ENTER_INTERRUPT h 0xffee m

/-- The function `m6800_check_irq2`. The acknowledge callback of the input-capture branch is a
host function whose result is discarded; it has no part in this model. -/
def m6800_check_irq2 (h : Hdr) (m : Machine) : Machine :=
  if m.m68xx.tcsr &&& (TCSR_EICI ||| TCSR_ICF) = (TCSR_EICI ||| TCSR_ICF) then
    TAKE_ICI h m
  else if m.m68xx.tcsr &&& (TCSR_EOCI ||| TCSR_OCF) = (TCSR_EOCI ||| TCSR_OCF) then
    TAKE_OCI h m
  else if m.m68xx.tcsr &&& (TCSR_ETOI ||| TCSR_TOF) = (TCSR_ETOI ||| TCSR_TOF) then
    TAKE_TOI h m
  else if (m.m68xx.trcsr &&& (M6800_TRCSR_RIE ||| M6800_TRCSR_RDRF) = (M6800_TRCSR_RIE ||| M6800_TRCSR_RDRF)) ∨
          (m.m68xx.trcsr &&& (M6800_TRCSR_RIE ||| M6800_TRCSR_ORFE) = (M6800_TRCSR_RIE ||| M6800_TRCSR_ORFE)) ∨
          (m.m68xx.trcsr &&& (M6800_TRCSR_TIE ||| M6800_TRCSR_TDRE) = (M6800_TRCSR_TIE ||| M6800_TRCSR_TDRE)) then
    TAKE_SCI h m
  else m

/-- The macro `CHECK_IRQ_LINES` (the acknowledge callback left to the host, as above). -/
def CHECK_IRQ_LINES (h : Hdr) (m : Machine) : Machine :=
  if m.m68xx.cc &&& 0x10 = 0 then
    if m.m68xx.irq_state_IRQ ≠ h.CLEAR_LINE then ENTER_INTERRUPT h 0xfff8 m
    else m6800_check_irq2 h m
  else m

/-- The statements `OCH++; m68xx.tcsr |= TCSR_OCF; m68xx.pending_tcsr |= TCSR_OCF;
MODIFIED_tcsr;` of `check_timer_event` (`OCH` is `output_compare.w.h`). -/
def OCF_SET (m : Machine) : Machine :=
  MODIFIED_tcsr { m with m68xx := { m.m68xx with
    output_compare := mkPAIR (WH m.m68xx.output_compare + 1) (WL m.m68xx.output_compare),
    tcsr := (m.m68xx.tcsr ||| TCSR_OCF) % 0x100,
    pending_tcsr := (m.m68xx.pending_tcsr ||| TCSR_OCF) % 0x100 } }

/-- The statements `TOH++; m68xx.tcsr |= TCSR_TOF; m68xx.pending_tcsr |= TCSR_TOF;
MODIFIED_tcsr;` of `check_timer_event` (`TOH` is `timer_over.w.l`). -/
def TOF_SET (m : Machine) : Machine :=
  MODIFIED_tcsr { m with m68xx := { m.m68xx with
    timer_over := mkPAIR (WH m.m68xx.timer_over) (WL m.m68xx.timer_over + 1),
    tcsr := (m.m68xx.tcsr ||| TCSR_TOF) % 0x100,
    pending_tcsr := (m.m68xx.pending_tcsr ||| TCSR_TOF) % 0x100 } }

/-- The body of `if( CTD >= OCD)` in `check_timer_event`. -/
def OCI_EVENT (h : Hdr) (m : Machine) : Machine :=
  let b := OCF_SET m
  if b.m68xx.cc &&& 0x10 = 0 ∧ b.m68xx.tcsr &&& TCSR_EOCI ≠ 0 then TAKE_OCI h b else b

/-- The body of `if( CTD >= TOD)` in `check_timer_event`. -/
def TOI_EVENT (h : Hdr) (m : Machine) : Machine :=
  let b := TOF_SET m
  if b.m68xx.cc &&& 0x10 = 0 ∧ b.m68xx.tcsr &&& TCSR_ETOI ≠ 0 then TAKE_TOI h b else b

/-- The function `check_timer_event`. -/
def check_timer_event (h : Hdr) (m : Machine) : Machine :=
  let m1 := if m.m68xx.counter ≥ m.m68xx.output_compare then OCI_EVENT h m else m
  let m2 := if m1.m68xx.counter ≥ m1.m68xx.timer_over then TOI_EVENT h m1 else m1
  SET_TIMER_EVENT m2

/-- The statements `m68xx.tcsr |= TCSR_ICF; m68xx.pending_tcsr |= TCSR_ICF;
m68xx.input_capture = CT; MODIFIED_tcsr;` of `set_irq_line`. -/
def ICF_SET (m : Machine) : Machine :=
  MODIFIED_tcsr { m with m68xx := { m.m68xx with
    tcsr := (m.m68xx.tcsr ||| TCSR_ICF) % 0x100,
    pending_tcsr := (m.m68xx.pending_tcsr ||| TCSR_ICF) % 0x100,
    input_capture := WL m.m68xx.counter } }

/-- The active-edge part of the `M6800_TIN_LINE` case of `set_irq_line`, up to its `break`,
followed by the `CHECK_IRQ_LINES` that ends the function. -/
def TIN_EDGE (h : Hdr) (m : Machine) : Machine :=
  let m3 := ICF_SET m
  let m4 := if m3.m68xx.cc &&& 0x10 = 0 then m6800_check_irq2 h m3 else m3
  CHECK_IRQ_LINES h m4

/-- The function `set_irq_line`; `state` is the new level of the line. -/
def set_irq_line (h : Hdr) (irqline : IrqLine) (state : Nat) (m : Machine) : Machine :=
  match irqline with
  | IrqLine.NMI =>
    if m.m68xx.nmi_state = state then m
    else
      let m1 : Machine := { m with m68xx := { m.m68xx with nmi_state := state % 0x100 } }
      if state = h.CLEAR_LINE then m1 else ENTER_INTERRUPT h 0xfffc m1
  | IrqLine.IRQ =>
    if m.m68xx.irq_state_IRQ = state then m
    else
      let m1 : Machine := { m with m68xx := { m.m68xx with irq_state_IRQ := state % 0x100 } }
      if state = h.CLEAR_LINE then m1 else CHECK_IRQ_LINES h m1
  | IrqLine.TIN =>
    if m.m68xx.irq_state_TIN = state then m
    else
      let m1 : Machine := { m with m68xx := { m.m68xx with irq_state_TIN := state % 0x100 } }
      if (m1.m68xx.tcsr &&& TCSR_IEDG) ^^^ (if state = h.CLEAR_LINE then TCSR_IEDG else 0) = 0 then m1
      else TIN_EDGE h m1

/-- The vectors of the second interrupt group: input capture, output compare, timer overflow
and SCI. -/
def second_group (v : Nat) : Prop := v = 0xfff6 ∨ v = 0xfff4 ∨ v = 0xfff2 ∨ v = 0xfff0

instance (v : Nat) : Decidable (second_group v) := by
  unfold second_group; infer_instance

/-- The interrupts entered between a machine `m` and a later machine `m'`: what `m'` has logged
beyond the log of `m`, newest first. -/
def entered (m m' : Machine) : List Nat :=
  m'.entry_log.take (m'.entry_log.length - m.entry_log.length)

/-! ## Cycle accounting -/

/-- The macro `INCREMENT_COUNTER`. -/
def INCREMENT_COUNTER (h : Hdr) (amount : Int) (m : Machine) : Machine :=
  let m1 : Machine := { m with
      m6800_ICount := m.m6800_ICount - amount,
      m68xx := { m.m68xx with counter := add32 m.m68xx.counter amount } }
  if m1.m68xx.counter ≥ m1.timer_next then check_timer_event h m1 else m1

/-- The macro `EAT_CYCLES`. -/
def EAT_CYCLES (h : Hdr) (m : Machine) : Machine :=
  let cycles_to_eat := toInt32 (sub32 m.timer_next m.m68xx.counter)
  let cycles_to_eat := if cycles_to_eat > m.m6800_ICount then m.m6800_ICount else cycles_to_eat
  if cycles_to_eat > 0 then INCREMENT_COUNTER h cycles_to_eat m else m

/-- The macro `INCREMENT_COUNTER` run once for each element of `steps`, the amounts in turn. -/
def COUNTER_STEPS (h : Hdr) (steps : List Nat) (m : Machine) : Machine :=
  steps.foldl (fun s n => INCREMENT_COUNTER h ((n : Nat) : Int) s) m

/-! ## The execute loops -/

def cycles_6800 : List Nat :=
  [ 99,  2, 99, 99, 99, 99,  2,  2,  4,  4,  2,  2,  2,  2,  2,  2,
     2,  2, 99, 99, 99, 99,  2,  2, 99,  2, 99,  2, 99, 99, 99, 99,
     4, 99,  4,  4,  4,  4,  4,  4,  4,  4,  4,  4,  4,  4,  4,  4,
     4,  4,  4,  4,  4,  4,  4,  4, 99,  5, 99, 10, 99, 99,  9, 12,
     2, 99, 99,  2,  2, 99,  2,  2,  2,  2,  2, 99,  2,  2, 99,  2,
     2, 99, 99,  2,  2, 99,  2,  2,  2,  2,  2, 99,  2,  2, 99,  2,
     7, 99, 99,  7,  7, 99,  7,  7,  7,  7,  7, 99,  7,  7,  4,  7,
     6, 99, 99,  6,  6, 99,  6,  6,  6,  6,  6, 99,  6,  6,  3,  6,
     2,  2,  2, 99,  2,  2,  2, 99,  2,  2,  2,  2,  3,  8,  3, 99,
     3,  3,  3, 99,  3,  3,  3,  4,  3,  3,  3,  3,  4, 99,  4,  5,
     5,  5,  5, 99,  5,  5,  5,  6,  5,  5,  5,  5,  6,  8,  6,  7,
     4,  4,  4, 99,  4,  4,  4,  5,  4,  4,  4,  4,  5,  9,  5,  6,
     2,  2,  2, 99,  2,  2,  2, 99,  2,  2,  2,  2, 99, 99,  3, 99,
     3,  3,  3, 99,  3,  3,  3,  4,  3,  3,  3,  3, 99, 99,  4,  5,
     5,  5,  5, 99,  5,  5,  5,  6,  5,  5,  5,  5, 99, 99,  6,  7,
     4,  4,  4, 99,  4,  4,  4,  5,  4,  4,  4,  4, 99, 99,  5,  6 ]

def cycles_6803 : List Nat :=
  [ 99,  2, 99, 99,  3,  3,  2,  2,  3,  3,  2,  2,  2,  2,  2,  2,
     2,  2, 99, 99, 99, 99,  2,  2, 99,  2, 99,  2, 99, 99, 99, 99,
     3,  3,  3,  3,  3,  3,  3,  3,  3,  3,  3,  3,  3,  3,  3,  3,
     3,  3,  4,  4,  3,  3,  3,  3,  5,  5,  3, 10,  4, 10,  9, 12,
     2, 99, 99,  2,  2, 99,  2,  2,  2,  2,  2, 99,  2,  2, 99,  2,
     2, 99, 99,  2,  2, 99,  2,  2,  2,  2,  2, 99,  2,  2, 99,  2,
     6, 99, 99,  6,  6, 99,  6,  6,  6,  6,  6, 99,  6,  6,  3,  6,
     6, 99, 99,  6,  6, 99,  6,  6,  6,  6,  6, 99,  6,  6,  3,  6,
     2,  2,  2,  4,  2,  2,  2, 99,  2,  2,  2,  2,  4,  6,  3, 99,
     3,  3,  3,  5,  3,  3,  3,  3,  3,  3,  3,  3,  5,  5,  4,  4,
     4,  4,  4,  6,  4,  4,  4,  4,  4,  4,  4,  4,  6,  6,  5,  5,
     4,  4,  4,  6,  4,  4,  4,  4,  4,  4,  4,  4,  6,  6,  5,  5,
     2,  2,  2,  4,  2,  2,  2, 99,  2,  2,  2,  2,  3, 99,  3, 99,
     3,  3,  3,  5,  3,  3,  3,  3,  3,  3,  3,  3,  4,  4,  4,  4,
     4,  4,  4,  6,  4,  4,  4,  4,  4,  4,  4,  4,  5,  5,  5,  5,
     4,  4,  4,  6,  4,  4,  4,  4,  4,  4,  4,  4,  5,  5,  5,  5 ]

def cycles_63701 : List Nat :=
  [ 99,  1, 99, 99,  1,  1,  1,  1,  1,  1,  1,  1,  1,  1,  1,  1,
     1,  1, 99, 99, 99, 99,  1,  1,  2,  2,  4,  1, 99, 99, 99, 99,
     3,  3,  3,  3,  3,  3,  3,  3,  3,  3,  3,  3,  3,  3,  3,  3,
     1,  1,  3,  3,  1,  1,  4,  4,  4,  5,  1, 10,  5,  7,  9, 12,
     1, 99, 99,  1,  1, 99,  1,  1,  1,  1,  1, 99,  1,  1, 99,  1,
     1, 99, 99,  1,  1, 99,  1,  1,  1,  1,  1, 99,  1,  1, 99,  1,
     6,  7,  7,  6,  6,  7,  6,  6,  6,  6,  6,  5,  6,  4,  3,  5,
     6,  6,  6,  6,  6,  6,  6,  6,  6,  6,  6,  4,  6,  4,  3,  5,
     2,  2,  2,  3,  2,  2,  2, 99,  2,  2,  2,  2,  3,  5,  3, 99,
     3,  3,  3,  4,  3,  3,  3,  3,  3,  3,  3,  3,  4,  5,  4,  4,
     4,  4,  4,  5,  4,  4,  4,  4,  4,  4,  4,  4,  5,  5,  5,  5,
     4,  4,  4,  5,  4,  4,  4,  4,  4,  4,  4,  4,  5,  6,  5,  5,
     2,  2,  2,  3,  2,  2,  2, 99,  2,  2,  2,  2,  3, 99,  3, 99,
     3,  3,  3,  4,  3,  3,  3,  3,  3,  3,  3,  3,  4,  4,  4,  4,
     4,  4,  4,  5,  4,  4,  4,  4,  4,  4,  4,  4,  5,  5,  5,  5,
     4,  4,  4,  5,  4,  4,  4,  4,  4,  4,  4,  4,  5,  5,  5,  5 ]

def cycles_nsc8105 : List Nat :=
  [ 99, 99,  2, 99, 99,  2, 99,  2,  4,  2,  4,  2,  2,  2,  2,  2,
     2, 99,  2, 99, 99,  2, 99,  2, 99, 99,  2,  2, 99, 99, 99, 99,
     4,  4, 99,  4,  4,  4,  4,  4,  4,  4,  4,  4,  4,  4,  4,  4,
     4,  4,  4,  4,  4,  4,  4,  4, 99, 99,  5, 10, 99,  9, 99, 12,
     2, 99, 99,  2,  2,  2, 99,  2,  2,  2,  2, 99,  2, 99,  2,  2,
     2, 99, 99,  2,  2,  2, 99,  2,  2,  2,  2, 99,  2, 99,  2,  2,
     7, 99, 99,  7,  7,  7, 99,  7,  7,  7,  7, 99,  7,  4,  7,  7,
     6, 99, 99,  6,  6,  6, 99,  6,  6,  6,  6, 99,  6,  3,  6,  6,
     2,  2,  2, 99,  2,  2,  2, 99,  2,  2,  2,  2,  3,  3,  8, 99,
     3,  3,  3, 99,  3,  3,  3,  4,  3,  3,  3,  3,  4,  4, 99,  5,
     5,  5,  5, 99,  5,  5,  5,  6,  5,  5,  5,  5,  6,  6,  8,  7,
     4,  4,  4, 99,  4,  4,  4,  5,  4,  4,  4,  4,  5,  5,  9,  6,
     2,  2,  2, 99,  2,  2,  2, 99,  2,  2,  2,  2, 99,  3, 99, 99,
     3,  3,  3, 99,  3,  3,  3,  4,  3,  3,  3,  3, 99,  4, 99,  5,
     5,  5,  5, 99,  5,  5,  5,  6,  5,  5,  5,  5,  5,  6, 99,  7,
     4,  4,  4, 99,  4,  4,  4,  5,  4,  4,  4,  4,  4,  5, 99,  6 ]

/-- The four execute loops of the file: `CPU_EXECUTE( m6800 )`, `CPU_EXECUTE( m6803 )`,
`CPU_EXECUTE( hd63701 )` and `CPU_EXECUTE( nsc8105 )`. They differ in the halt test, in the
cycle table and in the opcode switch. -/
inductive Cpu where
  | m6800
  | m6803
  | hd63701
  | nsc8105
deriving DecidableEq

/-- The mask tested against `wai_state` at the top of the loop body. -/
def halt_mask (h : Hdr) : Cpu → Nat
  | Cpu.m6800 => h.M6800_WAI
  | Cpu.m6803 => h.M6800_WAI
  | Cpu.hd63701 => h.HD63701_WAI ||| h.HD63701_SLP
  | Cpu.nsc8105 => h.NSC8105_WAI

/-- The cycle table charged after the opcode switch. -/
def cycle_table : Cpu → List Nat
  | Cpu.m6800 => cycles_6800
  | Cpu.m6803 => cycles_6803
  | Cpu.hd63701 => cycles_63701
  | Cpu.nsc8105 => cycles_nsc8105

/-- The body of the `do { ... } while` of an execute loop. `insn ireg` stands for the
`switch( ireg )` with the opcode bodies of `6800ops.c`. -/
def execute_body (h : Hdr) (v : Cpu) (insn : Nat → Machine → Machine) (m : Machine) : Machine :=
  if m.m68xx.wai_state &&& halt_mask h v ≠ 0 then EAT_CYCLES h m
  else
    let m1 : Machine := { m with m68xx := { m.m68xx with ppc := m.m68xx.pc } }
    let ireg := M_RDOP m1 m1.m68xx.pc
    let m2 : Machine := { m1 with m68xx := { m1.m68xx with pc := (m1.m68xx.pc + 1) % 0x10000 } }
    let m3 := insn ireg m2
    INCREMENT_COUNTER h (((cycle_table v).getD ireg 0 : Nat) : Int) m3

/-- The `do { ... } while( m6800_ICount>0 )` loop, with fuel: `none` when the fuel runs out
before the loop condition fails. -/
def execute_loop (h : Hdr) (v : Cpu) (insn : Nat → Machine → Machine) : Nat → Machine → Option Machine
  | 0, _ => none
  | fuel + 1, m =>
    let m1 := execute_body h v insn m
    if m1.m6800_ICount > 0 then execute_loop h v insn fuel m1 else some m1

/-- The function `CPU_EXECUTE`: the value returned and the machine left behind. -/
def CPU_EXECUTE (h : Hdr) (v : Cpu) (insn : Nat → Machine → Machine) (fuel : Nat) (cycles : Int)
    (m : Machine) : Option (Int × Machine) :=
  let m0 : Machine := { m with m6800_ICount := cycles }
  let m1 := CLEANUP_conters m0
  let m2 := INCREMENT_COUNTER h m1.m68xx.extra_cycles m1
  let m3 : Machine := { m2 with m68xx := { m2.m68xx with extra_cycles := 0 } }
  match execute_loop h v insn fuel m3 with
  | none => none
  | some m4 =>
    let m5 := INCREMENT_COUNTER h m4.m68xx.extra_cycles m4
    let m6 : Machine := { m5 with m68xx := { m5.m68xx with extra_cycles := 0 } }
    some (cycles - m6.m6800_ICount, m6)

/-- Host call `io_read_byte_8be` on port `p` (1 to 4): the external pins. -/
def io_read_byte_8be (m : Machine) (p : Nat) : Nat := m.pins p % 0x100

/-- Host call `io_write_byte_8be` on port `p` (1 to 4). -/
def io_write_byte_8be (m : Machine) (p v : Nat) : Machine :=
  { m with port_out := fun q => if q = p then v % 0x100 else m.port_out q }

/-- The statement repeated after each port register write: drive the port with the data
register, merged with the pins on the lines the DDR marks as inputs. -/
def drive_port (m : Machine) (p ddr data : Nat) : Machine :=
  if ddr = 0xff then io_write_byte_8be m p data
  else io_write_byte_8be m p ((data &&& ddr) ||| (io_read_byte_8be m p &&& (ddr ^^^ 0xff)))

/-- A PAIR with its byte `b.h` replaced. -/
def setBH (d v : Nat) : Nat := d / 0x10000 * 0x10000 + (v % 0x100) * 0x100 + d % 0x100

/-- A PAIR with its byte `b.l` replaced. -/
def setBL (d v : Nat) : Nat := d / 0x100 * 0x100 + v % 0x100

/-- The case 0x08 of `m6803_internal_registers_w`: a write to TCSR. -/
def TCSR_WRITE (h : Hdr) (data : Nat) (m : Machine) : Machine :=
  let m2 := MODIFIED_tcsr { m with m68xx := { m.m68xx with
      tcsr := data, pending_tcsr := m.m68xx.pending_tcsr &&& data } }
  if m2.m68xx.cc &&& 0x10 = 0 then m6800_check_irq2 h m2 else m2

/-- The handler `m6803_internal_registers_w`; `data` is the UINT8 written. The calls into the
host scheduler at offset 0x10 (`timer_enable`, `timer_adjust_periodic`) and the `logerror`
calls leave the machine as it is. -/
def m6803_internal_registers_w (h : Hdr) (offset data : Nat) (m : Machine) : Machine :=
  let r := m.m68xx
  match offset with
  | 0x00 =>
    if r.port1_ddr ≠ data then
      drive_port { m with m68xx := { r with port1_ddr := data } } 1 data r.port1_data
    else m
  | 0x01 =>
    if r.port2_ddr ≠ data then
      drive_port { m with m68xx := { r with port2_ddr := data } } 2 data r.port2_data
    else m
  | 0x02 => drive_port { m with m68xx := { r with port1_data := data } } 1 r.port1_ddr data
  | 0x03 =>
    let d := if r.trcsr &&& M6800_TRCSR_TE ≠ 0 then ((data &&& 0xef) ||| (r.tx.toNat <<< 4)) % 0x100
             else data
    drive_port { m with m68xx := { r with port2_data := d } } 2 r.port2_ddr d
  | 0x04 =>
    if r.port3_ddr ≠ data then
      drive_port { m with m68xx := { r with port3_ddr := data } } 3 data r.port3_data
    else m
  | 0x05 =>
    if r.port4_ddr ≠ data then
      drive_port { m with m68xx := { r with port4_ddr := data } } 4 data r.port4_data
    else m
  | 0x06 => drive_port { m with m68xx := { r with port3_data := data } } 3 r.port3_ddr data
  | 0x07 => drive_port { m with m68xx := { r with port4_data := data } } 4 r.port4_ddr data
  | 0x08 => TCSR_WRITE h data m
  | 0x09 =>
    MODIFIED_counters { m with
      latch09 := data &&& 0xff,
      m68xx := { r with
        counter := mkPAIR (WH r.counter) 0xfff8,
        timer_over := mkPAIR (WH r.timer_over) (WH r.counter) } }
  | 0x0a =>
    MODIFIED_counters { m with
      m68xx := { r with
        counter := mkPAIR (WH r.counter) ((m.latch09 <<< 8) ||| (data &&& 0xff)),
        timer_over := mkPAIR (WH r.timer_over) (WH r.counter) } }
  | 0x0b =>
    if BH r.output_compare ≠ data then
      MODIFIED_counters { m with m68xx := { r with output_compare := setBH r.output_compare data } }
    else m
  | 0x0c =>
    if BL r.output_compare ≠ data then
      MODIFIED_counters { m with m68xx := { r with output_compare := setBL r.output_compare data } }
    else m
  | 0x10 => { m with m68xx := { r with rmcr := data &&& 0x0f } }
  | 0x11 =>
    let r1 : m6800_Regs :=
      if data &&& M6800_TRCSR_TE ≠ 0 ∧ r.trcsr &&& M6800_TRCSR_TE = 0 then
        { r with txstate := M6800_TX_STATE_INIT }
      else r
    { m with m68xx := { r1 with trcsr := (r1.trcsr &&& 0xe0) ||| (data &&& 0x1f) } }
  | 0x13 =>
    let r1 : m6800_Regs :=
      if r.trcsr_read ≠ 0 then
        { r with trcsr_read := 0, trcsr := CLRBITS8 r.trcsr M6800_TRCSR_TDRE }
      else r
    { m with m68xx := { r1 with tdr := data } }
  | 0x14 => { m with m68xx := { r with ram_ctrl := data } }
  | _ => m

/-! ## The register window (read side) -/

/-- The handler `m6803_internal_registers_r`: the byte returned and the machine left behind.
The `logerror` calls leave the machine as it is. -/
def m6803_internal_registers_r (offset : Nat) (m : Machine) : Nat × Machine :=
  let r := m.m68xx
  match offset with
  | 0x00 => (r.port1_ddr, m)
  | 0x01 => (r.port2_ddr, m)
  | 0x02 =>
    ((io_read_byte_8be m 1 &&& (r.port1_ddr ^^^ 0xff)) ||| (r.port1_data &&& r.port1_ddr), m)
  | 0x03 =>
    ((io_read_byte_8be m 2 &&& (r.port2_ddr ^^^ 0xff)) ||| (r.port2_data &&& r.port2_ddr), m)
  | 0x04 => (r.port3_ddr, m)
  | 0x05 => (r.port4_ddr, m)
  | 0x06 =>
    ((io_read_byte_8be m 3 &&& (r.port3_ddr ^^^ 0xff)) ||| (r.port3_data &&& r.port3_ddr), m)
  | 0x07 =>
    ((io_read_byte_8be m 4 &&& (r.port4_ddr ^^^ 0xff)) ||| (r.port4_data &&& r.port4_ddr), m)
  | 0x08 => (r.tcsr, { m with m68xx := { r with pending_tcsr := 0 } })
  | 0x09 =>
    let m1 : Machine :=
      if r.pending_tcsr &&& TCSR_TOF = 0 then
        MODIFIED_tcsr { m with m68xx := { r with tcsr := CLRBITS8 r.tcsr TCSR_TOF } }
      else m
    (BH m1.m68xx.counter, m1)
  | 0x0a => (BL r.counter, m)
  | 0x0b =>
    let m1 : Machine :=
      if r.pending_tcsr &&& TCSR_OCF = 0 then
        MODIFIED_tcsr { m with m68xx := { r with tcsr := CLRBITS8 r.tcsr TCSR_OCF } }
      else m
    (BH m1.m68xx.output_compare, m1)
  | 0x0c =>
    let m1 : Machine :=
      if r.pending_tcsr &&& TCSR_OCF = 0 then
        MODIFIED_tcsr { m with m68xx := { r with tcsr := CLRBITS8 r.tcsr TCSR_OCF } }
      else m
    (BL m1.m68xx.output_compare, m1)
  | 0x0d =>
    let m1 : Machine :=
      if r.pending_tcsr &&& TCSR_ICF = 0 then
        MODIFIED_tcsr { m with m68xx := { r with tcsr := CLRBITS8 r.tcsr TCSR_ICF } }
      else m
    ((m1.m68xx.input_capture >>> 0) &&& 0xff, m1)
  | 0x0e => ((r.input_capture >>> 8) &&& 0xff, m)
  | 0x0f => (0, m)
  | 0x10 => (r.rmcr, m)
  | 0x11 => (r.trcsr, { m with m68xx := { r with trcsr_read := 1 } })
  | 0x12 =>
    let m1 : Machine :=
      if r.trcsr_read ≠ 0 then
        { m with m68xx := { r with trcsr_read := 0, trcsr := r.trcsr &&& 0x3f } }
      else m
    (m1.m68xx.rdr, m1)
  | 0x13 => (r.tdr, m)
  | 0x14 => (r.ram_ctrl, m)
  | _ => (0, m)

/-! ## The serial interface -/

/-- The function `m6800_tx`. -/
def m6800_tx (value : Int) (m : Machine) : Machine :=
  let d := ((m.m68xx.port2_data &&& 0xef) ||| (value.toNat <<< 4)) % 0x100
  drive_port { m with m68xx := { m.m68xx with port2_data := d } } 2 m.m68xx.port2_ddr d

/-- The function `m6800_rx`: the level of pin 3 of port 2. -/
def m6800_rx (m : Machine) : Nat := (io_read_byte_8be m 2 &&& M6800_PORT2_IO3) >>> 3

/-- The case `M6800_TX_STATE_INIT` of `m6800_tx_tick`. -/
def TX_INIT (m : Machine) : Machine :=
  let r : m6800_Regs := { m.m68xx with tx := 1, txbits := m.m68xx.txbits + 1 }
  if r.txbits = 10 then
    { m with m68xx := { r with txstate := M6800_TX_STATE_READY, txbits := M6800_SERIAL_START } }
  else { m with m68xx := r }

/-- The case `M6800_SERIAL_START` of the Ready state of `m6800_tx_tick`. -/
def TX_START (m : Machine) : Machine :=
  if m.m68xx.trcsr &&& M6800_TRCSR_TDRE ≠ 0 then
    { m with m68xx := { m.m68xx with tx := 1 } }
  else
    { m with m68xx := { m.m68xx with
        tsr := m.m68xx.tdr,
        trcsr := (m.m68xx.trcsr ||| M6800_TRCSR_TDRE) % 0x100,
        tx := 0,
        txbits := m.m68xx.txbits + 1 } }

/-- The case `M6800_SERIAL_STOP` of the Ready state of `m6800_tx_tick`. The calls
`cpu_push_context` and `cpu_pop_context` around `CHECK_IRQ_LINES` select the CPU in the host
and have no part in this model. -/
def TX_STOP (h : Hdr) (m : Machine) : Machine :=
  let m1 := CHECK_IRQ_LINES h { m with m68xx := { m.m68xx with tx := 1 } }
  { m1 with m68xx := { m1.m68xx with txbits := M6800_SERIAL_START } }

/-- The `default` case of the Ready state of `m6800_tx_tick`: a data bit. -/
def TX_DATA (m : Machine) : Machine :=
  { m with m68xx := { m.m68xx with
      tx := ((m.m68xx.tsr &&& 0x01 : Nat) : Int),
      tsr := m.m68xx.tsr >>> 1,
      txbits := m.m68xx.txbits + 1 } }

/-- The case `M6800_TX_STATE_READY` of `m6800_tx_tick`. -/
def TX_READY (h : Hdr) (m : Machine) : Machine :=
  if m.m68xx.txbits = M6800_SERIAL_START then TX_START m
  else if m.m68xx.txbits = M6800_SERIAL_STOP then TX_STOP h m
  else TX_DATA m

/-- The body of `if (m68xx.trcsr & M6800_TRCSR_TE)` in `m6800_tx_tick`. -/
def TX_ENABLED (h : Hdr) (m : Machine) : Machine :=
  let m0 : Machine := { m with m68xx := { m.m68xx with
      port2_ddr := (m.m68xx.port2_ddr ||| M6800_PORT2_IO4) % 0x100 } }
  if m0.m68xx.txstate = M6800_TX_STATE_INIT then TX_INIT m0
  else if m0.m68xx.txstate = M6800_TX_STATE_READY then TX_READY h m0
  else m0

/-- The timer callback `m6800_tx_tick`. -/
def m6800_tx_tick (h : Hdr) (m : Machine) : Machine :=
  let m1 := if m.m68xx.trcsr &&& M6800_TRCSR_TE ≠ 0 then TX_ENABLED h m else m
  m6800_tx m1.m68xx.tx m1

/-- The wake-up branch of `m6800_rx_tick`; `rx` is the value of `m6800_rx()`. -/
def RX_WAKE (rx : Nat) (m : Machine) : Machine :=
  if rx = 1 then
    let r : m6800_Regs := { m.m68xx with rxbits := m.m68xx.rxbits + 1 }
    if r.rxbits = 10 then
      { m with m68xx := { r with
          trcsr := CLRBITS8 r.trcsr M6800_TRCSR_WU, rxbits := M6800_SERIAL_START } }
    else { m with m68xx := r }
  else { m with m68xx := { m.m68xx with rxbits := M6800_SERIAL_START } }

/-- The case `M6800_SERIAL_STOP` of `m6800_rx_tick`; `rx` is the value of `m6800_rx()`. -/
def RX_STOP (h : Hdr) (rx : Nat) (m : Machine) : Machine :=
  let r := m.m68xx
  let m1 : Machine :=
    if rx = 1 then
      if r.trcsr &&& M6800_TRCSR_RDRF ≠ 0 then
        CHECK_IRQ_LINES h { m with m68xx := { r with
          trcsr := (r.trcsr ||| M6800_TRCSR_ORFE) % 0x100 } }
      else if r.trcsr &&& M6800_TRCSR_ORFE = 0 then
        CHECK_IRQ_LINES h { m with m68xx := { r with
          rdr := r.rsr, trcsr := (r.trcsr ||| M6800_TRCSR_RDRF) % 0x100 } }
      else m
    else
      let r1 : m6800_Regs := if r.trcsr &&& M6800_TRCSR_ORFE = 0 then { r with rdr := r.rsr } else r
      CHECK_IRQ_LINES h { m with m68xx := { r1 with
        trcsr := CLRBITS8 ((r1.trcsr ||| M6800_TRCSR_ORFE) % 0x100) M6800_TRCSR_RDRF } }
  { m1 with m68xx := { m1.m68xx with rxbits := M6800_SERIAL_START } }

/-- The `default` case of `m6800_rx_tick`: a data bit; `rx` is the value of `m6800_rx()`. -/
def RX_DATA (rx : Nat) (m : Machine) : Machine :=
  { m with m68xx := { m.m68xx with
      rsr := ((m.m68xx.rsr >>> 1) ||| (rx <<< 7)) % 0x100,
      rxbits := m.m68xx.rxbits + 1 } }

/-- The timer callback `m6800_rx_tick`, as a function of the value `rx` that `m6800_rx()`
returns during it. -/
def RX_TICK (h : Hdr) (rx : Nat) (m : Machine) : Machine :=
  if m.m68xx.trcsr &&& M6800_TRCSR_RE ≠ 0 then
    if m.m68xx.trcsr &&& M6800_TRCSR_WU ≠ 0 then RX_WAKE rx m
    else if m.m68xx.rxbits = M6800_SERIAL_START then
      if rx = 0 then { m with m68xx := { m.m68xx with rxbits := m.m68xx.rxbits + 1 } } else m
    else if m.m68xx.rxbits = M6800_SERIAL_STOP then RX_STOP h rx m
    else RX_DATA rx m
  else m

/-- The timer callback `m6800_rx_tick`. -/
def m6800_rx_tick (h : Hdr) (m : Machine) : Machine := RX_TICK h (m6800_rx m) m

/-- The timer callback `m6800_rx_tick` run once for each element of `samples`, the values
`m6800_rx()` returns on these ticks, in turn. -/
def RX_TICKS (h : Hdr) (samples : List Nat) (m : Machine) : Machine :=
  samples.foldl (fun s rx => RX_TICK h rx s) m

/-- The timer callback `m6800_tx_tick` run `n` times. -/
def TX_TICKS (h : Hdr) (n : Nat) (m : Machine) : Machine := Nat.iterate (m6800_tx_tick h) n m

/-! ## The increment and decrement flag tables -/

/-- The table `flags8i` (increment). -/
def flags8i : List Nat :=
  [ 0x04, 0x00, 0x00, 0x00, 0x00, 0x00, 0x00, 0x00, 0x00, 0x00, 0x00, 0x00, 0x00, 0x00, 0x00, 0x00,
    0x00, 0x00, 0x00, 0x00, 0x00, 0x00, 0x00, 0x00, 0x00, 0x00, 0x00, 0x00, 0x00, 0x00, 0x00, 0x00,
    0x00, 0x00, 0x00, 0x00, 0x00, 0x00, 0x00, 0x00, 0x00, 0x00, 0x00, 0x00, 0x00, 0x00, 0x00, 0x00,
    0x00, 0x00, 0x00, 0x00, 0x00, 0x00, 0x00, 0x00, 0x00, 0x00, 0x00, 0x00, 0x00, 0x00, 0x00, 0x00,
    0x00, 0x00, 0x00, 0x00, 0x00, 0x00, 0x00, 0x00, 0x00, 0x00, 0x00, 0x00, 0x00, 0x00, 0x00, 0x00,
    0x00, 0x00, 0x00, 0x00, 0x00, 0x00, 0x00, 0x00, 0x00, 0x00, 0x00, 0x00, 0x00, 0x00, 0x00, 0x00,
    0x00, 0x00, 0x00, 0x00, 0x00, 0x00, 0x00, 0x00, 0x00, 0x00, 0x00, 0x00, 0x00, 0x00, 0x00, 0x00,
    0x00, 0x00, 0x00, 0x00, 0x00, 0x00, 0x00, 0x00, 0x00, 0x00, 0x00, 0x00, 0x00, 0x00, 0x00, 0x00,
    0x0a, 0x08, 0x08, 0x08, 0x08, 0x08, 0x08, 0x08, 0x08, 0x08, 0x08, 0x08, 0x08, 0x08, 0x08, 0x08,
    0x08, 0x08, 0x08, 0x08, 0x08, 0x08, 0x08, 0x08, 0x08, 0x08, 0x08, 0x08, 0x08, 0x08, 0x08, 0x08,
    0x08, 0x08, 0x08, 0x08, 0x08, 0x08, 0x08, 0x08, 0x08, 0x08, 0x08, 0x08, 0x08, 0x08, 0x08, 0x08,
    0x08, 0x08, 0x08, 0x08, 0x08, 0x08, 0x08, 0x08, 0x08, 0x08, 0x08, 0x08, 0x08, 0x08, 0x08, 0x08,
    0x08, 0x08, 0x08, 0x08, 0x08, 0x08, 0x08, 0x08, 0x08, 0x08, 0x08, 0x08, 0x08, 0x08, 0x08, 0x08,
    0x08, 0x08, 0x08, 0x08, 0x08, 0x08, 0x08, 0x08, 0x08, 0x08, 0x08, 0x08, 0x08, 0x08, 0x08, 0x08,
    0x08, 0x08, 0x08, 0x08, 0x08, 0x08, 0x08, 0x08, 0x08, 0x08, 0x08, 0x08, 0x08, 0x08, 0x08, 0x08,
    0x08, 0x08, 0x08, 0x08, 0x08, 0x08, 0x08, 0x08, 0x08, 0x08, 0x08, 0x08, 0x08, 0x08, 0x08, 0x08 ]

/-- The table `flags8d` (decrement). -/
def flags8d : List Nat :=
  [ 0x04, 0x00, 0x00, 0x00, 0x00, 0x00, 0x00, 0x00, 0x00, 0x00, 0x00, 0x00, 0x00, 0x00, 0x00, 0x00,
    0x00, 0x00, 0x00, 0x00, 0x00, 0x00, 0x00, 0x00, 0x00, 0x00, 0x00, 0x00, 0x00, 0x00, 0x00, 0x00,
    0x00, 0x00, 0x00, 0x00, 0x00, 0x00, 0x00, 0x00, 0x00, 0x00, 0x00, 0x00, 0x00, 0x00, 0x00, 0x00,
    0x00, 0x00, 0x00, 0x00, 0x00, 0x00, 0x00, 0x00, 0x00, 0x00, 0x00, 0x00, 0x00, 0x00, 0x00, 0x00,
    0x00, 0x00, 0x00, 0x00, 0x00, 0x00, 0x00, 0x00, 0x00, 0x00, 0x00, 0x00, 0x00, 0x00, 0x00, 0x00,
    0x00, 0x00, 0x00, 0x00, 0x00, 0x00, 0x00, 0x00, 0x00, 0x00, 0x00, 0x00, 0x00, 0x00, 0x00, 0x00,
    0x00, 0x00, 0x00, 0x00, 0x00, 0x00, 0x00, 0x00, 0x00, 0x00, 0x00, 0x00, 0x00, 0x00, 0x00, 0x00,
    0x00, 0x00, 0x00, 0x00, 0x00, 0x00, 0x00, 0x00, 0x00, 0x00, 0x00, 0x00, 0x00, 0x00, 0x00, 0x02,
    0x08, 0x08, 0x08, 0x08, 0x08, 0x08, 0x08, 0x08, 0x08, 0x08, 0x08, 0x08, 0x08, 0x08, 0x08, 0x08,
    0x08, 0x08, 0x08, 0x08, 0x08, 0x08, 0x08, 0x08, 0x08, 0x08, 0x08, 0x08, 0x08, 0x08, 0x08, 0x08,
    0x08, 0x08, 0x08, 0x08, 0x08, 0x08, 0x08, 0x08, 0x08, 0x08, 0x08, 0x08, 0x08, 0x08, 0x08, 0x08,
    0x08, 0x08, 0x08, 0x08, 0x08, 0x08, 0x08, 0x08, 0x08, 0x08, 0x08, 0x08, 0x08, 0x08, 0x08, 0x08,
    0x08, 0x08, 0x08, 0x08, 0x08, 0x08, 0x08, 0x08, 0x08, 0x08, 0x08, 0x08, 0x08, 0x08, 0x08, 0x08,
    0x08, 0x08, 0x08, 0x08, 0x08, 0x08, 0x08, 0x08, 0x08, 0x08, 0x08, 0x08, 0x08, 0x08, 0x08, 0x08,
    0x08, 0x08, 0x08, 0x08, 0x08, 0x08, 0x08, 0x08, 0x08, 0x08, 0x08, 0x08, 0x08, 0x08, 0x08, 0x08,
    0x08, 0x08, 0x08, 0x08, 0x08, 0x08, 0x08, 0x08, 0x08, 0x08, 0x08, 0x08, 0x08, 0x08, 0x08, 0x08 ]

/-- The macro `SET_FLAGS8I`. -/
def SET_FLAGS8I (cc a : Nat) : Nat := cc ||| flags8i.getD (a &&& 0xff) 0

/-- The macro `SET_FLAGS8D`. -/
def SET_FLAGS8D (cc a : Nat) : Nat := cc ||| flags8d.getD (a &&& 0xff) 0

/-! ## The opcode switches -/

/-- What a `case` of a `switch( ireg )` calls: `illegal()`, `trap()`, or the opcode body (or
flag macro) of the given name. -/
inductive Handler where
  | illegal
  | trap
  | op (name : String)

/-- Whether a handler is the call `illegal()`. -/
def Handler.is_illegal : Handler → Bool
  | Handler.illegal => true
  | _ => false

/-- The `switch( ireg )` of `CPU_EXECUTE( m6800 )`: the handler of each opcode, in opcode order. -/
def switch_m6800 : List Handler :=
  [ Handler.illegal, Handler.op "nop", Handler.illegal, Handler.illegal,
    Handler.illegal, Handler.illegal, Handler.op "tap", Handler.op "tpa",
    Handler.op "inx", Handler.op "dex", Handler.op "CLV", Handler.op "SEV",
    Handler.op "CLC", Handler.op "SEC", Handler.op "cli", Handler.op "sei",
    Handler.op "sba", Handler.op "cba", Handler.illegal, Handler.illegal,
    Handler.illegal, Handler.illegal, Handler.op "tab", Handler.op "tba",
    Handler.illegal, Handler.op "daa", Handler.illegal, Handler.op "aba",
    Handler.illegal, Handler.illegal, Handler.illegal, Handler.illegal,
    Handler.op "bra", Handler.op "brn", Handler.op "bhi", Handler.op "bls",
    Handler.op "bcc", Handler.op "bcs", Handler.op "bne", Handler.op "beq",
    Handler.op "bvc", Handler.op "bvs", Handler.op "bpl", Handler.op "bmi",
    Handler.op "bge", Handler.op "blt", Handler.op "bgt", Handler.op "ble",
    Handler.op "tsx", Handler.op "ins", Handler.op "pula", Handler.op "pulb",
    Handler.op "des", Handler.op "txs", Handler.op "psha", Handler.op "pshb",
    Handler.illegal, Handler.op "rts", Handler.illegal, Handler.op "rti",
    Handler.illegal, Handler.illegal, Handler.op "wai", Handler.op "swi",
    Handler.op "nega", Handler.illegal, Handler.illegal, Handler.op "coma",
    Handler.op "lsra", Handler.illegal, Handler.op "rora", Handler.op "asra",
    Handler.op "asla", Handler.op "rola", Handler.op "deca", Handler.illegal,
    Handler.op "inca", Handler.op "tsta", Handler.illegal, Handler.op "clra",
    Handler.op "negb", Handler.illegal, Handler.illegal, Handler.op "comb",
    Handler.op "lsrb", Handler.illegal, Handler.op "rorb", Handler.op "asrb",
    Handler.op "aslb", Handler.op "rolb", Handler.op "decb", Handler.illegal,
    Handler.op "incb", Handler.op "tstb", Handler.illegal, Handler.op "clrb",
    Handler.op "neg_ix", Handler.illegal, Handler.illegal, Handler.op "com_ix",
    Handler.op "lsr_ix", Handler.illegal, Handler.op "ror_ix", Handler.op "asr_ix",
    Handler.op "asl_ix", Handler.op "rol_ix", Handler.op "dec_ix", Handler.illegal,
    Handler.op "inc_ix", Handler.op "tst_ix", Handler.op "jmp_ix", Handler.op "clr_ix",
    Handler.op "neg_ex", Handler.illegal, Handler.illegal, Handler.op "com_ex",
    Handler.op "lsr_ex", Handler.illegal, Handler.op "ror_ex", Handler.op "asr_ex",
    Handler.op "asl_ex", Handler.op "rol_ex", Handler.op "dec_ex", Handler.illegal,
    Handler.op "inc_ex", Handler.op "tst_ex", Handler.op "jmp_ex", Handler.op "clr_ex",
    Handler.op "suba_im", Handler.op "cmpa_im", Handler.op "sbca_im", Handler.illegal,
    Handler.op "anda_im", Handler.op "bita_im", Handler.op "lda_im", Handler.op "sta_im",
    Handler.op "eora_im", Handler.op "adca_im", Handler.op "ora_im", Handler.op "adda_im",
    Handler.op "cmpx_im", Handler.op "bsr", Handler.op "lds_im", Handler.op "sts_im",
    Handler.op "suba_di", Handler.op "cmpa_di", Handler.op "sbca_di", Handler.illegal,
    Handler.op "anda_di", Handler.op "bita_di", Handler.op "lda_di", Handler.op "sta_di",
    Handler.op "eora_di", Handler.op "adca_di", Handler.op "ora_di", Handler.op "adda_di",
    Handler.op "cmpx_di", Handler.op "jsr_di", Handler.op "lds_di", Handler.op "sts_di",
    Handler.op "suba_ix", Handler.op "cmpa_ix", Handler.op "sbca_ix", Handler.illegal,
    Handler.op "anda_ix", Handler.op "bita_ix", Handler.op "lda_ix", Handler.op "sta_ix",
    Handler.op "eora_ix", Handler.op "adca_ix", Handler.op "ora_ix", Handler.op "adda_ix",
    Handler.op "cmpx_ix", Handler.op "jsr_ix", Handler.op "lds_ix", Handler.op "sts_ix",
    Handler.op "suba_ex", Handler.op "cmpa_ex", Handler.op "sbca_ex", Handler.illegal,
    Handler.op "anda_ex", Handler.op "bita_ex", Handler.op "lda_ex", Handler.op "sta_ex",
    Handler.op "eora_ex", Handler.op "adca_ex", Handler.op "ora_ex", Handler.op "adda_ex",
    Handler.op "cmpx_ex", Handler.op "jsr_ex", Handler.op "lds_ex", Handler.op "sts_ex",
    Handler.op "subb_im", Handler.op "cmpb_im", Handler.op "sbcb_im", Handler.illegal,
    Handler.op "andb_im", Handler.op "bitb_im", Handler.op "ldb_im", Handler.op "stb_im",
    Handler.op "eorb_im", Handler.op "adcb_im", Handler.op "orb_im", Handler.op "addb_im",
    Handler.illegal, Handler.illegal, Handler.op "ldx_im", Handler.op "stx_im",
    Handler.op "subb_di", Handler.op "cmpb_di", Handler.op "sbcb_di", Handler.illegal,
    Handler.op "andb_di", Handler.op "bitb_di", Handler.op "ldb_di", Handler.op "stb_di",
    Handler.op "eorb_di", Handler.op "adcb_di", Handler.op "orb_di", Handler.op "addb_di",
    Handler.illegal, Handler.illegal, Handler.op "ldx_di", Handler.op "stx_di",
    Handler.op "subb_ix", Handler.op "cmpb_ix", Handler.op "sbcb_ix", Handler.illegal,
    Handler.op "andb_ix", Handler.op "bitb_ix", Handler.op "ldb_ix", Handler.op "stb_ix",
    Handler.op "eorb_ix", Handler.op "adcb_ix", Handler.op "orb_ix", Handler.op "addb_ix",
    Handler.illegal, Handler.illegal, Handler.op "ldx_ix", Handler.op "stx_ix",
    Handler.op "subb_ex", Handler.op "cmpb_ex", Handler.op "sbcb_ex", Handler.illegal,
    Handler.op "andb_ex", Handler.op "bitb_ex", Handler.op "ldb_ex", Handler.op "stb_ex",
    Handler.op "eorb_ex", Handler.op "adcb_ex", Handler.op "orb_ex", Handler.op "addb_ex",
    Handler.op "addx_ex", Handler.illegal, Handler.op "ldx_ex", Handler.op "stx_ex" ]

/-- The `switch( ireg )` of `CPU_EXECUTE( m6803 )`: the handler of each opcode, in opcode order. -/
def switch_m6803 : List Handler :=
  [ Handler.illegal, Handler.op "nop", Handler.illegal, Handler.illegal,
    Handler.op "lsrd", Handler.op "asld", Handler.op "tap", Handler.op "tpa",
    Handler.op "inx", Handler.op "dex", Handler.op "CLV", Handler.op "SEV",
    Handler.op "CLC", Handler.op "SEC", Handler.op "cli", Handler.op "sei",
    Handler.op "sba", Handler.op "cba", Handler.illegal, Handler.illegal,
    Handler.illegal, Handler.illegal, Handler.op "tab", Handler.op "tba",
    Handler.illegal, Handler.op "daa", Handler.illegal, Handler.op "aba",
    Handler.illegal, Handler.illegal, Handler.illegal, Handler.illegal,
    Handler.op "bra", Handler.op "brn", Handler.op "bhi", Handler.op "bls",
    Handler.op "bcc", Handler.op "bcs", Handler.op "bne", Handler.op "beq",
    Handler.op "bvc", Handler.op "bvs", Handler.op "bpl", Handler.op "bmi",
    Handler.op "bge", Handler.op "blt", Handler.op "bgt", Handler.op "ble",
    Handler.op "tsx", Handler.op "ins", Handler.op "pula", Handler.op "pulb",
    Handler.op "des", Handler.op "txs", Handler.op "psha", Handler.op "pshb",
    Handler.op "pulx", Handler.op "rts", Handler.op "abx", Handler.op "rti",
    Handler.op "pshx", Handler.op "mul", Handler.op "wai", Handler.op "swi",
    Handler.op "nega", Handler.illegal, Handler.illegal, Handler.op "coma",
    Handler.op "lsra", Handler.illegal, Handler.op "rora", Handler.op "asra",
    Handler.op "asla", Handler.op "rola", Handler.op "deca", Handler.illegal,
    Handler.op "inca", Handler.op "tsta", Handler.illegal, Handler.op "clra",
    Handler.op "negb", Handler.illegal, Handler.illegal, Handler.op "comb",
    Handler.op "lsrb", Handler.illegal, Handler.op "rorb", Handler.op "asrb",
    Handler.op "aslb", Handler.op "rolb", Handler.op "decb", Handler.illegal,
    Handler.op "incb", Handler.op "tstb", Handler.illegal, Handler.op "clrb",
    Handler.op "neg_ix", Handler.illegal, Handler.illegal, Handler.op "com_ix",
    Handler.op "lsr_ix", Handler.illegal, Handler.op "ror_ix", Handler.op "asr_ix",
    Handler.op "asl_ix", Handler.op "rol_ix", Handler.op "dec_ix", Handler.illegal,
    Handler.op "inc_ix", Handler.op "tst_ix", Handler.op "jmp_ix", Handler.op "clr_ix",
    Handler.op "neg_ex", Handler.illegal, Handler.illegal, Handler.op "com_ex",
    Handler.op "lsr_ex", Handler.illegal, Handler.op "ror_ex", Handler.op "asr_ex",
    Handler.op "asl_ex", Handler.op "rol_ex", Handler.op "dec_ex", Handler.illegal,
    Handler.op "inc_ex", Handler.op "tst_ex", Handler.op "jmp_ex", Handler.op "clr_ex",
    Handler.op "suba_im", Handler.op "cmpa_im", Handler.op "sbca_im", Handler.op "subd_im",
    Handler.op "anda_im", Handler.op "bita_im", Handler.op "lda_im", Handler.op "sta_im",
    Handler.op "eora_im", Handler.op "adca_im", Handler.op "ora_im", Handler.op "adda_im",
    Handler.op "cpx_im", Handler.op "bsr", Handler.op "lds_im", Handler.op "sts_im",
    Handler.op "suba_di", Handler.op "cmpa_di", Handler.op "sbca_di", Handler.op "subd_di",
    Handler.op "anda_di", Handler.op "bita_di", Handler.op "lda_di", Handler.op "sta_di",
    Handler.op "eora_di", Handler.op "adca_di", Handler.op "ora_di", Handler.op "adda_di",
    Handler.op "cpx_di", Handler.op "jsr_di", Handler.op "lds_di", Handler.op "sts_di",
    Handler.op "suba_ix", Handler.op "cmpa_ix", Handler.op "sbca_ix", Handler.op "subd_ix",
    Handler.op "anda_ix", Handler.op "bita_ix", Handler.op "lda_ix", Handler.op "sta_ix",
    Handler.op "eora_ix", Handler.op "adca_ix", Handler.op "ora_ix", Handler.op "adda_ix",
    Handler.op "cpx_ix", Handler.op "jsr_ix", Handler.op "lds_ix", Handler.op "sts_ix",
    Handler.op "suba_ex", Handler.op "cmpa_ex", Handler.op "sbca_ex", Handler.op "subd_ex",
    Handler.op "anda_ex", Handler.op "bita_ex", Handler.op "lda_ex", Handler.op "sta_ex",
    Handler.op "eora_ex", Handler.op "adca_ex", Handler.op "ora_ex", Handler.op "adda_ex",
    Handler.op "cpx_ex", Handler.op "jsr_ex", Handler.op "lds_ex", Handler.op "sts_ex",
    Handler.op "subb_im", Handler.op "cmpb_im", Handler.op "sbcb_im", Handler.op "addd_im",
    Handler.op "andb_im", Handler.op "bitb_im", Handler.op "ldb_im", Handler.op "stb_im",
    Handler.op "eorb_im", Handler.op "adcb_im", Handler.op "orb_im", Handler.op "addb_im",
    Handler.op "ldd_im", Handler.op "std_im", Handler.op "ldx_im", Handler.op "stx_im",
    Handler.op "subb_di", Handler.op "cmpb_di", Handler.op "sbcb_di", Handler.op "addd_di",
    Handler.op "andb_di", Handler.op "bitb_di", Handler.op "ldb_di", Handler.op "stb_di",
    Handler.op "eorb_di", Handler.op "adcb_di", Handler.op "orb_di", Handler.op "addb_di",
    Handler.op "ldd_di", Handler.op "std_di", Handler.op "ldx_di", Handler.op "stx_di",
    Handler.op "subb_ix", Handler.op "cmpb_ix", Handler.op "sbcb_ix", Handler.op "addd_ix",
    Handler.op "andb_ix", Handler.op "bitb_ix", Handler.op "ldb_ix", Handler.op "stb_ix",
    Handler.op "eorb_ix", Handler.op "adcb_ix", Handler.op "orb_ix", Handler.op "addb_ix",
    Handler.op "ldd_ix", Handler.op "std_ix", Handler.op "ldx_ix", Handler.op "stx_ix",
    Handler.op "subb_ex", Handler.op "cmpb_ex", Handler.op "sbcb_ex", Handler.op "addd_ex",
    Handler.op "andb_ex", Handler.op "bitb_ex", Handler.op "ldb_ex", Handler.op "stb_ex",
    Handler.op "eorb_ex", Handler.op "adcb_ex", Handler.op "orb_ex", Handler.op "addb_ex",
    Handler.op "ldd_ex", Handler.op "std_ex", Handler.op "ldx_ex", Handler.op "stx_ex" ]

/-- The `switch( ireg )` of `CPU_EXECUTE( hd63701 )`: the handler of each opcode, in opcode order. -/
def switch_hd63701 : List Handler :=
  [ Handler.trap, Handler.op "nop", Handler.trap, Handler.trap,
    Handler.op "lsrd", Handler.op "asld", Handler.op "tap", Handler.op "tpa",
    Handler.op "inx", Handler.op "dex", Handler.op "CLV", Handler.op "SEV",
    Handler.op "CLC", Handler.op "SEC", Handler.op "cli", Handler.op "sei",
    Handler.op "sba", Handler.op "cba", Handler.op "undoc1", Handler.op "undoc2",
    Handler.trap, Handler.trap, Handler.op "tab", Handler.op "tba",
    Handler.op "xgdx", Handler.op "daa", Handler.op "slp", Handler.op "aba",
    Handler.trap, Handler.trap, Handler.trap, Handler.trap,
    Handler.op "bra", Handler.op "brn", Handler.op "bhi", Handler.op "bls",
    Handler.op "bcc", Handler.op "bcs", Handler.op "bne", Handler.op "beq",
    Handler.op "bvc", Handler.op "bvs", Handler.op "bpl", Handler.op "bmi",
    Handler.op "bge", Handler.op "blt", Handler.op "bgt", Handler.op "ble",
    Handler.op "tsx", Handler.op "ins", Handler.op "pula", Handler.op "pulb",
    Handler.op "des", Handler.op "txs", Handler.op "psha", Handler.op "pshb",
    Handler.op "pulx", Handler.op "rts", Handler.op "abx", Handler.op "rti",
    Handler.op "pshx", Handler.op "mul", Handler.op "wai", Handler.op "swi",
    Handler.op "nega", Handler.trap, Handler.trap, Handler.op "coma",
    Handler.op "lsra", Handler.trap, Handler.op "rora", Handler.op "asra",
    Handler.op "asla", Handler.op "rola", Handler.op "deca", Handler.trap,
    Handler.op "inca", Handler.op "tsta", Handler.trap, Handler.op "clra",
    Handler.op "negb", Handler.trap, Handler.trap, Handler.op "comb",
    Handler.op "lsrb", Handler.trap, Handler.op "rorb", Handler.op "asrb",
    Handler.op "aslb", Handler.op "rolb", Handler.op "decb", Handler.trap,
    Handler.op "incb", Handler.op "tstb", Handler.trap, Handler.op "clrb",
    Handler.op "neg_ix", Handler.op "aim_ix", Handler.op "oim_ix", Handler.op "com_ix",
    Handler.op "lsr_ix", Handler.op "eim_ix", Handler.op "ror_ix", Handler.op "asr_ix",
    Handler.op "asl_ix", Handler.op "rol_ix", Handler.op "dec_ix", Handler.op "tim_ix",
    Handler.op "inc_ix", Handler.op "tst_ix", Handler.op "jmp_ix", Handler.op "clr_ix",
    Handler.op "neg_ex", Handler.op "aim_di", Handler.op "oim_di", Handler.op "com_ex",
    Handler.op "lsr_ex", Handler.op "eim_di", Handler.op "ror_ex", Handler.op "asr_ex",
    Handler.op "asl_ex", Handler.op "rol_ex", Handler.op "dec_ex", Handler.op "tim_di",
    Handler.op "inc_ex", Handler.op "tst_ex", Handler.op "jmp_ex", Handler.op "clr_ex",
    Handler.op "suba_im", Handler.op "cmpa_im", Handler.op "sbca_im", Handler.op "subd_im",
    Handler.op "anda_im", Handler.op "bita_im", Handler.op "lda_im", Handler.op "sta_im",
    Handler.op "eora_im", Handler.op "adca_im", Handler.op "ora_im", Handler.op "adda_im",
    Handler.op "cpx_im", Handler.op "bsr", Handler.op "lds_im", Handler.op "sts_im",
    Handler.op "suba_di", Handler.op "cmpa_di", Handler.op "sbca_di", Handler.op "subd_di",
    Handler.op "anda_di", Handler.op "bita_di", Handler.op "lda_di", Handler.op "sta_di",
    Handler.op "eora_di", Handler.op "adca_di", Handler.op "ora_di", Handler.op "adda_di",
    Handler.op "cpx_di", Handler.op "jsr_di", Handler.op "lds_di", Handler.op "sts_di",
    Handler.op "suba_ix", Handler.op "cmpa_ix", Handler.op "sbca_ix", Handler.op "subd_ix",
    Handler.op "anda_ix", Handler.op "bita_ix", Handler.op "lda_ix", Handler.op "sta_ix",
    Handler.op "eora_ix", Handler.op "adca_ix", Handler.op "ora_ix", Handler.op "adda_ix",
    Handler.op "cpx_ix", Handler.op "jsr_ix", Handler.op "lds_ix", Handler.op "sts_ix",
    Handler.op "suba_ex", Handler.op "cmpa_ex", Handler.op "sbca_ex", Handler.op "subd_ex",
    Handler.op "anda_ex", Handler.op "bita_ex", Handler.op "lda_ex", Handler.op "sta_ex",
    Handler.op "eora_ex", Handler.op "adca_ex", Handler.op "ora_ex", Handler.op "adda_ex",
    Handler.op "cpx_ex", Handler.op "jsr_ex", Handler.op "lds_ex", Handler.op "sts_ex",
    Handler.op "subb_im", Handler.op "cmpb_im", Handler.op "sbcb_im", Handler.op "addd_im",
    Handler.op "andb_im", Handler.op "bitb_im", Handler.op "ldb_im", Handler.op "stb_im",
    Handler.op "eorb_im", Handler.op "adcb_im", Handler.op "orb_im", Handler.op "addb_im",
    Handler.op "ldd_im", Handler.op "std_im", Handler.op "ldx_im", Handler.op "stx_im",
    Handler.op "subb_di", Handler.op "cmpb_di", Handler.op "sbcb_di", Handler.op "addd_di",
    Handler.op "andb_di", Handler.op "bitb_di", Handler.op "ldb_di", Handler.op "stb_di",
    Handler.op "eorb_di", Handler.op "adcb_di", Handler.op "orb_di", Handler.op "addb_di",
    Handler.op "ldd_di", Handler.op "std_di", Handler.op "ldx_di", Handler.op "stx_di",
    Handler.op "subb_ix", Handler.op "cmpb_ix", Handler.op "sbcb_ix", Handler.op "addd_ix",
    Handler.op "andb_ix", Handler.op "bitb_ix", Handler.op "ldb_ix", Handler.op "stb_ix",
    Handler.op "eorb_ix", Handler.op "adcb_ix", Handler.op "orb_ix", Handler.op "addb_ix",
    Handler.op "ldd_ix", Handler.op "std_ix", Handler.op "ldx_ix", Handler.op "stx_ix",
    Handler.op "subb_ex", Handler.op "cmpb_ex", Handler.op "sbcb_ex", Handler.op "addd_ex",
    Handler.op "andb_ex", Handler.op "bitb_ex", Handler.op "ldb_ex", Handler.op "stb_ex",
    Handler.op "eorb_ex", Handler.op "adcb_ex", Handler.op "orb_ex", Handler.op "addb_ex",
    Handler.op "ldd_ex", Handler.op "std_ex", Handler.op "ldx_ex", Handler.op "stx_ex" ]

/-- The `switch( ireg )` of `CPU_EXECUTE( nsc8105 )`: the handler of each opcode, in opcode order. -/
def switch_nsc8105 : List Handler :=
  [ Handler.illegal, Handler.illegal, Handler.op "nop", Handler.illegal,
    Handler.illegal, Handler.op "tap", Handler.illegal, Handler.op "tpa",
    Handler.op "inx", Handler.op "CLV", Handler.op "dex", Handler.op "SEV",
    Handler.op "CLC", Handler.op "cli", Handler.op "SEC", Handler.op "sei",
    Handler.op "sba", Handler.illegal, Handler.op "cba", Handler.illegal,
    Handler.illegal, Handler.op "tab", Handler.illegal, Handler.op "tba",
    Handler.illegal, Handler.illegal, Handler.op "daa", Handler.op "aba",
    Handler.illegal, Handler.illegal, Handler.illegal, Handler.illegal,
    Handler.op "bra", Handler.op "bhi", Handler.op "brn", Handler.op "bls",
    Handler.op "bcc", Handler.op "bne", Handler.op "bcs", Handler.op "beq",
    Handler.op "bvc", Handler.op "bpl", Handler.op "bvs", Handler.op "bmi",
    Handler.op "bge", Handler.op "bgt", Handler.op "blt", Handler.op "ble",
    Handler.op "tsx", Handler.op "pula", Handler.op "ins", Handler.op "pulb",
    Handler.op "des", Handler.op "psha", Handler.op "txs", Handler.op "pshb",
    Handler.illegal, Handler.illegal, Handler.op "rts", Handler.op "rti",
    Handler.illegal, Handler.op "wai", Handler.illegal, Handler.op "swi",
    Handler.op "suba_im", Handler.op "sbca_im", Handler.op "cmpa_im", Handler.illegal,
    Handler.op "anda_im", Handler.op "lda_im", Handler.op "bita_im", Handler.op "sta_im",
    Handler.op "eora_im", Handler.op "ora_im", Handler.op "adca_im", Handler.op "adda_im",
    Handler.op "cmpx_im", Handler.op "lds_im", Handler.op "bsr", Handler.op "sts_im",
    Handler.op "suba_di", Handler.op "sbca_di", Handler.op "cmpa_di", Handler.illegal,
    Handler.op "anda_di", Handler.op "lda_di", Handler.op "bita_di", Handler.op "sta_di",
    Handler.op "eora_di", Handler.op "ora_di", Handler.op "adca_di", Handler.op "adda_di",
    Handler.op "cmpx_di", Handler.op "lds_di", Handler.op "jsr_di", Handler.op "sts_di",
    Handler.op "suba_ix", Handler.op "sbca_ix", Handler.op "cmpa_ix", Handler.illegal,
    Handler.op "anda_ix", Handler.op "lda_ix", Handler.op "bita_ix", Handler.op "sta_ix",
    Handler.op "eora_ix", Handler.op "ora_ix", Handler.op "adca_ix", Handler.op "adda_ix",
    Handler.op "cmpx_ix", Handler.op "lds_ix", Handler.op "jsr_ix", Handler.op "sts_ix",
    Handler.op "suba_ex", Handler.op "sbca_ex", Handler.op "cmpa_ex", Handler.illegal,
    Handler.op "anda_ex", Handler.op "lda_ex", Handler.op "bita_ex", Handler.op "sta_ex",
    Handler.op "eora_ex", Handler.op "ora_ex", Handler.op "adca_ex", Handler.op "adda_ex",
    Handler.op "cmpx_ex", Handler.op "lds_ex", Handler.op "jsr_ex", Handler.op "sts_ex",
    Handler.op "nega", Handler.illegal, Handler.illegal, Handler.op "coma",
    Handler.op "lsra", Handler.op "rora", Handler.illegal, Handler.op "asra",
    Handler.op "asla", Handler.op "deca", Handler.op "rola", Handler.illegal,
    Handler.op "inca", Handler.illegal, Handler.op "tsta", Handler.op "clra",
    Handler.op "negb", Handler.illegal, Handler.illegal, Handler.op "comb",
    Handler.op "lsrb", Handler.op "rorb", Handler.illegal, Handler.op "asrb",
    Handler.op "aslb", Handler.op "decb", Handler.op "rolb", Handler.illegal,
    Handler.op "incb", Handler.illegal, Handler.op "tstb", Handler.op "clrb",
    Handler.op "neg_ix", Handler.illegal, Handler.illegal, Handler.op "com_ix",
    Handler.op "lsr_ix", Handler.op "ror_ix", Handler.illegal, Handler.op "asr_ix",
    Handler.op "asl_ix", Handler.op "dec_ix", Handler.op "rol_ix", Handler.illegal,
    Handler.op "inc_ix", Handler.op "jmp_ix", Handler.op "tst_ix", Handler.op "clr_ix",
    Handler.op "neg_ex", Handler.illegal, Handler.illegal, Handler.op "com_ex",
    Handler.op "lsr_ex", Handler.op "ror_ex", Handler.illegal, Handler.op "asr_ex",
    Handler.op "asl_ex", Handler.op "dec_ex", Handler.op "rol_ex", Handler.illegal,
    Handler.op "inc_ex", Handler.op "jmp_ex", Handler.op "tst_ex", Handler.op "clr_ex",
    Handler.op "subb_im", Handler.op "sbcb_im", Handler.op "cmpb_im", Handler.illegal,
    Handler.op "andb_im", Handler.op "ldb_im", Handler.op "bitb_im", Handler.op "stb_im",
    Handler.op "eorb_im", Handler.op "orb_im", Handler.op "adcb_im", Handler.op "addb_im",
    Handler.illegal, Handler.op "ldx_im", Handler.illegal, Handler.op "stx_im",
    Handler.op "subb_di", Handler.op "sbcb_di", Handler.op "cmpb_di", Handler.illegal,
    Handler.op "andb_di", Handler.op "ldb_di", Handler.op "bitb_di", Handler.op "stb_di",
    Handler.op "eorb_di", Handler.op "orb_di", Handler.op "adcb_di", Handler.op "addb_di",
    Handler.illegal, Handler.op "ldx_di", Handler.illegal, Handler.op "stx_di",
    Handler.op "subb_ix", Handler.op "sbcb_ix", Handler.op "cmpb_ix", Handler.illegal,
    Handler.op "andb_ix", Handler.op "ldb_ix", Handler.op "bitb_ix", Handler.op "stb_ix",
    Handler.op "eorb_ix", Handler.op "orb_ix", Handler.op "adcb_ix", Handler.op "addb_ix",
    Handler.op "adcx_im", Handler.op "ldx_ix", Handler.illegal, Handler.op "stx_ix",
    Handler.op "subb_ex", Handler.op "sbcb_ex", Handler.op "cmpb_ex", Handler.illegal,
    Handler.op "andb_ex", Handler.op "ldb_ex", Handler.op "bitb_ex", Handler.op "stb_ex",
    Handler.op "eorb_ex", Handler.op "orb_ex", Handler.op "adcb_ex", Handler.op "addb_ex",
    Handler.op "addx_ex", Handler.op "ldx_ex", Handler.illegal, Handler.op "stx_ex" ]

/-- The opcode switch of each execute loop. -/
def opcode_switch : Cpu → List Handler
  | Cpu.m6800 => switch_m6800
  | Cpu.m6803 => switch_m6803
  | Cpu.hd63701 => switch_hd63701
  | Cpu.nsc8105 => switch_nsc8105

/-- Whether opcode `ireg` is routed to `illegal()` by the switch of the loop `v`. -/
def routed_to_illegal (v : Cpu) (ireg : Nat) : Bool :=
  ((opcode_switch v).getD ireg (Handler.op "")).is_illegal

/-! ## Reset and context copy -/

/-- The function `CPU_RESET`. The two `timer_enable` calls act on host timers and have no part
in this model; `CHANGE_PC` is a host hook without effect on the state. -/
def CPU_RESET (m : Machine) : Machine :=
  { m with m68xx := { m.m68xx with
      cc := SEI m.m68xx.cc,
      pc := RM16 m 0xfffe,
      wai_state := 0,
      nmi_state := 0,
      irq_state_IRQ := 0,
      irq_state_TIN := 0,
      ic_eddge := 0,
      port1_ddr := 0x00,
      port2_ddr := 0x00,
      tcsr := 0x00,
      pending_tcsr := 0x00,
      irq2 := 0,
      counter := 0x0000,
      output_compare := 0xffff,
      timer_over := 0xffff,
      ram_ctrl := (m.m68xx.ram_ctrl ||| 0x40) % 0x100,
      trcsr := M6800_TRCSR_TDRE,
      rmcr := 0,
      txstate := M6800_TX_STATE_INIT,
      txbits := 0,
      rxbits := 0,
      trcsr_read := 0 } }

/-- The function `CPU_GET_CONTEXT`: the buffer `dst` after the call, `none` standing for the
null pointer. -/
def CPU_GET_CONTEXT (m : Machine) (dst : Option m6800_Regs) : Option m6800_Regs :=
  match dst with
  | some _ => some m.m68xx
  | none => none

/-- The function `CPU_SET_CONTEXT`: the copy from `src` (skipped for the null pointer `none`),
then `CHECK_IRQ_LINES`. -/
def CPU_SET_CONTEXT (h : Hdr) (src : Option m6800_Regs) (m : Machine) : Machine :=
  let m1 : Machine :=
    match src with
    | some r => { m with m68xx := r }
    | none => m
  CHECK_IRQ_LINES h m1

/-! ## Constants of the information function -/

/-- The value returned for `CPUINFO_INT_MIN_CYCLES`. -/
def CPUINFO_INT_MIN_CYCLES : Nat := 1

/-- The value returned for `CPUINFO_INT_MAX_CYCLES`. -/
def CPUINFO_INT_MAX_CYCLES : Nat := 12

/-! ## The mp68a keypad encoder (`didact.cpp`) -/

/-- The members of `didact_state` the keypad encoder uses: `uint8_t m_lines[4]`, `m_shift`,
`m_led` and the outputs `m_leds`. -/
structure mp68a_state where
  m_lines : Nat → Nat
  m_shift : Nat
  m_led : Nat
  m_leds : Nat → Nat

/-- The loop `while (a012 > 0 && !(line & (1 << --a012)));` of `pia2_kbB_r`, with fuel: `none`
when the fuel runs out before the loop condition fails. `a012` is decremented only after
`a012 > 0` has held, so the `uint8_t` never wraps. -/
def scan_loop (line : Nat) : Nat → Nat → Option Nat
  | 0, _ => none
  | fuel + 1, a012 =>
    if a012 > 0 then
      if line &&& (1 <<< (a012 - 1)) = 0 then scan_loop line fuel (a012 - 1)
      else some (a012 - 1)
    else some a012

/-- The first `if` of `pia2_kbB_r`: rows 0 and 1. The value is `a012` after it. -/
def kb_rows01 (fuel : Nat) (s : mp68a_state) : Option Nat :=
  let line := (s.m_lines 0 ||| s.m_lines 1) % 0x100
  if line ≠ 0 then (scan_loop line fuel 8).map fun a012 => (a012 + 8) % 0x100
  else some 0

/-- The second `if` of `pia2_kbB_r`: rows 2 and 3, looked at only while `a012` is 0. -/
def kb_rows23 (fuel : Nat) (s : mp68a_state) (a012 : Nat) : Option Nat :=
  let line := (s.m_lines 2 ||| s.m_lines 3) % 0x100
  if a012 = 0 ∧ line ≠ 0 then scan_loop line fuel 8 else some a012

/-- The end of `pia2_kbB_r`: `pb = a012`, and the shift latch reported in bit 7 and reset. -/
def kb_shift (s : mp68a_state) (a012 : Nat) : Nat × mp68a_state :=
  if s.m_shift ≠ 0 then
    ((a012 ||| 0x80) % 0x100,
     { s with m_shift := 0, m_leds := fun i => if i = s.m_led then 0 else s.m_leds i })
  else (a012, s)

/-- The handler `mp68a_state::pia2_kbB_r`: the byte returned and the state left behind. -/
def pia2_kbB_r (fuel : Nat) (s : mp68a_state) : Option (Nat × mp68a_state) :=
  (kb_rows01 fuel s).bind fun a012 => (kb_rows23 fuel s a012).map (kb_shift s)

/-- The table `INPUT_PORTS_START( mp68a )`: the port `LINEn` and the bit of the key labelled
with the hexadecimal digit `k`. -/
def mp68a_key : Nat → Nat × Nat
  | 0x0 => (3, 0x01)
  | 0x1 => (3, 0x02)
  | 0x2 => (3, 0x04)
  | 0x3 => (3, 0x08)
  | 0x4 => (2, 0x10)
  | 0x5 => (2, 0x20)
  | 0x6 => (2, 0x40)
  | 0x7 => (2, 0x80)
  | 0x8 => (1, 0x01)
  | 0x9 => (1, 0x02)
  | 0xa => (1, 0x04)
  | 0xb => (1, 0x08)
  | 0xc => (0, 0x10)
  | 0xd => (0, 0x20)
  | 0xe => (0, 0x40)
  | 0xf => (0, 0x80)
  | _ => (0, 0)

/-! ## Predicates used by the theorems -/

/-- A function of the register block that ignores PC, S, CC, `wai_state` and `extra_cycles`,
the five registers an interrupt entry writes. -/
structure Untouched {α : Type} (f : m6800_Regs → α) : Prop where
  pc : ∀ r x, f { r with pc := x } = f r
  s : ∀ r x, f { r with s := x } = f r
  cc : ∀ r x, f { r with cc := x } = f r
  wai : ∀ r x, f { r with wai_state := x } = f r
  extra : ∀ r x, f { r with extra_cycles := x } = f r

/-- The opcode bodies are a parameter of the execute loops; this is what the proofs ask of
them: an opcode body never leaves `extra_cycles` negative when it was not. Every body built
from the statements of this file meets it, since they only ever add 4 or 12 to it. -/
def insn_keeps_extra (insn : Nat → Machine → Machine) : Prop :=
  ∀ op m, 0 ≤ m.m68xx.extra_cycles → 0 ≤ (insn op m).m68xx.extra_cycles

/-- Some test of `m6800_check_irq2` succeeds: an enabled second-group source is flagged. -/
def irq2_pending (m : Machine) : Prop :=
  m.m68xx.tcsr &&& (TCSR_EICI ||| TCSR_ICF) = (TCSR_EICI ||| TCSR_ICF)
  ∨ m.m68xx.tcsr &&& (TCSR_EOCI ||| TCSR_OCF) = (TCSR_EOCI ||| TCSR_OCF)
  ∨ m.m68xx.tcsr &&& (TCSR_ETOI ||| TCSR_TOF) = (TCSR_ETOI ||| TCSR_TOF)
  ∨ m.m68xx.trcsr &&& (M6800_TRCSR_RIE ||| M6800_TRCSR_RDRF) = (M6800_TRCSR_RIE ||| M6800_TRCSR_RDRF)
  ∨ m.m68xx.trcsr &&& (M6800_TRCSR_RIE ||| M6800_TRCSR_ORFE) = (M6800_TRCSR_RIE ||| M6800_TRCSR_ORFE)
  ∨ m.m68xx.trcsr &&& (M6800_TRCSR_TIE ||| M6800_TRCSR_TDRE) = (M6800_TRCSR_TIE ||| M6800_TRCSR_TDRE)

instance (m : Machine) : Decidable (irq2_pending m) := by
  unfold irq2_pending
  infer_instance

/-- No timer event is due and the counters are in the form `CLEANUP_conters` leaves them in:
the counter below 0x10000 and below both 32-bit targets. -/
def timer_quiet (m : Machine) : Prop :=
  m.m68xx.counter < 0x10000
  ∧ m.m68xx.counter < m.m68xx.output_compare ∧ m.m68xx.output_compare < 0x100000000
  ∧ m.m68xx.counter < m.m68xx.timer_over ∧ m.m68xx.timer_over < 0x100000000

instance (m : Machine) : Decidable (timer_quiet m) := by
  unfold timer_quiet
  infer_instance

/-- The fields of the serial interface, as one tuple: `trcsr`, `txstate`, `txbits`, `tsr`,
`tdr`, `tx`, `rxbits`, `rsr`, `rdr`. -/
def sci (r : m6800_Regs) : Nat × Int × Int × Nat × Nat × Int × Int × Nat × Nat :=
  (r.trcsr, r.txstate, r.txbits, r.tsr, r.tdr, r.tx, r.rxbits, r.rsr, r.rdr)

/-- The state of a transmitter that is enabled and has nothing to send: TE and TDRE set, and
either in Init with a tick count below 10 or in Ready at the start position. -/
def tx_idle (r : m6800_Regs) : Prop :=
  r.trcsr &&& M6800_TRCSR_TE ≠ 0 ∧ r.trcsr &&& M6800_TRCSR_TDRE ≠ 0
  ∧ ((r.txstate = M6800_TX_STATE_INIT ∧ 0 ≤ r.txbits ∧ r.txbits < 10)
     ∨ (r.txstate = M6800_TX_STATE_READY ∧ r.txbits = M6800_SERIAL_START))

instance (r : m6800_Regs) : Decidable (tx_idle r) := by
  unfold tx_idle
  infer_instance

/-- The cycle account of a machine: the free-running counter plus the remaining budget, as a
32-bit quantity. A statement that takes `n` cycles from the budget and adds them to the counter
leaves it alone. -/
def charge (m : Machine) : Int :=
  ((m.m68xx.counter : Int) + m.m6800_ICount) % 0x100000000

/-- What the cycle-accounting proofs ask of the opcode bodies: a body does not write the counter
registers, that is, it moves the counter only together with the budget (as `INCREMENT_COUNTER`
and `EAT_CYCLES` do, or not at all). -/
def insn_keeps_charge (insn : Nat → Machine → Machine) : Prop :=
  ∀ op m, charge (insn op m) = charge m

/-- The C expression `(pending_tcsr & ~tcsr) == 0` on UINT8 values: every status bit recorded in
the pending shadow is also set in the live TCSR. -/
def pending_in_live (r : m6800_Regs) : Prop := CLRBITS8 r.pending_tcsr r.tcsr = 0

instance (r : m6800_Regs) : Decidable (pending_in_live r) := by
  unfold pending_in_live; infer_instance

/-- A line history for the wake-up mode: for each `k` of `runs`, `k` samples at 1 followed by a
sample at 0, and then `j` more samples at 1. -/
def wake_samples (runs : List Nat) (j : Nat) : List Nat :=
  (runs.flatMap fun k => List.replicate k 1 ++ [0]) ++ List.replicate j 1

/-- The machine `m` with the receiver having counted `k` samples. -/
def wake_at (m : Machine) (k : Nat) : Machine :=
  { m with m68xx := { m.m68xx with rxbits := (k : Int) } }

/-- The timer between a reset and its first overflow event: the counter at `t`, the overflow
target and the next timer event at their reset value 0xFFFF, and TOF clear. -/
def before_overflow (t : Nat) (s : Machine) : Prop :=
  s.m68xx.counter = t ∧ s.timer_next = 0xffff ∧ s.m68xx.timer_over = 0xffff
  ∧ s.m68xx.tcsr &&& TCSR_TOF = 0

/-! ## Concrete inputs used by the examples -/

/-- A header instance: the two halt bits 0x08 and 0x10, released line level 0. -/
def hdr0 : Hdr :=
  { M6800_WAI := 8, M6800_SLP := 16, HD63701_WAI := 8, HD63701_SLP := 16, NSC8105_WAI := 8,
    CLEAR_LINE := 0 }

/-- A register block with every field zero. -/
def regs0 : m6800_Regs :=
  { ppc := 0, pc := 0, s := 0, x := 0, a := 0, b := 0, cc := 0, wai_state := 0, nmi_state := 0,
    irq_state_IRQ := 0, irq_state_TIN := 0, ic_eddge := 0, extra_cycles := 0,
    port1_ddr := 0, port2_ddr := 0, port3_ddr := 0, port4_ddr := 0,
    port1_data := 0, port2_data := 0, port3_data := 0, port4_data := 0,
    tcsr := 0, pending_tcsr := 0, irq2 := 0, ram_ctrl := 0,
    counter := 0, output_compare := 0xffff, input_capture := 0, clock := 0,
    trcsr := 0, rmcr := 0, rdr := 0, tdr := 0, rsr := 0, tsr := 0,
    rxbits := 0, txbits := 0, txstate := 0, trcsr_read := 0, tx := 0, timer_over := 0xffff }

/-- A machine around a register block, with memory `mem` and nothing else set. -/
def machine_of (r : m6800_Regs) (mem : Nat → Nat) : Machine :=
  { m68xx := r, m6800_ICount := 0, timer_next := 0xffff, latch09 := 0, mem := mem,
    pins := fun _ => 0, port_out := fun _ => 0, entry_log := [] }

/-- A running CPU: PC 0x1234, S 0x01ff, X 0xabcd, A 0x11, B 0x22, CC 0xc1, with the IRQ1 vector
pointing at 0x5678 and the NMI vector at 0x9abc. -/
def vectors_mem : Nat → Nat := fun a =>
  if a = 0xfff8 then 0x56 else if a = 0xfff9 then 0x78
  else if a = 0xfffc then 0x9a else if a = 0xfffd then 0xbc else 0x01

def running_machine : Machine :=
  machine_of { regs0 with pc := 0x1234, s := 0x01ff, x := 0xabcd, a := 0x11, b := 0x22, cc := 0xc1 }
    vectors_mem

/-- A CPU halted by WAI (bit 0x08 of `hdr0`) with the I flag clear and the IRQ1 line asserted. -/
def wai_machine : Machine :=
  machine_of { regs0 with pc := 0x1234, s := 0x01f8, cc := 0xc0, wai_state := 8, irq_state_IRQ := 1 }
    vectors_mem

/-- A CPU halted by SLEEP only (bit 0x10 of `hdr0`), NMI line released. -/
def sleep_machine : Machine :=
  machine_of { regs0 with pc := 0x1234, s := 0x01ff, cc := 0xd0, wai_state := 16 } vectors_mem

/-- A running CPU with the I flag set, the IRQ1 line asserted and every timer and SCI status
and enable bit set. -/
def masked_machine : Machine :=
  machine_of { regs0 with pc := 0x1234, s := 0x01ff, cc := 0xd0, irq_state_IRQ := 1,
                          tcsr := 0xff, trcsr := 0xff } vectors_mem

/-- A running CPU with the I flag clear while the IRQ1 line is asserted, the counter at the
output-compare value and the output-compare interrupt enabled. -/
def oci_due_machine : Machine :=
  machine_of { regs0 with pc := 0x1234, s := 0x01ff, cc := 0xc0, irq_state_IRQ := 1,
                          counter := 0x10, output_compare := 0x10, tcsr := 0x08 } vectors_mem

/-- A running CPU with the I flag clear, IRQ1 released, and both the output-compare and the
timer-overflow interrupt enabled and flagged. -/
def timer_flags_machine : Machine :=
  machine_of { regs0 with pc := 0x1234, s := 0x01ff, cc := 0xc0, tcsr := 0x6c } vectors_mem

/-- An opcode switch whose bodies all leave the machine as it is, the way `nop()` does. -/
def nop_insn : Nat → Machine → Machine := fun _ m => m

/-- A register block as the zero-initialised static `m68xx` holds it before the first reset,
in memory `vectors_mem`. -/
def power_on_machine : Machine :=
  { m68xx := { regs0 with output_compare := 0, timer_over := 0 }, m6800_ICount := 0,
    timer_next := 0, latch09 := 0, mem := vectors_mem, pins := fun _ => 0,
    port_out := fun _ => 0, entry_log := [] }

/-- A machine whose three 16-bit timer registers hold distinct bytes. -/
def capture_machine : Machine :=
  machine_of { regs0 with counter := 0xabcd, output_compare := 0x5678, input_capture := 0x1234 }
    vectors_mem

/-- A machine on which the low byte written at offset 0x0C makes the compare value equal to
the counter. -/
def oc_equal_machine : Machine :=
  machine_of { regs0 with cc := 0xd0, counter := 0x1234, output_compare := 0x1200 } vectors_mem

/-- A machine whose output-compare shadow (2) is neither the counter's high word nor one
more. -/
def oc_stale_machine : Machine :=
  machine_of { regs0 with cc := 0xd0, counter := 0x1234, output_compare := 0x25678 } vectors_mem

/-- A transmitter stopped in the middle of a frame: reset, TE set, the ten ticks of Init,
TRCSR read and 0x55 written to TDR, three ticks (start bit and two data bits), then TE
cleared. -/
def tx_midframe_machine : Machine :=
  m6803_internal_registers_w hdr0 0x11 0x00
    (TX_TICKS hdr0 3
      (m6803_internal_registers_w hdr0 0x13 0x55
        (m6803_internal_registers_r 0x11
          (TX_TICKS hdr0 10
            (m6803_internal_registers_w hdr0 0x11 0x02 (CPU_RESET running_machine)))).2))

/-- A receiver at the stop-bit position with RDRF set (RE set, WU clear), I flag set. -/
def rx_overrun_machine : Machine :=
  machine_of { regs0 with cc := 0xd0, trcsr := 0x88, rxbits := 9, rsr := 0x5a, rdr := 0x33 }
    vectors_mem

/-- A receiver enabled (RE set, WU clear, RDRF and ORFE clear) at the start position. -/
def rx_ready_machine : Machine :=
  machine_of { regs0 with cc := 0xd0, trcsr := 0x28, rsr := 0xff, rdr := 0x33 } vectors_mem

/-- A transmitter in Ready at the start position with 0xa5 waiting in TDR (TE set, TDRE
clear). -/
def tx_loaded_machine : Machine :=
  machine_of { regs0 with cc := 0xd0, trcsr := 0x02, txstate := 1, tdr := 0xa5 } vectors_mem

/-- The machine 6 cycles into the second counter period: reset, the entry normalization, a
counter step of 0xffff cycles (a halted CPU eating up to the first timer event) and one of 6
cycles. The counter is 0x10005, the compare target 0x1ffff, the overflow target 0. -/
def second_period_machine : Machine :=
  INCREMENT_COUNTER hdr0 6
    (INCREMENT_COUNTER hdr0 0xffff (CLEANUP_conters (CPU_RESET running_machine)))

/-- A halted CPU with a budget of 100 cycles whose next timer event is 2^31 cycles ahead of
the counter. -/
def far_event_machine : Machine :=
  { machine_of { regs0 with cc := 0xd0, wai_state := 8 } vectors_mem with
    m6800_ICount := 100, timer_next := 0x80000000 }

/-- A halted CPU with a budget of 100 cycles, the next timer event 0x40 cycles ahead. -/
def near_event_machine : Machine :=
  { machine_of { regs0 with cc := 0xd0, wai_state := 8, counter := 0x1000 } vectors_mem with
    m6800_ICount := 100, timer_next := 0x1040 }

/-- A register block with the CPU halted by WAI, the I flag set, the counter and the compare
target at 5 and the overflow target at 4. -/
def stuck_regs : m6800_Regs :=
  { regs0 with pc := 0x1234, s := 0x01f8, cc := 0xd0, wai_state := 8,
               counter := 5, output_compare := 5, timer_over := 4 }

/-- The machine after a reset followed by a context restore of `stuck_regs`. -/
def stuck_machine : Machine :=
  CPU_SET_CONTEXT hdr0 (some stuck_regs) (CPU_RESET running_machine)

/-- The state in which an execute call with a budget of 10 cycles on `stuck_machine` enters its
loop: after `CLEANUP_conters` and the `INCREMENT_COUNTER` of the (zero) extra cycles. -/
def stuck_entry_machine : Machine :=
  INCREMENT_COUNTER hdr0 0 (CLEANUP_conters { stuck_machine with m6800_ICount := 10 })

/-- A running CPU with the I flag set and the output-compare and timer-overflow flags both set
in TCSR and recorded as pending. -/
def pending_flags_machine : Machine :=
  machine_of { regs0 with pc := 0x1234, s := 0x01ff, cc := 0xd0, tcsr := 0x6c,
                          pending_tcsr := 0x60 } vectors_mem

/-- A receiver in wake-up mode (RE and WU set) at the start position, with a byte in the shift
register and one in the data register, and RDRF set. -/
def rx_wake_machine : Machine :=
  machine_of { regs0 with cc := 0xd0, trcsr := 0x89, rsr := 0x5a, rdr := 0x33 } vectors_mem

/-- The keypad state in which exactly the keys of the list `ks` are held and the shift latch is
clear: `m_lines[i]` is what port `LINEi` reads. -/
def mp68a_pressed (ks : List Nat) : mp68a_state :=
  { m_lines := fun i =>
      ks.foldl (fun acc k => if (mp68a_key k).1 = i then acc ||| (mp68a_key k).2 else acc) 0,
    m_shift := 0, m_led := 1, m_leds := fun _ => 0 }

/-! # Theorems -/

/-! ## Bit-level facts -/

theorem and_or_eq_zero {x a b : Nat} (ha : x &&& a = 0) (hb : x &&& b = 0) :
    x &&& (a ||| b) = 0 := by
  rw [Nat.and_or_distrib_left, ha, hb]; rfl

theorem and_or_ne_zero_left {x a : Nat} (b : Nat) (ha : x &&& a ≠ 0) : x &&& (a ||| b) ≠ 0 := by
  intro h
  apply ha
  apply Nat.eq_of_testBit_eq
  intro i
  have := congrArg (fun n => n.testBit i) h
  simp only [Nat.testBit_and, Nat.testBit_or, Nat.zero_testBit] at this ⊢
  cases hx : x.testBit i <;> cases hA : a.testBit i <;> simp_all

theorem and_or_ne_zero_right {x b : Nat} (a : Nat) (hb : x &&& b ≠ 0) : x &&& (a ||| b) ≠ 0 := by
  intro h
  apply hb
  apply Nat.eq_of_testBit_eq
  intro i
  have := congrArg (fun n => n.testBit i) h
  simp only [Nat.testBit_and, Nat.testBit_or, Nat.zero_testBit] at this ⊢
  cases hx : x.testBit i <;> cases hB : b.testBit i <;> simp_all

theorem testBit_255 (i : Nat) : Nat.testBit 255 i = decide (i < 8) := by
  have : (255 : Nat) = 2 ^ 8 - 1 := by norm_num
  rw [this, Nat.testBit_two_pow_sub_one]

theorem CLRBITS8_and_left (x a b : Nat) : CLRBITS8 x (a ||| b) &&& a = 0 := by
  apply Nat.eq_of_testBit_eq
  intro i
  simp only [CLRBITS8, Nat.testBit_and, Nat.testBit_or, Nat.testBit_xor, Nat.zero_testBit, testBit_255]
  cases hx : x.testBit i <;> cases hA : a.testBit i <;> cases hB : b.testBit i <;>
    by_cases hi : i < 8 <;> simp [hi]

theorem CLRBITS8_and_right (x a b : Nat) : CLRBITS8 x (a ||| b) &&& b = 0 := by
  apply Nat.eq_of_testBit_eq
  intro i
  simp only [CLRBITS8, Nat.testBit_and, Nat.testBit_or, Nat.testBit_xor, Nat.zero_testBit, testBit_255]
  cases hx : x.testBit i <;> cases hA : a.testBit i <;> cases hB : b.testBit i <;>
    by_cases hi : i < 8 <;> simp [hi]

theorem or_and_self (x m : Nat) : (x ||| m) &&& m = m := by
  apply Nat.eq_of_testBit_eq
  intro i
  simp only [Nat.testBit_and, Nat.testBit_or]
  cases x.testBit i <;> cases m.testBit i <;> rfl

theorem SEI_sets_I (cc : Nat) : SEI cc &&& 0x10 = 0x10 := or_and_self cc 0x10

/-- The word assembled by `RM16` is the big-endian value of the two bytes. -/
theorem RM16_eq (m : Machine) (v : Nat) :
    RM16 m v = 0x100 * RM m v + RM m ((v + 1) % 0x10000) := by
  have hb : RM m ((v + 1) % 0x10000) < 2 ^ 8 := by
    unfold RM; exact Nat.mod_lt _ (by norm_num)
  have hmask : (v + 1) &&& 0xffff = (v + 1) % 0x10000 := by
    have : (0xffff : Nat) = 2 ^ 16 - 1 := by norm_num
    rw [this, Nat.and_pow_two_sub_one_eq_mod]
  unfold RM16
  rw [hmask, Nat.shiftLeft_eq, Nat.mul_comm]
  exact (Nat.mul_add_lt_is_or hb (RM m v)).symm

/-! ## Stack pushes -/

theorem dec16_def (w : Nat) : dec16 w = (0xffff + w) % 0x10000 := rfl

theorem PUSHBYTE_mem (m : Machine) (b a : Nat) :
    (PUSHBYTE m b).mem a = if a = m.m68xx.s then b % 0x100 else m.mem a := rfl
theorem PUSHBYTE_s (m : Machine) (b : Nat) : (PUSHBYTE m b).m68xx.s = dec16 m.m68xx.s := rfl
theorem PUSHBYTE_pc (m : Machine) (b : Nat) : (PUSHBYTE m b).m68xx.pc = m.m68xx.pc := rfl
theorem PUSHBYTE_x (m : Machine) (b : Nat) : (PUSHBYTE m b).m68xx.x = m.m68xx.x := rfl
theorem PUSHBYTE_a (m : Machine) (b : Nat) : (PUSHBYTE m b).m68xx.a = m.m68xx.a := rfl
theorem PUSHBYTE_b (m : Machine) (b : Nat) : (PUSHBYTE m b).m68xx.b = m.m68xx.b := rfl
theorem PUSHBYTE_cc (m : Machine) (b : Nat) : (PUSHBYTE m b).m68xx.cc = m.m68xx.cc := rfl
theorem PUSHBYTE_extra (m : Machine) (b : Nat) :
    (PUSHBYTE m b).m68xx.extra_cycles = m.m68xx.extra_cycles := rfl
theorem PUSHWORD_eq (m : Machine) (w : Nat) :
    PUSHWORD m w = PUSHBYTE (PUSHBYTE m (BL w)) (BH w) := rfl

theorem SAVE_CONTEXT_mem (m : Machine) (a : Nat) :
    (SAVE_CONTEXT m).mem a =
      if a = dec16 (dec16 (dec16 (dec16 (dec16 (dec16 m.m68xx.s))))) then m.m68xx.cc % 0x100
      else if a = dec16 (dec16 (dec16 (dec16 (dec16 m.m68xx.s)))) then m.m68xx.b % 0x100
      else if a = dec16 (dec16 (dec16 (dec16 m.m68xx.s))) then m.m68xx.a % 0x100
      else if a = dec16 (dec16 (dec16 m.m68xx.s)) then BH m.m68xx.x % 0x100
      else if a = dec16 (dec16 m.m68xx.s) then BL m.m68xx.x % 0x100
      else if a = dec16 m.m68xx.s then BH m.m68xx.pc % 0x100
      else if a = m.m68xx.s then BL m.m68xx.pc % 0x100 else m.mem a := by
  have e : (SAVE_CONTEXT m).mem a = (PUSH_CC (PUSH_B (PUSH_A (PUSH_X (PUSH_PC m))))).mem a := rfl
  rw [e]
  simp only [PUSH_CC, PUSH_B, PUSH_A, PUSH_X, PUSH_PC, PUSHWORD_eq, PUSHBYTE_mem, PUSHBYTE_s,
    PUSHBYTE_pc, PUSHBYTE_x, PUSHBYTE_a, PUSHBYTE_b, PUSHBYTE_cc]

theorem SAVE_CONTEXT_s (m : Machine) :
    (SAVE_CONTEXT m).m68xx.s =
      dec16 (dec16 (dec16 (dec16 (dec16 (dec16 (dec16 m.m68xx.s)))))) := by
  have e : (SAVE_CONTEXT m).m68xx.s = (PUSH_CC (PUSH_B (PUSH_A (PUSH_X (PUSH_PC m))))).m68xx.s := rfl
  rw [e]
  simp only [PUSH_CC, PUSH_B, PUSH_A, PUSH_X, PUSH_PC, PUSHWORD_eq, PUSHBYTE_s]

theorem SAVE_CONTEXT_extra (m : Machine) :
    (SAVE_CONTEXT m).m68xx.extra_cycles = m.m68xx.extra_cycles + 12 := by
  have e : (SAVE_CONTEXT m).m68xx.extra_cycles
      = (PUSH_CC (PUSH_B (PUSH_A (PUSH_X (PUSH_PC m))))).m68xx.extra_cycles + 12 := rfl
  rw [e]
  simp only [PUSH_CC, PUSH_B, PUSH_A, PUSH_X, PUSH_PC, PUSHWORD_eq, PUSHBYTE_extra]

theorem SAVE_CONTEXT_cc (m : Machine) : (SAVE_CONTEXT m).m68xx.cc = m.m68xx.cc := by
  have e : (SAVE_CONTEXT m).m68xx.cc = (PUSH_CC (PUSH_B (PUSH_A (PUSH_X (PUSH_PC m))))).m68xx.cc := rfl
  rw [e]
  simp only [PUSH_CC, PUSH_B, PUSH_A, PUSH_X, PUSH_PC, PUSHWORD_eq, PUSHBYTE_cc]

theorem ENTER_INTERRUPT_running (h : Hdr) (v : Nat) (m : Machine)
    (hrun : m.m68xx.wai_state &&& (h.M6800_WAI ||| h.M6800_SLP) = 0) :
    ENTER_INTERRUPT h v m = LOAD_VECTOR v (SEI_m (SAVE_CONTEXT (LOG_ENTRY v m))) := by
  have e : (LOG_ENTRY v m).m68xx.wai_state = m.m68xx.wai_state := rfl
  simp only [ENTER_INTERRUPT, e, hrun, ne_eq, not_true_eq_false, if_false]

theorem ENTER_INTERRUPT_halted (h : Hdr) (v : Nat) (m : Machine)
    (hhalt : m.m68xx.wai_state &&& (h.M6800_WAI ||| h.M6800_SLP) ≠ 0) :
    ENTER_INTERRUPT h v m = LOAD_VECTOR v (SEI_m (RESUME h (LOG_ENTRY v m))) := by
  have e : (LOG_ENTRY v m).m68xx.wai_state = m.m68xx.wai_state := rfl
  simp only [ENTER_INTERRUPT, e, hhalt, ne_eq, not_false_eq_true, if_true]

theorem LOAD_VECTOR_pc (v : Nat) (m : Machine) : (LOAD_VECTOR v m).m68xx.pc = RM16 m v := rfl
theorem LOAD_VECTOR_mem (v : Nat) (m : Machine) : (LOAD_VECTOR v m).mem = m.mem := rfl
theorem LOAD_VECTOR_s (v : Nat) (m : Machine) : (LOAD_VECTOR v m).m68xx.s = m.m68xx.s := rfl
theorem LOAD_VECTOR_cc (v : Nat) (m : Machine) : (LOAD_VECTOR v m).m68xx.cc = m.m68xx.cc := rfl
theorem LOAD_VECTOR_extra (v : Nat) (m : Machine) :
    (LOAD_VECTOR v m).m68xx.extra_cycles = m.m68xx.extra_cycles := rfl
theorem SEI_m_mem (m : Machine) : (SEI_m m).mem = m.mem := rfl
theorem SEI_m_s (m : Machine) : (SEI_m m).m68xx.s = m.m68xx.s := rfl
theorem SEI_m_cc (m : Machine) : (SEI_m m).m68xx.cc = SEI m.m68xx.cc := rfl
theorem SEI_m_extra (m : Machine) : (SEI_m m).m68xx.extra_cycles = m.m68xx.extra_cycles := rfl
theorem LOG_ENTRY_mem (v : Nat) (m : Machine) : (LOG_ENTRY v m).mem = m.mem := rfl
theorem LOG_ENTRY_regs (v : Nat) (m : Machine) : (LOG_ENTRY v m).m68xx = m.m68xx := rfl
theorem RM_LOAD_VECTOR (v : Nat) (m : Machine) (a : Nat) : RM (LOAD_VECTOR v m) a = RM m a := rfl
theorem RM_SEI_m (m : Machine) (a : Nat) : RM (SEI_m m) a = RM m a := rfl

/-- The pc loaded by `ENTER_INTERRUPT` is the big-endian word found at the vector once the
entry has written the stack. -/
theorem ENTER_INTERRUPT_pc (h : Hdr) (v : Nat) (m : Machine) :
    (ENTER_INTERRUPT h v m).m68xx.pc =
      0x100 * RM (ENTER_INTERRUPT h v m) v + RM (ENTER_INTERRUPT h v m) ((v + 1) % 0x10000) := by
  have e : ENTER_INTERRUPT h v m = LOAD_VECTOR v (SEI_m
      (if (LOG_ENTRY v m).m68xx.wai_state &&& (h.M6800_WAI ||| h.M6800_SLP) ≠ 0
        then RESUME h (LOG_ENTRY v m) else SAVE_CONTEXT (LOG_ENTRY v m))) := rfl
  rw [e, LOAD_VECTOR_pc, RM_LOAD_VECTOR, RM_LOAD_VECTOR, RM16_eq]
  
theorem ENTER_INTERRUPT_sets_I (h : Hdr) (v : Nat) (m : Machine) :
    (ENTER_INTERRUPT h v m).m68xx.cc &&& 0x10 = 0x10 := by
  have e : ENTER_INTERRUPT h v m = LOAD_VECTOR v (SEI_m
      (if (LOG_ENTRY v m).m68xx.wai_state &&& (h.M6800_WAI ||| h.M6800_SLP) ≠ 0
        then RESUME h (LOG_ENTRY v m) else SAVE_CONTEXT (LOG_ENTRY v m))) := rfl
  rw [e, LOAD_VECTOR_cc, SEI_m_cc]
  exact SEI_sets_I _

theorem dec16_eq_below (s : Nat) (hs : s < 0x10000) : dec16 s = below s 1 := by
  unfold dec16 below; omega

theorem dec16_below (s k : Nat) (hk : k < 0x10000) : dec16 (below s k) = below s (k + 1) := by
  unfold dec16 below; omega

theorem below_inj (s i j : Nat) (hs : s < 0x10000) (hi : i < 0x10000) (hj : j < 0x10000)
    (hij : below s i = below s j) : i = j := by
  unfold below at hij; omega

theorem below_zero (s : Nat) (hs : s < 0x10000) : below s 0 = s := by
  unfold below; omega

theorem ENTER_INTERRUPT_running_mem (h : Hdr) (v : Nat) (m : Machine)
    (hrun : m.m68xx.wai_state &&& (h.M6800_WAI ||| h.M6800_SLP) = 0)
    (hs : m.m68xx.s < 0x10000) (a : Nat) :
    (ENTER_INTERRUPT h v m).mem a =
      if a = m.m68xx.s then BL m.m68xx.pc % 0x100
      else if a = below m.m68xx.s 1 then BH m.m68xx.pc % 0x100
      else if a = below m.m68xx.s 2 then BL m.m68xx.x % 0x100
      else if a = below m.m68xx.s 3 then BH m.m68xx.x % 0x100
      else if a = below m.m68xx.s 4 then m.m68xx.a % 0x100
      else if a = below m.m68xx.s 5 then m.m68xx.b % 0x100
      else if a = below m.m68xx.s 6 then m.m68xx.cc % 0x100
      else m.mem a := by
  rewrite [ENTER_INTERRUPT_running h v m hrun, LOAD_VECTOR_mem, SEI_m_mem, SAVE_CONTEXT_mem,
    LOG_ENTRY_regs, LOG_ENTRY_mem]
  rewrite [dec16_eq_below _ hs, dec16_below _ 1 (by norm_num), dec16_below _ 2 (by norm_num),
    dec16_below _ 3 (by norm_num), dec16_below _ 4 (by norm_num), dec16_below _ 5 (by norm_num)]
  have h0 := below_zero _ hs
  have d : ∀ i j, i < 0x10000 → j < 0x10000 → i ≠ j → below m.m68xx.s i ≠ below m.m68xx.s j :=
    fun i j hi hj hij e => hij (below_inj _ i j hs hi hj e)
  have d01 := d 0 1 (by norm_num) (by norm_num) (by norm_num)
  have d02 := d 0 2 (by norm_num) (by norm_num) (by norm_num)
  have d03 := d 0 3 (by norm_num) (by norm_num) (by norm_num)
  have d04 := d 0 4 (by norm_num) (by norm_num) (by norm_num)
  have d05 := d 0 5 (by norm_num) (by norm_num) (by norm_num)
  have d06 := d 0 6 (by norm_num) (by norm_num) (by norm_num)
  have d12 := d 1 2 (by norm_num) (by norm_num) (by norm_num)
  have d13 := d 1 3 (by norm_num) (by norm_num) (by norm_num)
  have d14 := d 1 4 (by norm_num) (by norm_num) (by norm_num)
  have d15 := d 1 5 (by norm_num) (by norm_num) (by norm_num)
  have d16 := d 1 6 (by norm_num) (by norm_num) (by norm_num)
  have d23 := d 2 3 (by norm_num) (by norm_num) (by norm_num)
  have d24 := d 2 4 (by norm_num) (by norm_num) (by norm_num)
  have d25 := d 2 5 (by norm_num) (by norm_num) (by norm_num)
  have d26 := d 2 6 (by norm_num) (by norm_num) (by norm_num)
  have d34 := d 3 4 (by norm_num) (by norm_num) (by norm_num)
  have d35 := d 3 5 (by norm_num) (by norm_num) (by norm_num)
  have d36 := d 3 6 (by norm_num) (by norm_num) (by norm_num)
  have d45 := d 4 5 (by norm_num) (by norm_num) (by norm_num)
  have d46 := d 4 6 (by norm_num) (by norm_num) (by norm_num)
  have d56 := d 5 6 (by norm_num) (by norm_num) (by norm_num)
  rw [h0] at d01 d02 d03 d04 d05 d06
  generalize below m.m68xx.s 1 = a1 at *
  generalize below m.m68xx.s 2 = a2 at *
  generalize below m.m68xx.s 3 = a3 at *
  generalize below m.m68xx.s 4 = a4 at *
  generalize below m.m68xx.s 5 = a5 at *
  generalize below m.m68xx.s 6 = a6 at *
  generalize m.m68xx.s = a0 at *
  clear d h0 hs hrun
  by_cases e0 : a = a0
  · subst e0; simp only [d01, d02, d03, d04, d05, d06, if_true, if_false]
  by_cases e1 : a = a1
  · subst e1; simp only [e0, d12, d13, d14, d15, d16, if_true, if_false]
  by_cases e2 : a = a2
  · subst e2; simp only [e0, e1, d23, d24, d25, d26, if_true, if_false]
  by_cases e3 : a = a3
  · subst e3; simp only [e0, e1, e2, d34, d35, d36, if_true, if_false]
  by_cases e4 : a = a4
  · subst e4; simp only [e0, e1, e2, e3, d45, d46, if_true, if_false]
  by_cases e5 : a = a5
  · subst e5; simp only [e0, e1, e2, e3, e4, d56, if_true, if_false]
  by_cases e6 : a = a6
  · subst e6; simp only [e0, e1, e2, e3, e4, e5, if_true, if_false]
  simp only [e0, e1, e2, e3, e4, e5, e6, if_false]

/-- C2: on a CPU that is not halted (neither the WAI nor the SLEEP bit of `wai_state` set),
`ENTER_INTERRUPT` with vector `v` writes exactly seven bytes: the low and high byte of PC at S
and S-1, the low and high byte of X at S-2 and S-3, A at S-4, B at S-5 and the CC it was entered
with at S-6 (addresses modulo 2^16); every other memory byte is unchanged; S ends as S-7 modulo
2^16; `extra_cycles` grows by exactly 12; the I flag (0x10) is set; and PC is the big-endian
word read at `v` and `v+1`. -/
theorem C2_enter_interrupt_pushes_frame (h : Hdr) (v : Nat) (m : Machine)
    (hWAI : m.m68xx.wai_state &&& h.M6800_WAI = 0)
    (hSLP : m.m68xx.wai_state &&& h.M6800_SLP = 0)
    (hr : regs_in_range m.m68xx) :
    (RM (ENTER_INTERRUPT h v m) m.m68xx.s = m.m68xx.pc % 0x100
      ∧ RM (ENTER_INTERRUPT h v m) (below m.m68xx.s 1) = m.m68xx.pc / 0x100
      ∧ RM (ENTER_INTERRUPT h v m) (below m.m68xx.s 2) = m.m68xx.x % 0x100
      ∧ RM (ENTER_INTERRUPT h v m) (below m.m68xx.s 3) = m.m68xx.x / 0x100
      ∧ RM (ENTER_INTERRUPT h v m) (below m.m68xx.s 4) = m.m68xx.a
      ∧ RM (ENTER_INTERRUPT h v m) (below m.m68xx.s 5) = m.m68xx.b
      ∧ RM (ENTER_INTERRUPT h v m) (below m.m68xx.s 6) = m.m68xx.cc)
    ∧ (∀ a, (∀ k, k < 7 → a ≠ below m.m68xx.s k) → (ENTER_INTERRUPT h v m).mem a = m.mem a)
    ∧ (ENTER_INTERRUPT h v m).m68xx.s = below m.m68xx.s 7
    ∧ (ENTER_INTERRUPT h v m).m68xx.extra_cycles = m.m68xx.extra_cycles + 12
    ∧ (ENTER_INTERRUPT h v m).m68xx.cc &&& 0x10 = 0x10
    ∧ (ENTER_INTERRUPT h v m).m68xx.pc =
        0x100 * RM (ENTER_INTERRUPT h v m) v + RM (ENTER_INTERRUPT h v m) ((v + 1) % 0x10000) := by
  obtain ⟨hpc, hs, hx, ha, hb, hcc, -⟩ := hr
  have hrun := and_or_eq_zero hWAI hSLP
  have hmem := ENTER_INTERRUPT_running_mem h v m hrun hs
  have d : ∀ i j, i < 0x10000 → j < 0x10000 → i ≠ j → below m.m68xx.s i ≠ below m.m68xx.s j :=
    fun i j hi hj hij e => hij (below_inj _ i j hs hi hj e)
  have h0 := below_zero _ hs
  refine ⟨⟨?_, ?_, ?_, ?_, ?_, ?_, ?_⟩, ?_, ?_, ?_, ENTER_INTERRUPT_sets_I h v m,
    ENTER_INTERRUPT_pc h v m⟩
  · simp only [RM, hmem, if_true, BL]; omega
  · have e1 : below m.m68xx.s 1 ≠ m.m68xx.s := by
      have := d 1 0 (by norm_num) (by norm_num) (by norm_num); rwa [h0] at this
    simp only [RM, hmem, e1, if_true, if_false, BH]; omega
  · have e1 : below m.m68xx.s 2 ≠ m.m68xx.s := by
      have := d 2 0 (by norm_num) (by norm_num) (by norm_num); rwa [h0] at this
    have e2 := d 2 1 (by norm_num) (by norm_num) (by norm_num)
    simp only [RM, hmem, e1, e2, if_true, if_false, BL]; omega
  · have e1 : below m.m68xx.s 3 ≠ m.m68xx.s := by
      have := d 3 0 (by norm_num) (by norm_num) (by norm_num); rwa [h0] at this
    have e2 := d 3 1 (by norm_num) (by norm_num) (by norm_num)
    have e3 := d 3 2 (by norm_num) (by norm_num) (by norm_num)
    simp only [RM, hmem, e1, e2, e3, if_true, if_false, BH]; omega
  · have e1 : below m.m68xx.s 4 ≠ m.m68xx.s := by
      have := d 4 0 (by norm_num) (by norm_num) (by norm_num); rwa [h0] at this
    have e2 := d 4 1 (by norm_num) (by norm_num) (by norm_num)
    have e3 := d 4 2 (by norm_num) (by norm_num) (by norm_num)
    have e4 := d 4 3 (by norm_num) (by norm_num) (by norm_num)
    simp only [RM, hmem, e1, e2, e3, e4, if_true, if_false]; omega
  · have e1 : below m.m68xx.s 5 ≠ m.m68xx.s := by
      have := d 5 0 (by norm_num) (by norm_num) (by norm_num); rwa [h0] at this
    have e2 := d 5 1 (by norm_num) (by norm_num) (by norm_num)
    have e3 := d 5 2 (by norm_num) (by norm_num) (by norm_num)
    have e4 := d 5 3 (by norm_num) (by norm_num) (by norm_num)
    have e5 := d 5 4 (by norm_num) (by norm_num) (by norm_num)
    simp only [RM, hmem, e1, e2, e3, e4, e5, if_true, if_false]; omega
  · have e1 : below m.m68xx.s 6 ≠ m.m68xx.s := by
      have := d 6 0 (by norm_num) (by norm_num) (by norm_num); rwa [h0] at this
    have e2 := d 6 1 (by norm_num) (by norm_num) (by norm_num)
    have e3 := d 6 2 (by norm_num) (by norm_num) (by norm_num)
    have e4 := d 6 3 (by norm_num) (by norm_num) (by norm_num)
    have e5 := d 6 4 (by norm_num) (by norm_num) (by norm_num)
    have e6 := d 6 5 (by norm_num) (by norm_num) (by norm_num)
    simp only [RM, hmem, e1, e2, e3, e4, e5, e6, if_true, if_false]; omega
  · intro a hne
    have n0 : a ≠ m.m68xx.s := by have := hne 0 (by norm_num); rwa [h0] at this
    simp only [hmem, n0, hne 1 (by norm_num), hne 2 (by norm_num), hne 3 (by norm_num),
      hne 4 (by norm_num), hne 5 (by norm_num), hne 6 (by norm_num), if_false]
  · rewrite [ENTER_INTERRUPT_running h v m hrun, LOAD_VECTOR_s, SEI_m_s, SAVE_CONTEXT_s,
      LOG_ENTRY_regs]
    rewrite [dec16_eq_below _ hs, dec16_below _ 1 (by norm_num), dec16_below _ 2 (by norm_num),
      dec16_below _ 3 (by norm_num), dec16_below _ 4 (by norm_num), dec16_below _ 5 (by norm_num),
      dec16_below _ 6 (by norm_num)]
    rfl
  · rewrite [ENTER_INTERRUPT_running h v m hrun, LOAD_VECTOR_extra, SEI_m_extra,
      SAVE_CONTEXT_extra, LOG_ENTRY_regs]
    rfl

/-- C2 at `running_machine` with the IRQ1 vector: the frame lies at 0x01ff down to 0x01f9. -/
theorem C2_enter_interrupt_pushes_frame_witness :
    regs_in_range running_machine.m68xx ∧
    (ENTER_INTERRUPT hdr0 0xfff8 running_machine).m68xx.s = below running_machine.m68xx.s 7 :=
  ⟨by decide,
   (C2_enter_interrupt_pushes_frame hdr0 0xfff8 running_machine (by decide) (by decide)
      (by decide)).2.2.1⟩

/-- C3 as stated fails: entering an interrupt from S = 0x01ff with PC = 0x1234 and X = 0xabcd
leaves the low byte 0x34 of PC at S and the high byte 0x12 at S-1 (and 0xcd, 0xab for X), not
the high byte at S and the low byte at S-1. -/
theorem C3_high_byte_first_counterexample :
    ¬ (RM (ENTER_INTERRUPT hdr0 0xfff8 running_machine) 0x01ff = 0x1234 / 0x100
        ∧ RM (ENTER_INTERRUPT hdr0 0xfff8 running_machine) 0x01fe = 0x1234 % 0x100
        ∧ RM (ENTER_INTERRUPT hdr0 0xfff8 running_machine) 0x01fd = 0xabcd / 0x100
        ∧ RM (ENTER_INTERRUPT hdr0 0xfff8 running_machine) 0x01fc = 0xabcd % 0x100) := by
  decide

/-- C3, amended: in the interrupt-entry push sequence each 16-bit register (PC, then X) is
pushed low byte first and high byte last, so that the high byte lies at the lower address:
memory[S] holds the low byte of PC and memory[S-1] its high byte, memory[S-2] the low byte of X
and memory[S-3] its high byte. -/
theorem C3_low_byte_pushed_first (h : Hdr) (v : Nat) (m : Machine)
    (hWAI : m.m68xx.wai_state &&& h.M6800_WAI = 0)
    (hSLP : m.m68xx.wai_state &&& h.M6800_SLP = 0)
    (hr : regs_in_range m.m68xx) :
    RM (ENTER_INTERRUPT h v m) m.m68xx.s = m.m68xx.pc % 0x100
      ∧ RM (ENTER_INTERRUPT h v m) (below m.m68xx.s 1) = m.m68xx.pc / 0x100
      ∧ RM (ENTER_INTERRUPT h v m) (below m.m68xx.s 2) = m.m68xx.x % 0x100
      ∧ RM (ENTER_INTERRUPT h v m) (below m.m68xx.s 3) = m.m68xx.x / 0x100 := by
  obtain ⟨hpc, hs, hx, -, -, -, -⟩ := hr
  have hrun := and_or_eq_zero hWAI hSLP
  have hmem := ENTER_INTERRUPT_running_mem h v m hrun hs
  have d : ∀ i j, i < 0x10000 → j < 0x10000 → i ≠ j → below m.m68xx.s i ≠ below m.m68xx.s j :=
    fun i j hi hj hij e => hij (below_inj _ i j hs hi hj e)
  have h0 := below_zero _ hs
  refine ⟨?_, ?_, ?_, ?_⟩
  · simp only [RM, hmem, if_true, BL]; omega
  · have e1 : below m.m68xx.s 1 ≠ m.m68xx.s := by
      have := d 1 0 (by norm_num) (by norm_num) (by norm_num); rwa [h0] at this
    simp only [RM, hmem, e1, if_true, if_false, BH]; omega
  · have e1 : below m.m68xx.s 2 ≠ m.m68xx.s := by
      have := d 2 0 (by norm_num) (by norm_num) (by norm_num); rwa [h0] at this
    have e2 := d 2 1 (by norm_num) (by norm_num) (by norm_num)
    simp only [RM, hmem, e1, e2, if_true, if_false, BL]; omega
  · have e1 : below m.m68xx.s 3 ≠ m.m68xx.s := by
      have := d 3 0 (by norm_num) (by norm_num) (by norm_num); rwa [h0] at this
    have e2 := d 3 1 (by norm_num) (by norm_num) (by norm_num)
    have e3 := d 3 2 (by norm_num) (by norm_num) (by norm_num)
    simp only [RM, hmem, e1, e2, e3, if_true, if_false, BH]; omega

/-- C3 (amended) at `running_machine`: 0x34 at 0x01ff, 0x12 at 0x01fe. -/
theorem C3_low_byte_pushed_first_witness :
    regs_in_range running_machine.m68xx ∧
    RM (ENTER_INTERRUPT hdr0 0xfff8 running_machine) running_machine.m68xx.s
      = running_machine.m68xx.pc % 0x100 :=
  ⟨by decide,
   (C3_low_byte_pushed_first hdr0 0xfff8 running_machine (by decide) (by decide) (by decide)).1⟩

/-! ## Resuming from a halt -/

theorem RESUME_mem (h : Hdr) (m : Machine) : (RESUME h m).mem = m.mem := by
  unfold RESUME; split_ifs <;> rfl

theorem RESUME_s (h : Hdr) (m : Machine) : (RESUME h m).m68xx.s = m.m68xx.s := by
  unfold RESUME; split_ifs <;> rfl

theorem RESUME_cc (h : Hdr) (m : Machine) : (RESUME h m).m68xx.cc = m.m68xx.cc := by
  unfold RESUME; split_ifs <;> rfl

theorem RESUME_wai (h : Hdr) (m : Machine) :
    (RESUME h m).m68xx.wai_state = CLRBITS8 m.m68xx.wai_state (h.M6800_WAI ||| h.M6800_SLP) := by
  unfold RESUME; split_ifs <;> rfl

theorem RESUME_extra (h : Hdr) (m : Machine) :
    (RESUME h m).m68xx.extra_cycles =
      if m.m68xx.wai_state &&& h.M6800_WAI ≠ 0 then m.m68xx.extra_cycles + 4
      else m.m68xx.extra_cycles := by
  unfold RESUME; split_ifs <;> rfl

theorem LOAD_VECTOR_wai (v : Nat) (m : Machine) :
    (LOAD_VECTOR v m).m68xx.wai_state = m.m68xx.wai_state := rfl
theorem SEI_m_wai (m : Machine) : (SEI_m m).m68xx.wai_state = m.m68xx.wai_state := rfl
theorem LOAD_VECTOR_nmi (v : Nat) (m : Machine) :
    (LOAD_VECTOR v m).m68xx.nmi_state = m.m68xx.nmi_state := rfl
theorem SEI_m_nmi (m : Machine) : (SEI_m m).m68xx.nmi_state = m.m68xx.nmi_state := rfl

theorem RM_congr (m m' : Machine) (e : m'.mem = m.mem) (a : Nat) : RM m' a = RM m a := by
  unfold RM; rw [e]

/-- What `ENTER_INTERRUPT` does to a halted CPU: no stack access, the halt bits cleared, 4 extra
cycles if the WAI bit was set, the I flag set and PC loaded from the vector. -/
theorem ENTER_INTERRUPT_halted_effect (h : Hdr) (v : Nat) (m : Machine)
    (hhalt : m.m68xx.wai_state &&& (h.M6800_WAI ||| h.M6800_SLP) ≠ 0) :
    (ENTER_INTERRUPT h v m).mem = m.mem
    ∧ (ENTER_INTERRUPT h v m).m68xx.s = m.m68xx.s
    ∧ (ENTER_INTERRUPT h v m).m68xx.wai_state &&& h.M6800_WAI = 0
    ∧ (ENTER_INTERRUPT h v m).m68xx.wai_state &&& h.M6800_SLP = 0
    ∧ (ENTER_INTERRUPT h v m).m68xx.extra_cycles =
        (if m.m68xx.wai_state &&& h.M6800_WAI ≠ 0 then m.m68xx.extra_cycles + 4
         else m.m68xx.extra_cycles)
    ∧ (ENTER_INTERRUPT h v m).m68xx.cc &&& 0x10 = 0x10
    ∧ (ENTER_INTERRUPT h v m).m68xx.pc = 0x100 * RM m v + RM m ((v + 1) % 0x10000) := by
  have hmem : (ENTER_INTERRUPT h v m).mem = m.mem := by
    rewrite [ENTER_INTERRUPT_halted h v m hhalt, LOAD_VECTOR_mem, SEI_m_mem, RESUME_mem,
      LOG_ENTRY_mem]
    rfl
  refine ⟨hmem, ?_, ?_, ?_, ?_, ENTER_INTERRUPT_sets_I h v m, ?_⟩
  · rewrite [ENTER_INTERRUPT_halted h v m hhalt, LOAD_VECTOR_s, SEI_m_s, RESUME_s, LOG_ENTRY_regs]
    rfl
  · rewrite [ENTER_INTERRUPT_halted h v m hhalt, LOAD_VECTOR_wai, SEI_m_wai, RESUME_wai,
      LOG_ENTRY_regs]
    exact CLRBITS8_and_left _ _ _
  · rewrite [ENTER_INTERRUPT_halted h v m hhalt, LOAD_VECTOR_wai, SEI_m_wai, RESUME_wai,
      LOG_ENTRY_regs]
    exact CLRBITS8_and_right _ _ _
  · rewrite [ENTER_INTERRUPT_halted h v m hhalt, LOAD_VECTOR_extra, SEI_m_extra, RESUME_extra,
      LOG_ENTRY_regs]
    rfl
  · rw [ENTER_INTERRUPT_pc, RM_congr _ _ hmem, RM_congr _ _ hmem]

/-- C4: for every state with the WAI bit set in `wai_state`, the I flag clear and the IRQ1 line
asserted, `CHECK_IRQ_LINES` clears both halt flags, adds exactly 4 to `extra_cycles`, sets I,
loads PC from the big-endian word at 0xFFF8, and leaves the stack pointer and every memory
byte unchanged. -/
theorem C4_wai_resume_on_irq1 (h : Hdr) (m : Machine)
    (hWAI : m.m68xx.wai_state &&& h.M6800_WAI ≠ 0)
    (hI : m.m68xx.cc &&& 0x10 = 0)
    (hirq : m.m68xx.irq_state_IRQ ≠ h.CLEAR_LINE) :
    (CHECK_IRQ_LINES h m).m68xx.wai_state &&& h.M6800_WAI = 0
    ∧ (CHECK_IRQ_LINES h m).m68xx.wai_state &&& h.M6800_SLP = 0
    ∧ (CHECK_IRQ_LINES h m).m68xx.extra_cycles = m.m68xx.extra_cycles + 4
    ∧ (CHECK_IRQ_LINES h m).m68xx.cc &&& 0x10 = 0x10
    ∧ (CHECK_IRQ_LINES h m).m68xx.pc = 0x100 * RM m 0xfff8 + RM m 0xfff9
    ∧ (CHECK_IRQ_LINES h m).m68xx.s = m.m68xx.s
    ∧ (∀ a, (CHECK_IRQ_LINES h m).mem a = m.mem a) := by
  have e : CHECK_IRQ_LINES h m = ENTER_INTERRUPT h 0xfff8 m := by
    simp only [CHECK_IRQ_LINES, hI, hirq, ne_eq, not_false_eq_true, if_true]
  obtain ⟨h1, h2, h3, h4, h5, h6, h7⟩ :=
    ENTER_INTERRUPT_halted_effect h 0xfff8 m (and_or_ne_zero_left _ hWAI)
  rw [e]
  refine ⟨h3, h4, ?_, h6, h7, h2, fun a => by rw [h1]⟩
  rw [h5, if_pos hWAI]

/-- C4 at `wai_machine`. -/
theorem C4_wai_resume_on_irq1_witness :
    (CHECK_IRQ_LINES hdr0 wai_machine).m68xx.extra_cycles = wai_machine.m68xx.extra_cycles + 4 :=
  (C4_wai_resume_on_irq1 hdr0 wai_machine (by decide) (by decide) (by decide)).2.2.1

/-- C5: for every state halted in SLEEP only (SLP bit set, WAI bit clear) whose NMI latch is
clear, asserting NMI through `set_irq_line` writes no memory byte, leaves S and `extra_cycles`
unchanged, clears the halt flags and sets PC to the big-endian word stored at 0xFFFC and
0xFFFD. -/
theorem C5_nmi_resumes_sleep (h : Hdr) (state : Nat) (m : Machine)
    (hSLP : m.m68xx.wai_state &&& h.M6800_SLP ≠ 0)
    (hWAI : m.m68xx.wai_state &&& h.M6800_WAI = 0)
    (hnmi : m.m68xx.nmi_state = h.CLEAR_LINE)
    (hstate : state ≠ h.CLEAR_LINE) :
    (∀ a, (set_irq_line h IrqLine.NMI state m).mem a = m.mem a)
    ∧ (set_irq_line h IrqLine.NMI state m).m68xx.s = m.m68xx.s
    ∧ (set_irq_line h IrqLine.NMI state m).m68xx.extra_cycles = m.m68xx.extra_cycles
    ∧ (set_irq_line h IrqLine.NMI state m).m68xx.wai_state &&& h.M6800_SLP = 0
    ∧ (set_irq_line h IrqLine.NMI state m).m68xx.wai_state &&& h.M6800_WAI = 0
    ∧ (set_irq_line h IrqLine.NMI state m).m68xx.pc = 0x100 * RM m 0xfffc + RM m 0xfffd := by
  have hne : m.m68xx.nmi_state ≠ state := by rw [hnmi]; exact fun e => hstate e.symm
  have e : set_irq_line h IrqLine.NMI state m = ENTER_INTERRUPT h 0xfffc
      { m with m68xx := { m.m68xx with nmi_state := state % 0x100 } } := by
    simp only [set_irq_line, hne, hstate, if_false]
  obtain ⟨h1, h2, h3, h4, h5, -, h7⟩ :=
    ENTER_INTERRUPT_halted_effect h 0xfffc
      { m with m68xx := { m.m68xx with nmi_state := state % 0x100 } }
      (and_or_ne_zero_right _ hSLP)
  rw [e]
  refine ⟨fun a => by rw [h1], h2, ?_, h4, h3, h7⟩
  rw [h5]
  exact if_neg (fun hc => hc hWAI)

/-- C5 at `sleep_machine`, NMI raised to level 1. -/
theorem C5_nmi_resumes_sleep_witness :
    (set_irq_line hdr0 IrqLine.NMI 1 sleep_machine).m68xx.pc
      = 0x100 * RM sleep_machine 0xfffc + RM sleep_machine 0xfffd :=
  (C5_nmi_resumes_sleep hdr0 1 sleep_machine (by decide) (by decide) (by decide)
    (by decide)).2.2.2.2.2

/-! ## Registers left alone by an interrupt entry -/

theorem PUSHBYTE_regs (m : Machine) (b : Nat) :
    (PUSHBYTE m b).m68xx = { m.m68xx with s := dec16 m.m68xx.s } := rfl
theorem ADD_EXTRA_regs (n : Int) (m : Machine) :
    (ADD_EXTRA n m).m68xx = { m.m68xx with extra_cycles := m.m68xx.extra_cycles + n } := rfl
theorem SEI_m_regs (m : Machine) : (SEI_m m).m68xx = { m.m68xx with cc := SEI m.m68xx.cc } := rfl
theorem LOAD_VECTOR_regs (v : Nat) (m : Machine) :
    (LOAD_VECTOR v m).m68xx = { m.m68xx with pc := RM16 m v } := rfl

theorem PUSHBYTE_untouched {α : Type} {f : m6800_Regs → α} (hf : Untouched f) (m : Machine)
    (b : Nat) : f (PUSHBYTE m b).m68xx = f m.m68xx := by
  rw [PUSHBYTE_regs]; exact hf.s _ _

theorem SAVE_CONTEXT_untouched {α : Type} {f : m6800_Regs → α} (hf : Untouched f) (m : Machine) :
    f (SAVE_CONTEXT m).m68xx = f m.m68xx := by
  unfold SAVE_CONTEXT PUSH_CC PUSH_B PUSH_A PUSH_X PUSH_PC
  rw [ADD_EXTRA_regs, hf.extra]
  simp only [PUSHWORD_eq, PUSHBYTE_untouched hf]

theorem RESUME_untouched {α : Type} {f : m6800_Regs → α} (hf : Untouched f) (h : Hdr)
    (m : Machine) : f (RESUME h m).m68xx = f m.m68xx := by
  unfold RESUME
  split_ifs
  · show f { (ADD_EXTRA 4 m).m68xx with wai_state := _ } = _
    rw [hf.wai, ADD_EXTRA_regs, hf.extra]
  · show f { m.m68xx with wai_state := _ } = _
    rw [hf.wai]

theorem ENTER_INTERRUPT_untouched {α : Type} {f : m6800_Regs → α} (hf : Untouched f) (h : Hdr)
    (v : Nat) (m : Machine) : f (ENTER_INTERRUPT h v m).m68xx = f m.m68xx := by
  have e : ENTER_INTERRUPT h v m = LOAD_VECTOR v (SEI_m
      (if (LOG_ENTRY v m).m68xx.wai_state &&& (h.M6800_WAI ||| h.M6800_SLP) ≠ 0
        then RESUME h (LOG_ENTRY v m) else SAVE_CONTEXT (LOG_ENTRY v m))) := rfl
  rw [e, LOAD_VECTOR_regs, hf.pc, SEI_m_regs, hf.cc]
  split_ifs
  · rw [RESUME_untouched hf, LOG_ENTRY_regs]
  · rw [SAVE_CONTEXT_untouched hf, LOG_ENTRY_regs]

theorem untouched_nmi : Untouched (fun r => r.nmi_state) :=
  ⟨fun _ _ => rfl, fun _ _ => rfl, fun _ _ => rfl, fun _ _ => rfl, fun _ _ => rfl⟩
theorem untouched_irq : Untouched (fun r => r.irq_state_IRQ) :=
  ⟨fun _ _ => rfl, fun _ _ => rfl, fun _ _ => rfl, fun _ _ => rfl, fun _ _ => rfl⟩

theorem ENTER_INTERRUPT_nmi (h : Hdr) (v : Nat) (m : Machine) :
    (ENTER_INTERRUPT h v m).m68xx.nmi_state = m.m68xx.nmi_state :=
  ENTER_INTERRUPT_untouched untouched_nmi h v m

theorem ENTER_INTERRUPT_irq (h : Hdr) (v : Nat) (m : Machine) :
    (ENTER_INTERRUPT h v m).m68xx.irq_state_IRQ = m.m68xx.irq_state_IRQ :=
  ENTER_INTERRUPT_untouched untouched_irq h v m

theorem ENTER_INTERRUPT_log (h : Hdr) (v : Nat) (m : Machine) :
    (ENTER_INTERRUPT h v m).entry_log = v :: m.entry_log := by
  have e : ENTER_INTERRUPT h v m = LOAD_VECTOR v (SEI_m
      (if (LOG_ENTRY v m).m68xx.wai_state &&& (h.M6800_WAI ||| h.M6800_SLP) ≠ 0
        then RESUME h (LOG_ENTRY v m) else SAVE_CONTEXT (LOG_ENTRY v m))) := rfl
  rw [e]
  split_ifs
  · show (RESUME h (LOG_ENTRY v m)).entry_log = _
    unfold RESUME; split_ifs <;> rfl
  · rfl

theorem PUSHBYTE_ICount (m : Machine) (b : Nat) :
    (PUSHBYTE m b).m6800_ICount = m.m6800_ICount := rfl
theorem ADD_EXTRA_ICount (n : Int) (m : Machine) :
    (ADD_EXTRA n m).m6800_ICount = m.m6800_ICount := rfl
theorem SEI_m_ICount (m : Machine) : (SEI_m m).m6800_ICount = m.m6800_ICount := rfl
theorem LOAD_VECTOR_ICount (v : Nat) (m : Machine) :
    (LOAD_VECTOR v m).m6800_ICount = m.m6800_ICount := rfl
theorem LOG_ENTRY_ICount (v : Nat) (m : Machine) :
    (LOG_ENTRY v m).m6800_ICount = m.m6800_ICount := rfl

theorem SAVE_CONTEXT_ICount (m : Machine) : (SAVE_CONTEXT m).m6800_ICount = m.m6800_ICount := by
  unfold SAVE_CONTEXT PUSH_CC PUSH_B PUSH_A PUSH_X PUSH_PC
  simp only [ADD_EXTRA_ICount, PUSHWORD_eq, PUSHBYTE_ICount]

theorem RESUME_ICount (h : Hdr) (m : Machine) : (RESUME h m).m6800_ICount = m.m6800_ICount := by
  unfold RESUME; split_ifs <;> rfl

theorem ENTER_INTERRUPT_ICount (h : Hdr) (v : Nat) (m : Machine) :
    (ENTER_INTERRUPT h v m).m6800_ICount = m.m6800_ICount := by
  have e : ENTER_INTERRUPT h v m = LOAD_VECTOR v (SEI_m
      (if (LOG_ENTRY v m).m68xx.wai_state &&& (h.M6800_WAI ||| h.M6800_SLP) ≠ 0
        then RESUME h (LOG_ENTRY v m) else SAVE_CONTEXT (LOG_ENTRY v m))) := rfl
  rw [e, LOAD_VECTOR_ICount, SEI_m_ICount]
  split_ifs
  · rw [RESUME_ICount, LOG_ENTRY_ICount]
  · rw [SAVE_CONTEXT_ICount, LOG_ENTRY_ICount]

/-- `ENTER_INTERRUPT` never lowers `extra_cycles`. -/
theorem ENTER_INTERRUPT_extra_le (h : Hdr) (v : Nat) (m : Machine) :
    m.m68xx.extra_cycles ≤ (ENTER_INTERRUPT h v m).m68xx.extra_cycles := by
  by_cases hh : m.m68xx.wai_state &&& (h.M6800_WAI ||| h.M6800_SLP) = 0
  · rewrite [ENTER_INTERRUPT_running h v m hh, LOAD_VECTOR_extra, SEI_m_extra, SAVE_CONTEXT_extra,
      LOG_ENTRY_regs]
    omega
  · rewrite [ENTER_INTERRUPT_halted h v m hh, LOAD_VECTOR_extra, SEI_m_extra, RESUME_extra,
      LOG_ENTRY_regs]
    split_ifs <;> omega

/-! ## Cycle accounting through timer events -/

theorem OCF_SET_ICount (m : Machine) : (OCF_SET m).m6800_ICount = m.m6800_ICount := rfl
theorem OCF_SET_extra (m : Machine) :
    (OCF_SET m).m68xx.extra_cycles = m.m68xx.extra_cycles := rfl
theorem TOF_SET_ICount (m : Machine) : (TOF_SET m).m6800_ICount = m.m6800_ICount := rfl
theorem TOF_SET_extra (m : Machine) :
    (TOF_SET m).m68xx.extra_cycles = m.m68xx.extra_cycles := rfl
theorem SET_TIMER_EVENT_ICount (m : Machine) :
    (SET_TIMER_EVENT m).m6800_ICount = m.m6800_ICount := rfl
theorem SET_TIMER_EVENT_extra (m : Machine) :
    (SET_TIMER_EVENT m).m68xx.extra_cycles = m.m68xx.extra_cycles := rfl

theorem OCI_EVENT_cycles (h : Hdr) (m : Machine) :
    (OCI_EVENT h m).m6800_ICount = m.m6800_ICount
    ∧ m.m68xx.extra_cycles ≤ (OCI_EVENT h m).m68xx.extra_cycles := by
  unfold OCI_EVENT TAKE_OCI
  dsimp only
  split_ifs
  · refine ⟨by rw [ENTER_INTERRUPT_ICount, OCF_SET_ICount], ?_⟩
    have := ENTER_INTERRUPT_extra_le h 0xfff4 (OCF_SET m)
    rwa [OCF_SET_extra] at this
  · exact ⟨OCF_SET_ICount m, by rw [OCF_SET_extra]⟩

theorem TOI_EVENT_cycles (h : Hdr) (m : Machine) :
    (TOI_EVENT h m).m6800_ICount = m.m6800_ICount
    ∧ m.m68xx.extra_cycles ≤ (TOI_EVENT h m).m68xx.extra_cycles := by
  unfold TOI_EVENT TAKE_TOI
  dsimp only
  split_ifs
  · refine ⟨by rw [ENTER_INTERRUPT_ICount, TOF_SET_ICount], ?_⟩
    have := ENTER_INTERRUPT_extra_le h 0xfff2 (TOF_SET m)
    rwa [TOF_SET_extra] at this
  · exact ⟨TOF_SET_ICount m, by rw [TOF_SET_extra]⟩

/-- A timer event leaves the remaining budget alone and never lowers `extra_cycles`. -/
theorem check_timer_event_cycles (h : Hdr) (m : Machine) :
    (check_timer_event h m).m6800_ICount = m.m6800_ICount
    ∧ m.m68xx.extra_cycles ≤ (check_timer_event h m).m68xx.extra_cycles := by
  unfold check_timer_event
  rw [SET_TIMER_EVENT_ICount, SET_TIMER_EVENT_extra]
  have h1 : (if m.m68xx.counter ≥ m.m68xx.output_compare then OCI_EVENT h m else m).m6800_ICount
        = m.m6800_ICount ∧
      m.m68xx.extra_cycles ≤
        (if m.m68xx.counter ≥ m.m68xx.output_compare then OCI_EVENT h m else m).m68xx.extra_cycles := by
    split_ifs
    · exact OCI_EVENT_cycles h m
    · exact ⟨rfl, le_refl _⟩
  generalize (if m.m68xx.counter ≥ m.m68xx.output_compare then OCI_EVENT h m else m) = m1 at h1 ⊢
  split_ifs
  · have h2 := TOI_EVENT_cycles h m1
    exact ⟨h2.1.trans h1.1, le_trans h1.2 h2.2⟩
  · exact h1

/-- `INCREMENT_COUNTER(amount)` takes exactly `amount` from the remaining budget and never
lowers `extra_cycles`. -/
theorem INCREMENT_COUNTER_cycles (h : Hdr) (amount : Int) (m : Machine) :
    (INCREMENT_COUNTER h amount m).m6800_ICount = m.m6800_ICount - amount
    ∧ m.m68xx.extra_cycles ≤ (INCREMENT_COUNTER h amount m).m68xx.extra_cycles := by
  unfold INCREMENT_COUNTER
  dsimp only
  split_ifs
  · exact check_timer_event_cycles h _
  · exact ⟨rfl, le_refl _⟩

theorem EAT_CYCLES_extra (h : Hdr) (m : Machine) :
    m.m68xx.extra_cycles ≤ (EAT_CYCLES h m).m68xx.extra_cycles := by
  unfold EAT_CYCLES
  dsimp only
  split_ifs <;> first | exact le_refl _ | exact (INCREMENT_COUNTER_cycles h _ m).2

theorem execute_body_extra (h : Hdr) (v : Cpu) (insn : Nat → Machine → Machine)
    (hinsn : insn_keeps_extra insn) (m : Machine) (hm : 0 ≤ m.m68xx.extra_cycles) :
    0 ≤ (execute_body h v insn m).m68xx.extra_cycles := by
  unfold execute_body
  dsimp only
  split_ifs
  · exact le_trans hm (EAT_CYCLES_extra h m)
  · refine le_trans ?_ (INCREMENT_COUNTER_cycles h _ _).2
    exact hinsn _ _ hm

/-- When the loop ends, the remaining budget is used up and `extra_cycles` is not negative. -/
theorem execute_loop_exit (h : Hdr) (v : Cpu) (insn : Nat → Machine → Machine)
    (hinsn : insn_keeps_extra insn) :
    ∀ (fuel : Nat) (m m' : Machine), 0 ≤ m.m68xx.extra_cycles →
      execute_loop h v insn fuel m = some m' →
      m'.m6800_ICount ≤ 0 ∧ 0 ≤ m'.m68xx.extra_cycles := by
  intro fuel
  induction fuel with
  | zero => intro m m' _ hrun; simp [execute_loop] at hrun
  | succ n ih =>
    intro m m' hm hrun
    have hb := execute_body_extra h v insn hinsn m hm
    simp only [execute_loop] at hrun
    split_ifs at hrun with hc
    · exact ih _ _ hb hrun
    · have e : execute_body h v insn m = m' := by simpa using hrun
      rw [← e]
      exact ⟨not_lt.mp hc, hb⟩

/-- C1: for every variant of the execute loop, every initial state and every cycle budget for
which the loop terminates, the value `CPU_EXECUTE` returns (budget minus the remaining cycle
count) is at least the budget: execute never returns early. The opcode bodies are a parameter,
asked only not to make `extra_cycles` negative. -/
theorem C1_execute_never_returns_early (h : Hdr) (v : Cpu) (insn : Nat → Machine → Machine)
    (hinsn : insn_keeps_extra insn) (fuel : Nat) (cycles : Int) (m : Machine)
    (ret : Int) (m' : Machine)
    (hrun : CPU_EXECUTE h v insn fuel cycles m = some (ret, m')) :
    cycles ≤ ret := by
  unfold CPU_EXECUTE at hrun
  simp only at hrun
  split at hrun
  · exact absurd hrun (by simp)
  · rename_i m4 hloop
    have hex := execute_loop_exit h v insn hinsn fuel _ m4 (le_refl _) hloop
    have hinc := (INCREMENT_COUNTER_cycles h m4.m68xx.extra_cycles m4).1
    simp only [Option.some.injEq, Prod.mk.injEq] at hrun
    rw [← hrun.1]
    show cycles ≤ cycles - (INCREMENT_COUNTER h m4.m68xx.extra_cycles m4).m6800_ICount
    rw [hinc]
    omega

theorem nop_insn_keeps_extra : insn_keeps_extra nop_insn := fun _ _ hm => hm

/-- C1 at `running_machine` on the 6800 loop with a budget of 3 cycles: two 2-cycle opcodes are
run and 4 is returned. -/
theorem C1_execute_never_returns_early_witness :
    insn_keeps_extra nop_insn
    ∧ (CPU_EXECUTE hdr0 Cpu.m6800 nop_insn 5 3 running_machine).map Prod.fst = some 4
    ∧ (3 : Int) ≤ 4 :=
  ⟨nop_insn_keeps_extra, by decide,
   C1_execute_never_returns_early hdr0 Cpu.m6800 nop_insn nop_insn_keeps_extra 5 3
     running_machine 4
     ((CPU_EXECUTE hdr0 Cpu.m6800 nop_insn 5 3 running_machine).get (by decide)).2
     (by rfl)⟩

/-! ## Termination of the loop on a running CPU -/

theorem CLRBITS8_and_of_and (x mask k : Nat) (hk : x &&& k = 0) : CLRBITS8 x mask &&& k = 0 := by
  apply Nat.eq_of_testBit_eq
  intro i
  have hx := congrArg (fun n => n.testBit i) hk
  simp only [CLRBITS8, Nat.testBit_and, Nat.testBit_or, Nat.testBit_xor, Nat.zero_testBit] at hx ⊢
  cases hxi : x.testBit i <;> simp_all

theorem PUSHBYTE_wai (m : Machine) (b : Nat) :
    (PUSHBYTE m b).m68xx.wai_state = m.m68xx.wai_state := rfl

theorem SAVE_CONTEXT_wai (m : Machine) :
    (SAVE_CONTEXT m).m68xx.wai_state = m.m68xx.wai_state := by
  have e : (SAVE_CONTEXT m).m68xx.wai_state
      = (PUSH_CC (PUSH_B (PUSH_A (PUSH_X (PUSH_PC m))))).m68xx.wai_state := rfl
  rw [e]
  simp only [PUSH_CC, PUSH_B, PUSH_A, PUSH_X, PUSH_PC, PUSHWORD_eq, PUSHBYTE_wai]

/-- An interrupt entry never sets a bit of `wai_state`. -/
theorem ENTER_INTERRUPT_keeps_running (h : Hdr) (v k : Nat) (m : Machine)
    (hk : m.m68xx.wai_state &&& k = 0) : (ENTER_INTERRUPT h v m).m68xx.wai_state &&& k = 0 := by
  by_cases hh : m.m68xx.wai_state &&& (h.M6800_WAI ||| h.M6800_SLP) = 0
  · rewrite [ENTER_INTERRUPT_running h v m hh, LOAD_VECTOR_wai, SEI_m_wai, SAVE_CONTEXT_wai,
      LOG_ENTRY_regs]
    exact hk
  · rewrite [ENTER_INTERRUPT_halted h v m hh, LOAD_VECTOR_wai, SEI_m_wai, RESUME_wai,
      LOG_ENTRY_regs]
    exact CLRBITS8_and_of_and _ _ _ hk

theorem OCF_SET_wai (m : Machine) : (OCF_SET m).m68xx.wai_state = m.m68xx.wai_state := rfl
theorem TOF_SET_wai (m : Machine) : (TOF_SET m).m68xx.wai_state = m.m68xx.wai_state := rfl
theorem SET_TIMER_EVENT_wai (m : Machine) :
    (SET_TIMER_EVENT m).m68xx.wai_state = m.m68xx.wai_state := rfl

theorem check_timer_event_keeps_running (h : Hdr) (k : Nat) (m : Machine)
    (hk : m.m68xx.wai_state &&& k = 0) : (check_timer_event h m).m68xx.wai_state &&& k = 0 := by
  unfold check_timer_event
  rw [SET_TIMER_EVENT_wai]
  have h1 : (if m.m68xx.counter ≥ m.m68xx.output_compare then OCI_EVENT h m
      else m).m68xx.wai_state &&& k = 0 := by
    split_ifs
    · unfold OCI_EVENT TAKE_OCI
      dsimp only
      split_ifs
      · exact ENTER_INTERRUPT_keeps_running h _ k _ (by rw [OCF_SET_wai]; exact hk)
      · rw [OCF_SET_wai]; exact hk
    · exact hk
  generalize (if m.m68xx.counter ≥ m.m68xx.output_compare then OCI_EVENT h m else m) = m1 at h1 ⊢
  split_ifs
  · unfold TOI_EVENT TAKE_TOI
    dsimp only
    split_ifs
    · exact ENTER_INTERRUPT_keeps_running h _ k _ (by rw [TOF_SET_wai]; exact h1)
    · rw [TOF_SET_wai]; exact h1
  · exact h1

theorem INCREMENT_COUNTER_keeps_running (h : Hdr) (amount : Int) (k : Nat) (m : Machine)
    (hk : m.m68xx.wai_state &&& k = 0) :
    (INCREMENT_COUNTER h amount m).m68xx.wai_state &&& k = 0 := by
  unfold INCREMENT_COUNTER
  dsimp only
  split_ifs
  · exact check_timer_event_keeps_running h k _ hk
  · exact hk

set_option maxRecDepth 100000 in
/-- Every entry of the four cycle tables is at least 1. -/
theorem cycle_table_pos (v : Cpu) (i : Nat) (hi : i < 256) : 1 ≤ (cycle_table v).getD i 0 := by
  have k0 : ∀ j : Fin 256, 1 ≤ cycles_6800.getD j.val 0 := by decide
  have k1 : ∀ j : Fin 256, 1 ≤ cycles_6803.getD j.val 0 := by decide
  have k2 : ∀ j : Fin 256, 1 ≤ cycles_63701.getD j.val 0 := by decide
  have k3 : ∀ j : Fin 256, 1 ≤ cycles_nsc8105.getD j.val 0 := by decide
  cases v
  · exact k0 ⟨i, hi⟩
  · exact k1 ⟨i, hi⟩
  · exact k2 ⟨i, hi⟩
  · exact k3 ⟨i, hi⟩

/-- The running branch of the loop body: one opcode byte fetched, its body run, its cycles
charged. -/
theorem execute_body_running (h : Hdr) (v : Cpu) (insn : Nat → Machine → Machine) (m : Machine)
    (hm : m.m68xx.wai_state &&& halt_mask h v = 0) :
    ∃ op m2, op < 256 ∧ m2.m6800_ICount = m.m6800_ICount ∧
      execute_body h v insn m
        = INCREMENT_COUNTER h (((cycle_table v).getD op 0 : Nat) : Int) (insn op m2) := by
  refine ⟨M_RDOP { m with m68xx := { m.m68xx with ppc := m.m68xx.pc } } m.m68xx.pc,
    { m with m68xx := { m.m68xx with ppc := m.m68xx.pc, pc := (m.m68xx.pc + 1) % 0x10000 } },
    Nat.mod_lt _ (by norm_num), rfl, ?_⟩
  unfold execute_body
  rw [if_neg (by rw [hm]; decide)]

/-- On a CPU that is not halted, with opcode bodies that neither halt it nor give cycles back,
the loop ends within as many passes as the remaining budget (and at least one). -/
theorem execute_loop_terminates (h : Hdr) (v : Cpu) (insn : Nat → Machine → Machine)
    (hcount : ∀ op m, (insn op m).m6800_ICount ≤ m.m6800_ICount)
    (hhalt : ∀ op m, (insn op m).m68xx.wai_state &&& halt_mask h v = 0) :
    ∀ (fuel : Nat) (m : Machine), m.m68xx.wai_state &&& halt_mask h v = 0 →
      m.m6800_ICount ≤ (fuel : Int) →
      ∃ m', execute_loop h v insn (fuel + 1) m = some m' := by
  have body : ∀ m : Machine, m.m68xx.wai_state &&& halt_mask h v = 0 →
      (execute_body h v insn m).m6800_ICount ≤ m.m6800_ICount - 1
      ∧ (execute_body h v insn m).m68xx.wai_state &&& halt_mask h v = 0 := by
    intro m hm
    obtain ⟨op, m2, hop, hm2, e⟩ := execute_body_running h v insn m hm
    rw [e]
    refine ⟨?_, INCREMENT_COUNTER_keeps_running h _ _ _ (hhalt _ _)⟩
    rw [(INCREMENT_COUNTER_cycles h _ _).1]
    have hc := hcount op m2
    have hp := cycle_table_pos v op hop
    omega
  intro fuel
  induction fuel with
  | zero =>
    intro m hm hic
    have hb := (body m hm).1
    refine ⟨execute_body h v insn m, ?_⟩
    simp only [execute_loop]
    rw [if_neg (by omega)]
  | succ n ih =>
    intro m hm hic
    have hb := body m hm
    simp only [execute_loop]
    by_cases hc : (execute_body h v insn m).m6800_ICount > 0
    · rw [if_pos hc]
      have := ih (execute_body h v insn m) hb.2 (by push_cast at hic; omega)
      simpa only [execute_loop] using this
    · rw [if_neg hc]; exact ⟨_, rfl⟩

theorem CLEANUP_conters_wai (m : Machine) :
    (CLEANUP_conters m).m68xx.wai_state = m.m68xx.wai_state := rfl
theorem CLEANUP_conters_ICount (m : Machine) :
    (CLEANUP_conters m).m6800_ICount = m.m6800_ICount := rfl
theorem CLEANUP_conters_extra (m : Machine) :
    (CLEANUP_conters m).m68xx.extra_cycles = m.m68xx.extra_cycles := rfl

/-- On a CPU that is not halted, with opcode bodies that neither halt it nor give cycles back,
`CPU_EXECUTE` returns: the fuel `cycles - extra_cycles + 1` is enough. -/
theorem CPU_EXECUTE_returns (h : Hdr) (v : Cpu) (insn : Nat → Machine → Machine)
    (hcount : ∀ op m, (insn op m).m6800_ICount ≤ m.m6800_ICount)
    (hhalt : ∀ op m, (insn op m).m68xx.wai_state &&& halt_mask h v = 0)
    (cycles : Int) (m : Machine) (hm : m.m68xx.wai_state &&& halt_mask h v = 0) :
    ∃ ret m', CPU_EXECUTE h v insn ((cycles - m.m68xx.extra_cycles).toNat + 1) cycles m
      = some (ret, m') := by
  have hw : (INCREMENT_COUNTER h m.m68xx.extra_cycles
      (CLEANUP_conters { m with m6800_ICount := cycles })).m68xx.wai_state &&& halt_mask h v = 0 :=
    INCREMENT_COUNTER_keeps_running h _ _ _ (by rw [CLEANUP_conters_wai]; exact hm)
  have hi : (INCREMENT_COUNTER h m.m68xx.extra_cycles
      (CLEANUP_conters { m with m6800_ICount := cycles })).m6800_ICount
        = cycles - m.m68xx.extra_cycles := by
    rw [(INCREMENT_COUNTER_cycles h _ _).1, CLEANUP_conters_ICount]
  obtain ⟨m4, h4⟩ := execute_loop_terminates h v insn hcount hhalt
    (cycles - m.m68xx.extra_cycles).toNat
    { INCREMENT_COUNTER h m.m68xx.extra_cycles (CLEANUP_conters { m with m6800_ICount := cycles })
      with m68xx := { (INCREMENT_COUNTER h m.m68xx.extra_cycles
        (CLEANUP_conters { m with m6800_ICount := cycles })).m68xx with extra_cycles := 0 } }
    hw (by show (INCREMENT_COUNTER h m.m68xx.extra_cycles
            (CLEANUP_conters { m with m6800_ICount := cycles })).m6800_ICount ≤ _
           rw [hi]; omega)
  unfold CPU_EXECUTE
  dsimp only
  rw [CLEANUP_conters_extra]
  rw [h4]
  exact ⟨_, _, rfl⟩

/-- C6: NMI is non-maskable. For every state whose NMI latch is clear, whether the I flag is
set or clear, asserting NMI through `set_irq_line` enters the interrupt through vector 0xFFFC:
afterwards PC is the big-endian word at 0xFFFC, the I flag is set and `nmi_state` holds the
asserted level. -/
theorem C6_nmi_not_maskable (h : Hdr) (state : Nat) (m : Machine)
    (hnmi : m.m68xx.nmi_state = h.CLEAR_LINE)
    (hstate : state ≠ h.CLEAR_LINE) (hlevel : state < 0x100) :
    (set_irq_line h IrqLine.NMI state m).entry_log = 0xfffc :: m.entry_log
    ∧ (set_irq_line h IrqLine.NMI state m).m68xx.pc =
        0x100 * RM (set_irq_line h IrqLine.NMI state m) 0xfffc
          + RM (set_irq_line h IrqLine.NMI state m) 0xfffd
    ∧ (set_irq_line h IrqLine.NMI state m).m68xx.cc &&& 0x10 = 0x10
    ∧ (set_irq_line h IrqLine.NMI state m).m68xx.nmi_state = state := by
  have hne : m.m68xx.nmi_state ≠ state := by rw [hnmi]; exact fun e => hstate e.symm
  have e : set_irq_line h IrqLine.NMI state m = ENTER_INTERRUPT h 0xfffc
      { m with m68xx := { m.m68xx with nmi_state := state % 0x100 } } := by
    simp only [set_irq_line, hne, hstate, if_false]
  rw [e]
  refine ⟨ENTER_INTERRUPT_log h _ _, ENTER_INTERRUPT_pc h _ _, ENTER_INTERRUPT_sets_I h _ _, ?_⟩
  rw [ENTER_INTERRUPT_nmi]
  exact Nat.mod_eq_of_lt hlevel

/-- C6 at `masked_machine`, whose I flag is set. -/
theorem C6_nmi_not_maskable_witness :
    masked_machine.m68xx.cc &&& 0x10 = 0x10 ∧
    (set_irq_line hdr0 IrqLine.NMI 1 masked_machine).entry_log
      = 0xfffc :: masked_machine.entry_log :=
  ⟨by decide, (C6_nmi_not_maskable hdr0 1 masked_machine (by decide) (by decide) (by decide)).1⟩

theorem CHECK_IRQ_LINES_masked (h : Hdr) (m : Machine) (hI : m.m68xx.cc &&& 0x10 ≠ 0) :
    CHECK_IRQ_LINES h m = m := by
  simp only [CHECK_IRQ_LINES, hI, if_false]

/-- C7: with the I flag set (CC & 0x10 nonzero) `CHECK_IRQ_LINES` leaves the whole machine,
CPU state and memory, as it is, whatever the IRQ1 level and the timer and SCI status and enable
bits. -/
theorem C7_masked_check_is_noop (h : Hdr) (m : Machine) (hI : m.m68xx.cc &&& 0x10 ≠ 0) :
    CHECK_IRQ_LINES h m = m :=
  CHECK_IRQ_LINES_masked h m hI

/-- C7 at `masked_machine`: IRQ1 asserted, all timer and SCI bits set. -/
theorem C7_masked_check_is_noop_witness :
    masked_machine.m68xx.irq_state_IRQ ≠ hdr0.CLEAR_LINE ∧
    CHECK_IRQ_LINES hdr0 masked_machine = masked_machine :=
  ⟨by decide, C7_masked_check_is_noop hdr0 masked_machine (by decide)⟩

/-! ## Status bits -/

theorem and_two_pow_ne_zero (x i : Nat) : x &&& 2 ^ i ≠ 0 ↔ x.testBit i = true := by
  rw [Nat.and_two_pow]
  cases x.testBit i <;> simp

/-- Both bits of a two-bit mask are set exactly when the masked value equals the mask. -/
theorem and_pair_eq_iff (x i j : Nat) :
    x &&& (2 ^ i ||| 2 ^ j) = (2 ^ i ||| 2 ^ j) ↔ (x &&& 2 ^ i ≠ 0 ∧ x &&& 2 ^ j ≠ 0) := by
  rw [and_two_pow_ne_zero, and_two_pow_ne_zero]
  constructor
  · intro e
    have hi := congrArg (fun n => n.testBit i) e
    have hj := congrArg (fun n => n.testBit j) e
    simp only [Nat.testBit_and, Nat.testBit_or, Nat.testBit_two_pow_self, Bool.true_or,
      Bool.or_true, Bool.and_true] at hi hj
    exact ⟨hi, hj⟩
  · rintro ⟨hi, hj⟩
    apply Nat.eq_of_testBit_eq
    intro k
    simp only [Nat.testBit_and, Nat.testBit_or, Nat.testBit_two_pow]
    by_cases e1 : i = k
    · subst e1; simp [hi]
    · by_cases e2 : j = k
      · subst e2; simp [hj]
      · simp [e1, e2]

/-- C8: with the I flag clear and IRQ1 not asserted, `CHECK_IRQ_LINES` (through
`m6800_check_irq2`) selects at most one source by fixed priority: vector 0xFFF6 if EICI and ICF
are both set in `tcsr`; otherwise 0xFFF4 if EOCI and OCF are both set; otherwise 0xFFF2 if ETOI
and TOF are both set; otherwise 0xFFF0 if RIE and RDRF, or RIE and ORFE, or TIE and TDRE are
both set in `trcsr`; otherwise no interrupt is entered and the state is unchanged. -/
theorem C8_second_group_priority (h : Hdr) (m : Machine)
    (hI : m.m68xx.cc &&& 0x10 = 0) (hirq : m.m68xx.irq_state_IRQ = h.CLEAR_LINE) :
    CHECK_IRQ_LINES h m =
      if m.m68xx.tcsr &&& TCSR_EICI ≠ 0 ∧ m.m68xx.tcsr &&& TCSR_ICF ≠ 0 then
        ENTER_INTERRUPT h 0xfff6 m
      else if m.m68xx.tcsr &&& TCSR_EOCI ≠ 0 ∧ m.m68xx.tcsr &&& TCSR_OCF ≠ 0 then
        ENTER_INTERRUPT h 0xfff4 m
      else if m.m68xx.tcsr &&& TCSR_ETOI ≠ 0 ∧ m.m68xx.tcsr &&& TCSR_TOF ≠ 0 then
        ENTER_INTERRUPT h 0xfff2 m
      else if (m.m68xx.trcsr &&& M6800_TRCSR_RIE ≠ 0 ∧ m.m68xx.trcsr &&& M6800_TRCSR_RDRF ≠ 0)
            ∨ (m.m68xx.trcsr &&& M6800_TRCSR_RIE ≠ 0 ∧ m.m68xx.trcsr &&& M6800_TRCSR_ORFE ≠ 0)
            ∨ (m.m68xx.trcsr &&& M6800_TRCSR_TIE ≠ 0 ∧ m.m68xx.trcsr &&& M6800_TRCSR_TDRE ≠ 0) then
        ENTER_INTERRUPT h 0xfff0 m
      else m := by
  have e : CHECK_IRQ_LINES h m = m6800_check_irq2 h m := by
    simp only [CHECK_IRQ_LINES, hI, hirq, ne_eq, not_true_eq_false, if_true, if_false]
  have p1 := and_pair_eq_iff m.m68xx.tcsr 4 7
  have p2 := and_pair_eq_iff m.m68xx.tcsr 3 6
  have p3 := and_pair_eq_iff m.m68xx.tcsr 2 5
  have p4 := and_pair_eq_iff m.m68xx.trcsr 4 7
  have p5 := and_pair_eq_iff m.m68xx.trcsr 4 6
  have p6 := and_pair_eq_iff m.m68xx.trcsr 2 5
  rw [e]
  unfold m6800_check_irq2 TAKE_ICI TAKE_OCI TAKE_TOI TAKE_SCI
  simp only [TCSR_EICI, TCSR_ICF, TCSR_EOCI, TCSR_OCF, TCSR_ETOI, TCSR_TOF, M6800_TRCSR_RIE,
    M6800_TRCSR_RDRF, M6800_TRCSR_ORFE, M6800_TRCSR_TIE, M6800_TRCSR_TDRE]
  norm_num only at p1 p2 p3 p4 p5 p6
  simp only [p1, p2, p3, p4, p5, p6]

/-- C8 at `timer_flags_machine`: OCF and TOF are both flagged and enabled, ICF is not; the
output-compare interrupt is the one entered. -/
theorem C8_second_group_priority_witness :
    CHECK_IRQ_LINES hdr0 timer_flags_machine = ENTER_INTERRUPT hdr0 0xfff4 timer_flags_machine :=
  (C8_second_group_priority hdr0 timer_flags_machine (by decide) (by decide)).trans (by rfl)

/-! ## Which interrupts a path enters -/

theorem entered_of_log_eq (m m' : Machine) (e : m'.entry_log = m.entry_log) :
    entered m m' = [] := by
  unfold entered; rw [e]; simp

theorem entered_of_log_cons (m m' : Machine) (v : Nat) (e : m'.entry_log = v :: m.entry_log) :
    entered m m' = [v] := by
  unfold entered; rw [e]; simp

theorem MODIFIED_tcsr_cc (m : Machine) : (MODIFIED_tcsr m).m68xx.cc = m.m68xx.cc := rfl
theorem MODIFIED_tcsr_log (m : Machine) : (MODIFIED_tcsr m).entry_log = m.entry_log := rfl
theorem OCF_SET_cc (m : Machine) : (OCF_SET m).m68xx.cc = m.m68xx.cc := rfl
theorem OCF_SET_log (m : Machine) : (OCF_SET m).entry_log = m.entry_log := rfl
theorem TOF_SET_cc (m : Machine) : (TOF_SET m).m68xx.cc = m.m68xx.cc := rfl
theorem TOF_SET_log (m : Machine) : (TOF_SET m).entry_log = m.entry_log := rfl
theorem ICF_SET_cc (m : Machine) : (ICF_SET m).m68xx.cc = m.m68xx.cc := rfl
theorem ICF_SET_log (m : Machine) : (ICF_SET m).entry_log = m.entry_log := rfl
theorem SET_TIMER_EVENT_log (m : Machine) : (SET_TIMER_EVENT m).entry_log = m.entry_log := rfl

/-- With the I flag set an output-compare event enters no interrupt and leaves CC alone. -/
theorem OCI_EVENT_masked (h : Hdr) (m : Machine) (hI : m.m68xx.cc &&& 0x10 ≠ 0) :
    (OCI_EVENT h m).entry_log = m.entry_log ∧ (OCI_EVENT h m).m68xx.cc = m.m68xx.cc := by
  have e : OCI_EVENT h m = OCF_SET m := by
    simp only [OCI_EVENT, OCF_SET_cc, hI, false_and, if_false]
  rw [e]; exact ⟨OCF_SET_log m, OCF_SET_cc m⟩

theorem TOI_EVENT_masked (h : Hdr) (m : Machine) (hI : m.m68xx.cc &&& 0x10 ≠ 0) :
    (TOI_EVENT h m).entry_log = m.entry_log ∧ (TOI_EVENT h m).m68xx.cc = m.m68xx.cc := by
  have e : TOI_EVENT h m = TOF_SET m := by
    simp only [TOI_EVENT, TOF_SET_cc, hI, false_and, if_false]
  rw [e]; exact ⟨TOF_SET_log m, TOF_SET_cc m⟩

/-- With the I flag set `check_timer_event` enters no interrupt. -/
theorem check_timer_event_masked (h : Hdr) (m : Machine) (hI : m.m68xx.cc &&& 0x10 ≠ 0) :
    (check_timer_event h m).entry_log = m.entry_log := by
  unfold check_timer_event
  rw [SET_TIMER_EVENT_log]
  have h1 : (if m.m68xx.counter ≥ m.m68xx.output_compare then OCI_EVENT h m else m).entry_log
        = m.entry_log ∧
      (if m.m68xx.counter ≥ m.m68xx.output_compare then OCI_EVENT h m else m).m68xx.cc
        = m.m68xx.cc := by
    split_ifs
    · exact OCI_EVENT_masked h m hI
    · exact ⟨rfl, rfl⟩
  generalize (if m.m68xx.counter ≥ m.m68xx.output_compare then OCI_EVENT h m else m) = m1 at h1 ⊢
  have hI1 : m1.m68xx.cc &&& 0x10 ≠ 0 := by rw [h1.2]; exact hI
  split_ifs
  · rw [(TOI_EVENT_masked h m1 hI1).1, h1.1]
  · exact h1.1

/-- With the I flag set an edge on the input-capture line enters no interrupt. -/
theorem TIN_EDGE_masked (h : Hdr) (m : Machine) (hI : m.m68xx.cc &&& 0x10 ≠ 0) :
    (TIN_EDGE h m).entry_log = m.entry_log := by
  have hI3 : (ICF_SET m).m68xx.cc &&& 0x10 ≠ 0 := by rw [ICF_SET_cc]; exact hI
  have e : TIN_EDGE h m = ICF_SET m := by
    simp only [TIN_EDGE, CHECK_IRQ_LINES, hI3, if_false]
  rw [e, ICF_SET_log]

theorem set_irq_line_TIN_masked (h : Hdr) (state : Nat) (m : Machine)
    (hI : m.m68xx.cc &&& 0x10 ≠ 0) :
    (set_irq_line h IrqLine.TIN state m).entry_log = m.entry_log := by
  simp only [set_irq_line]
  split_ifs <;> first | rfl | exact TIN_EDGE_masked h _ hI

/-- With the I flag set a write to TCSR enters no interrupt. -/
theorem TCSR_WRITE_masked (h : Hdr) (data : Nat) (m : Machine) (hI : m.m68xx.cc &&& 0x10 ≠ 0) :
    (m6803_internal_registers_w h 0x08 data m).entry_log = m.entry_log := by
  have e : m6803_internal_registers_w h 0x08 data m = TCSR_WRITE h data m := rfl
  have hI2 : (MODIFIED_tcsr { m with m68xx := { m.m68xx with
      tcsr := data, pending_tcsr := m.m68xx.pending_tcsr &&& data } }).m68xx.cc &&& 0x10 ≠ 0 := hI
  have e2 : TCSR_WRITE h data m = MODIFIED_tcsr { m with m68xx := { m.m68xx with
      tcsr := data, pending_tcsr := m.m68xx.pending_tcsr &&& data } } := by
    simp only [TCSR_WRITE, hI2, if_false]
  rw [e, e2]
  rfl

/-- What `m6800_check_irq2` can log: nothing, or one vector of the second group. -/
theorem m6800_check_irq2_log (h : Hdr) (m : Machine) :
    (m6800_check_irq2 h m = m) ∨
    (∃ v, second_group v ∧ m6800_check_irq2 h m = ENTER_INTERRUPT h v m) := by
  unfold m6800_check_irq2 TAKE_ICI TAKE_OCI TAKE_TOI TAKE_SCI
  split_ifs
  · exact Or.inr ⟨0xfff6, by decide, rfl⟩
  · exact Or.inr ⟨0xfff4, by decide, rfl⟩
  · exact Or.inr ⟨0xfff2, by decide, rfl⟩
  · exact Or.inr ⟨0xfff0, by decide, rfl⟩
  · exact Or.inl rfl

/-- C9 as stated fails on the timer path: at `oci_due_machine` the IRQ1 line is asserted, and
`check_timer_event` enters the output-compare interrupt (vector 0xFFF4) all the same. -/
theorem C9_irq1_asserted_counterexample :
    oci_due_machine.m68xx.irq_state_IRQ ≠ hdr0.CLEAR_LINE
    ∧ 0xfff4 ∈ entered oci_due_machine (check_timer_event hdr0 oci_due_machine)
    ∧ second_group 0xfff4 := by
  decide

/-- C9, amended: `CHECK_IRQ_LINES` enters an interrupt of the second group only when the IRQ1
latch is clear. The three direct paths (`check_timer_event`, `set_irq_line` on the
input-capture line, a write to TCSR at offset 0x08) enter one only when the I flag is clear;
so from every state in which the I flag is set or the IRQ1 latch is clear - the condition
`CHECK_IRQ_LINES` leaves behind - the IRQ1 latch is clear when they enter one. None of the
four paths changes the IRQ1 latch. -/
theorem C9_second_group_entry (h : Hdr) (m : Machine) (state data : Nat) :
    (∀ v ∈ entered m (CHECK_IRQ_LINES h m), second_group v →
        m.m68xx.irq_state_IRQ = h.CLEAR_LINE)
    ∧ (∀ v ∈ entered m (check_timer_event h m), m.m68xx.cc &&& 0x10 = 0)
    ∧ (∀ v ∈ entered m (set_irq_line h IrqLine.TIN state m), m.m68xx.cc &&& 0x10 = 0)
    ∧ (∀ v ∈ entered m (m6803_internal_registers_w h 0x08 data m), m.m68xx.cc &&& 0x10 = 0)
    ∧ ((m.m68xx.cc &&& 0x10 ≠ 0 ∨ m.m68xx.irq_state_IRQ = h.CLEAR_LINE) →
        (∀ v ∈ entered m (check_timer_event h m), m.m68xx.irq_state_IRQ = h.CLEAR_LINE)
        ∧ (∀ v ∈ entered m (set_irq_line h IrqLine.TIN state m),
            m.m68xx.irq_state_IRQ = h.CLEAR_LINE)
        ∧ (∀ v ∈ entered m (m6803_internal_registers_w h 0x08 data m),
            m.m68xx.irq_state_IRQ = h.CLEAR_LINE))
    ∧ ((CHECK_IRQ_LINES h m).m68xx.cc &&& 0x10 ≠ 0
        ∨ (CHECK_IRQ_LINES h m).m68xx.irq_state_IRQ = h.CLEAR_LINE) := by
  have masked : ∀ (m' : Machine), (m.m68xx.cc &&& 0x10 ≠ 0 → m'.entry_log = m.entry_log) →
      ∀ v ∈ entered m m', m.m68xx.cc &&& 0x10 = 0 := by
    intro m' hm' v hv
    by_contra hI
    rw [entered_of_log_eq m m' (hm' hI)] at hv
    simp at hv
  have p2 := masked _ (check_timer_event_masked h m)
  have p3 := masked _ (set_irq_line_TIN_masked h state m)
  have p4 := masked _ (TCSR_WRITE_masked h data m)
  have sets : ∀ v, (ENTER_INTERRUPT h v m).m68xx.cc &&& 0x10 ≠ 0 := by
    intro v; rw [ENTER_INTERRUPT_sets_I]; decide
  refine ⟨?_, p2, p3, p4, ?_, ?_⟩
  · intro v hv hg
    by_contra hirq
    by_cases hI : m.m68xx.cc &&& 0x10 = 0
    · have e : CHECK_IRQ_LINES h m = ENTER_INTERRUPT h 0xfff8 m := by
        simp only [CHECK_IRQ_LINES, hI, hirq, ne_eq, not_false_eq_true, if_true]
      rw [entered_of_log_cons m _ 0xfff8 (by rw [e, ENTER_INTERRUPT_log])] at hv
      simp only [List.mem_singleton] at hv
      subst hv
      revert hg; decide
    · rw [CHECK_IRQ_LINES_masked h m hI, entered_of_log_eq m m rfl] at hv
      simp at hv
  · intro hinv
    have key : ∀ (m' : Machine), (∀ v ∈ entered m m', m.m68xx.cc &&& 0x10 = 0) →
        ∀ v ∈ entered m m', m.m68xx.irq_state_IRQ = h.CLEAR_LINE := by
      intro m' hm' v hv
      rcases hinv with hI | hc
      · exact absurd (hm' v hv) hI
      · exact hc
    exact ⟨key _ p2, key _ p3, key _ p4⟩
  · by_cases hI : m.m68xx.cc &&& 0x10 = 0
    · by_cases hirq : m.m68xx.irq_state_IRQ = h.CLEAR_LINE
      · have e : CHECK_IRQ_LINES h m = m6800_check_irq2 h m := by
          simp only [CHECK_IRQ_LINES, hI, hirq, ne_eq, not_true_eq_false, if_true, if_false]
        rw [e]
        rcases m6800_check_irq2_log h m with e2 | ⟨v, -, e2⟩
        · rw [e2]; exact Or.inr hirq
        · rw [e2]; exact Or.inl (sets v)
      · have e : CHECK_IRQ_LINES h m = ENTER_INTERRUPT h 0xfff8 m := by
          simp only [CHECK_IRQ_LINES, hI, hirq, ne_eq, not_false_eq_true, if_true]
        rw [e]; exact Or.inl (sets _)
    · rw [CHECK_IRQ_LINES_masked h m hI]; exact Or.inl hI

/-- C9 (amended) at `timer_flags_machine`: `CHECK_IRQ_LINES` enters the output-compare
interrupt, and the IRQ1 latch is clear. -/
theorem C9_second_group_entry_witness :
    0xfff4 ∈ entered timer_flags_machine (CHECK_IRQ_LINES hdr0 timer_flags_machine)
    ∧ timer_flags_machine.m68xx.irq_state_IRQ = hdr0.CLEAR_LINE :=
  ⟨by decide,
   (C9_second_group_entry hdr0 timer_flags_machine 0 0).1 0xfff4 (by decide) (by decide)⟩

/-! ## Flag algebra -/

theorem tb_128_4 : Nat.testBit 128 4 = false := by decide
theorem tb_128_5 : Nat.testBit 128 5 = false := by decide
theorem tb_128_6 : Nat.testBit 128 6 = false := by decide
theorem tb_128_7 : Nat.testBit 128 7 = true := by decide
theorem tb_128_8 : Nat.testBit 128 8 = false := by decide
theorem tb_128_9 : Nat.testBit 128 9 = false := by decide
theorem tb_128_11 : Nat.testBit 128 11 = false := by decide
theorem tb_256_8 : Nat.testBit 256 8 = true := by decide
theorem tb_256_9 : Nat.testBit 256 9 = false := by decide
theorem tb_256_10 : Nat.testBit 256 10 = false := by decide
theorem tb_256_11 : Nat.testBit 256 11 = false := by decide
theorem tb_256_13 : Nat.testBit 256 13 = false := by decide
theorem tb_16_0 : Nat.testBit 16 0 = false := by decide
theorem tb_16_1 : Nat.testBit 16 1 = false := by decide
theorem tb_16_2 : Nat.testBit 16 2 = false := by decide
theorem tb_16_4 : Nat.testBit 16 4 = true := by decide
theorem tb_4_0 : Nat.testBit 4 0 = false := by decide
theorem tb_4_1 : Nat.testBit 4 1 = false := by decide
theorem tb_4_2 : Nat.testBit 4 2 = true := by decide
theorem tb_4_3 : Nat.testBit 4 3 = false := by decide
theorem tb_4_5 : Nat.testBit 4 5 = false := by decide
theorem tb_208_0 : Nat.testBit 208 0 = false := by decide
theorem tb_208_1 : Nat.testBit 208 1 = false := by decide
theorem tb_208_2 : Nat.testBit 208 2 = false := by decide
theorem tb_208_3 : Nat.testBit 208 3 = false := by decide
theorem tb_208_5 : Nat.testBit 208 5 = false := by decide

/-- The flag byte produced by the 8-bit arithmetic instructions from CC, the operands and the
untruncated result: `CLR_HNZVC; SET_FLAGS8(a,b,r); SET_H(a,b,r);`. -/
theorem flags8_bits (cc a b r : Nat) :
    ((SET_H (SET_FLAGS8 (CLR_HNZVC cc) a b r) a b r).testBit 0 = r.testBit 8)
    ∧ ((SET_H (SET_FLAGS8 (CLR_HNZVC cc) a b r) a b r).testBit 1
        = (a ^^^ b ^^^ r ^^^ (r >>> 1)).testBit 7)
    ∧ ((SET_H (SET_FLAGS8 (CLR_HNZVC cc) a b r) a b r).testBit 2 = decide (r % 0x100 = 0))
    ∧ ((SET_H (SET_FLAGS8 (CLR_HNZVC cc) a b r) a b r).testBit 3 = r.testBit 7)
    ∧ ((SET_H (SET_FLAGS8 (CLR_HNZVC cc) a b r) a b r).testBit 5 = (a ^^^ b ^^^ r).testBit 4) := by
  simp only [SET_H, SET_FLAGS8, SET_C8, SET_V8, SET_Z8, SET_Z, SET_N8, SEZ, CLR_HNZVC]
  refine ⟨?_, ?_, ?_, ?_, ?_⟩ <;> split_ifs <;>
    simp [Nat.testBit_or, Nat.testBit_and, Nat.testBit_shiftRight, Nat.testBit_shiftLeft,
      Nat.testBit_xor, tb_128_4, tb_128_5, tb_128_6, tb_128_7, tb_128_8, tb_128_9, tb_128_11, tb_256_8, tb_256_9, tb_256_10, tb_256_11, tb_256_13, tb_16_0, tb_16_1, tb_16_2, tb_16_4, tb_4_0, tb_4_1, tb_4_2, tb_4_3, tb_4_5, tb_208_0, tb_208_1, tb_208_2, tb_208_3, tb_208_5, *]


/-- The same without `SET_H`, as the subtract and compare instructions use it. -/
theorem flags8_bits_sub (cc a b r : Nat) :
    ((SET_FLAGS8 (CLR_HNZVC cc) a b r).testBit 0 = r.testBit 8)
    ∧ ((SET_FLAGS8 (CLR_HNZVC cc) a b r).testBit 1 = (a ^^^ b ^^^ r ^^^ (r >>> 1)).testBit 7) := by
  simp only [SET_FLAGS8, SET_C8, SET_V8, SET_Z8, SET_Z, SET_N8, SEZ, CLR_HNZVC]
  refine ⟨?_, ?_⟩ <;> split_ifs <;>
    simp [Nat.testBit_or, Nat.testBit_and, Nat.testBit_shiftRight, Nat.testBit_shiftLeft,
      Nat.testBit_xor, tb_128_4, tb_128_5, tb_128_6, tb_128_7, tb_128_8, tb_128_9, tb_128_11, tb_256_8, tb_256_9, tb_256_10, tb_256_11, tb_256_13, tb_16_0, tb_16_1, tb_16_2, tb_16_4, tb_4_0, tb_4_1, tb_4_2, tb_4_3, tb_4_5, tb_208_0, tb_208_1, tb_208_2, tb_208_3, tb_208_5, *]

theorem testBit_iff_div_mod (x i : Nat) : x.testBit i = true ↔ x / 2 ^ i % 2 = 1 := by
  rw [Nat.testBit_to_div_mod]; simp

/-- Carry of an 8-bit addition: bit 8 of the untruncated sum. -/
theorem add8_carry (a b c : Nat) (ha : a < 0x100) (hb : b < 0x100) (hc : c ≤ 1) :
    (a + b + c).testBit 8 = true ↔ 0x100 ≤ a + b + c := by
  rw [testBit_iff_div_mod]; norm_num; omega

/-- Half carry of an 8-bit addition. -/
theorem add8_half (a b c : Nat) (hc : c ≤ 1) :
    (a ^^^ b ^^^ (a + b + c)).testBit 4 = true ↔ 0x10 ≤ a % 0x10 + b % 0x10 + c := by
  rw [Nat.testBit_xor, Nat.testBit_xor]
  simp only [Nat.testBit_to_div_mod]
  norm_num
  by_cases h1 : a / 16 % 2 = 1 <;> by_cases h2 : b / 16 % 2 = 1 <;>
    by_cases h3 : (a + b + c) / 16 % 2 = 1 <;> simp [h1, h2, h3] <;> omega

/-- Signed overflow of an 8-bit addition. -/
theorem add8_overflow (a b c : Nat) (ha : a < 0x100) (hb : b < 0x100) (hc : c ≤ 1) :
    (a ^^^ b ^^^ (a + b + c) ^^^ ((a + b + c) >>> 1)).testBit 7 = true ↔
      (signed8 a + signed8 b + (c : Int) < -128 ∨ 127 < signed8 a + signed8 b + (c : Int)) := by
  rw [Nat.testBit_xor, Nat.testBit_xor, Nat.testBit_xor, Nat.testBit_shiftRight]
  simp only [Nat.testBit_to_div_mod, signed8]
  norm_num
  by_cases h1 : a / 128 % 2 = 1 <;> by_cases h2 : b / 128 % 2 = 1 <;>
    by_cases h3 : (a + b + c) / 128 % 2 = 1 <;> by_cases h4 : (a + b + c) / 256 % 2 = 1 <;>
    simp [h1, h2, h3, h4] <;> split_ifs <;> omega

/-- Borrow of an 8-bit subtraction: bit 8 of the 16-bit difference. -/
theorem sub8_borrow (a b c : Nat) (ha : a < 0x100) (hb : b < 0x100) (hc : c ≤ 1) :
    ((0x10000 + a - b - c) % 0x10000).testBit 8 = true ↔ a < b + c := by
  rw [testBit_iff_div_mod]; norm_num; omega

/-- Signed overflow of an 8-bit subtraction. -/
theorem sub8_overflow (a b c : Nat) (ha : a < 0x100) (hb : b < 0x100) (hc : c ≤ 1) :
    (a ^^^ b ^^^ ((0x10000 + a - b - c) % 0x10000)
        ^^^ (((0x10000 + a - b - c) % 0x10000) >>> 1)).testBit 7 = true ↔
      (signed8 a - signed8 b - (c : Int) < -128 ∨ 127 < signed8 a - signed8 b - (c : Int)) := by
  rw [Nat.testBit_xor, Nat.testBit_xor, Nat.testBit_xor, Nat.testBit_shiftRight]
  simp only [Nat.testBit_to_div_mod, signed8]
  norm_num
  by_cases h1 : a / 128 % 2 = 1 <;> by_cases h2 : b / 128 % 2 = 1 <;>
    by_cases h3 : (65536 + a - b - c) % 65536 / 128 % 2 = 1 <;>
    by_cases h4 : (65536 + a - b - c) % 65536 / 256 % 2 = 1 <;>
    simp [h1, h2, h3, h4] <;> split_ifs <;> omega

/-- C10: for all bytes a, b and carry or borrow c in {0,1}, starting from cleared H, N, Z, V, C
bits. (i) With r = a + b + c, `SET_FLAGS8(a,b,r)` and `SET_H(a,b,r)` set Z iff r mod 256 = 0,
N iff bit 7 of r is set, C iff r >= 256, H iff (a mod 16) + (b mod 16) + c >= 16, and V iff the
two's-complement sum of a, b and c lies outside [-128, 127]. (ii) With
r = (a - b - c) mod 2^16, `SET_FLAGS8(a,b,r)` sets C iff a < b + c and V iff the
two's-complement difference lies outside [-128, 127]. -/
theorem C10_flags8_arithmetic (cc a b c : Nat) (ha : a < 0x100) (hb : b < 0x100) (hc : c ≤ 1) :
    ((SET_H (SET_FLAGS8 (CLR_HNZVC cc) a b (a + b + c)) a b (a + b + c) &&& 0x04 ≠ 0
        ↔ (a + b + c) % 0x100 = 0)
      ∧ (SET_H (SET_FLAGS8 (CLR_HNZVC cc) a b (a + b + c)) a b (a + b + c) &&& 0x08 ≠ 0
        ↔ (a + b + c) / 0x80 % 2 = 1)
      ∧ (SET_H (SET_FLAGS8 (CLR_HNZVC cc) a b (a + b + c)) a b (a + b + c) &&& 0x01 ≠ 0
        ↔ 0x100 ≤ a + b + c)
      ∧ (SET_H (SET_FLAGS8 (CLR_HNZVC cc) a b (a + b + c)) a b (a + b + c) &&& 0x20 ≠ 0
        ↔ 0x10 ≤ a % 0x10 + b % 0x10 + c)
      ∧ (SET_H (SET_FLAGS8 (CLR_HNZVC cc) a b (a + b + c)) a b (a + b + c) &&& 0x02 ≠ 0
        ↔ (signed8 a + signed8 b + (c : Int) < -128 ∨ 127 < signed8 a + signed8 b + (c : Int))))
    ∧ ((SET_FLAGS8 (CLR_HNZVC cc) a b ((0x10000 + a - b - c) % 0x10000) &&& 0x01 ≠ 0
        ↔ a < b + c)
      ∧ (SET_FLAGS8 (CLR_HNZVC cc) a b ((0x10000 + a - b - c) % 0x10000) &&& 0x02 ≠ 0
        ↔ (signed8 a - signed8 b - (c : Int) < -128 ∨ 127 < signed8 a - signed8 b - (c : Int)))) := by
  obtain ⟨f0, f1, f2, f3, f5⟩ := flags8_bits cc a b (a + b + c)
  obtain ⟨g0, g1⟩ := flags8_bits_sub cc a b ((0x10000 + a - b - c) % 0x10000)
  have m0 : ∀ x : Nat, x &&& 0x01 ≠ 0 ↔ x.testBit 0 = true := fun x => and_two_pow_ne_zero x 0
  have m1 : ∀ x : Nat, x &&& 0x02 ≠ 0 ↔ x.testBit 1 = true := fun x => and_two_pow_ne_zero x 1
  have m2 : ∀ x : Nat, x &&& 0x04 ≠ 0 ↔ x.testBit 2 = true := fun x => and_two_pow_ne_zero x 2
  have m3 : ∀ x : Nat, x &&& 0x08 ≠ 0 ↔ x.testBit 3 = true := fun x => and_two_pow_ne_zero x 3
  have m5 : ∀ x : Nat, x &&& 0x20 ≠ 0 ↔ x.testBit 5 = true := fun x => and_two_pow_ne_zero x 5
  refine ⟨⟨?_, ?_, ?_, ?_, ?_⟩, ?_, ?_⟩
  · rw [m2, f2, decide_eq_true_iff]
  · rw [m3, f3, testBit_iff_div_mod]; norm_num
  · rw [m0, f0]; exact add8_carry a b c ha hb hc
  · rw [m5, f5]; exact add8_half a b c hc
  · rw [m1, f1]; exact add8_overflow a b c ha hb hc
  · rw [m0, g0]; exact sub8_borrow a b c ha hb hc
  · rw [m1, g1]; exact sub8_overflow a b c ha hb hc

/-- C10 at a = 0x7f, b = 0x01, c = 0 with CC = 0xff: the carry clause, for the sum 0x80. -/
theorem C10_flags8_arithmetic_witness :
    SET_H (SET_FLAGS8 (CLR_HNZVC 0xff) 0x7f 0x01 (0x7f + 0x01 + 0)) 0x7f 0x01 (0x7f + 0x01 + 0)
        &&& 0x01 ≠ 0
      ↔ 0x100 ≤ 0x7f + 0x01 + 0 :=
  (C10_flags8_arithmetic 0xff 0x7f 0x01 0 (by decide) (by decide) (by decide)).1.2.2.1

/-! ## The increment and decrement flag tables -/

set_option maxRecDepth 100000 in
/-- C11: for every byte `r`, the entry `flags8i[r]` has the carry bit clear, has V set exactly
when `r = 0x80`, and has exactly the N and Z bits that `SET_NZ8(r)` sets into a cleared CC; the
entry `flags8d[r]` has the carry bit clear, has V set exactly when `r = 0x7F`, and the same N
and Z bits; and `flags8i[0x80]` is N|V (0x0A), with Z clear. -/
theorem C11_flag_tables (r : Fin 256) :
    (flags8i.getD r.val 0 &&& 0x01 = 0
      ∧ (flags8i.getD r.val 0 &&& 0x02 ≠ 0 ↔ r.val = 0x80)
      ∧ flags8i.getD r.val 0 &&& 0x0c = SET_NZ8 0 r.val
      ∧ flags8i.getD r.val 0 &&& 0xf0 = 0)
    ∧ (flags8d.getD r.val 0 &&& 0x01 = 0
      ∧ (flags8d.getD r.val 0 &&& 0x02 ≠ 0 ↔ r.val = 0x7f)
      ∧ flags8d.getD r.val 0 &&& 0x0c = SET_NZ8 0 r.val
      ∧ flags8d.getD r.val 0 &&& 0xf0 = 0)
    ∧ flags8i.getD 0x80 0 = 0x08 ||| 0x02
    ∧ SET_FLAGS8I 0 0x80 = 0x0a ∧ SET_FLAGS8I 0 0x80 &&& 0x04 = 0 := by
  revert r
  decide

/-! ## A budget of 0 -/

/-- With the counters already in normal form, `CLEANUP_conters` only sets `timer_next`. -/
theorem CLEANUP_conters_quiet (m : Machine) (hq : timer_quiet m) :
    CLEANUP_conters m = SET_TIMER_EVENT m := by
  obtain ⟨hc, _, ho, _, ht⟩ := hq
  have e1 : mkPAIR (0x10000 + WH m.m68xx.output_compare - WH m.m68xx.counter)
      (WL m.m68xx.output_compare) = m.m68xx.output_compare := by
    unfold mkPAIR WH WL; omega
  have e2 : mkPAIR (WH m.m68xx.timer_over) (0x10000 + WL m.m68xx.timer_over - WH m.m68xx.counter)
      = m.m68xx.timer_over := by
    unfold mkPAIR WH WL; omega
  have e3 : mkPAIR 0 (WL m.m68xx.counter) = m.m68xx.counter := by
    unfold mkPAIR WL; omega
  unfold CLEANUP_conters
  dsimp only
  rw [e1, e2, e3]

theorem m6800_check_irq2_quiet (h : Hdr) (m : Machine) (hq : ¬ irq2_pending m) :
    m6800_check_irq2 h m = m := by
  unfold irq2_pending at hq
  simp only [not_or] at hq
  obtain ⟨h1, h2, h3, h4, h5, h6⟩ := hq
  unfold m6800_check_irq2
  rw [if_neg h1, if_neg h2, if_neg h3, if_neg (by simp only [not_or]; exact ⟨h4, h5, h6⟩)]

/-- C13 refuted as stated: on `oci_due_machine` (I flag clear, IRQ1 asserted) the pair
`CPU_GET_CONTEXT` / `CPU_SET_CONTEXT` does not give the state back: the IRQ1 interrupt is
entered, so PC, S and CC change (and seven bytes are pushed on the stack). -/
theorem C13_context_copy_enters_irq_counterexample :
    (oci_due_machine.m68xx.pc, oci_due_machine.m68xx.s, oci_due_machine.m68xx.cc)
      = (0x1234, 0x01ff, 0xc0)
    ∧ ((CPU_SET_CONTEXT hdr0 (CPU_GET_CONTEXT oci_due_machine (some regs0)) oci_due_machine).m68xx.pc,
       (CPU_SET_CONTEXT hdr0 (CPU_GET_CONTEXT oci_due_machine (some regs0)) oci_due_machine).m68xx.s,
       (CPU_SET_CONTEXT hdr0 (CPU_GET_CONTEXT oci_due_machine (some regs0)) oci_due_machine).m68xx.cc)
      = (0x5678, 0x01f8, 0xd0)
    ∧ (CPU_SET_CONTEXT hdr0 (CPU_GET_CONTEXT oci_due_machine (some regs0)) oci_due_machine).mem 0x01ff
      ≠ oci_due_machine.mem 0x01ff := by
  decide

/-- C13 (amended): `CPU_SET_CONTEXT` applied to the buffer filled by `CPU_GET_CONTEXT` leaves
every register and every memory byte as it was when nothing is there for `CHECK_IRQ_LINES` to
take: the I flag is set, or the IRQ1 line is released and no enabled second-group source is
flagged. (Otherwise the call ends by entering the pending interrupt.) -/
theorem C13_context_round_trip (h : Hdr) (m : Machine) (buf : m6800_Regs)
    (hq : m.m68xx.cc &&& 0x10 ≠ 0 ∨ (m.m68xx.irq_state_IRQ = h.CLEAR_LINE ∧ ¬ irq2_pending m)) :
    CPU_SET_CONTEXT h (CPU_GET_CONTEXT m (some buf)) m = m := by
  show CHECK_IRQ_LINES h m = m
  rcases hq with hI | ⟨hl, hp⟩
  · exact CHECK_IRQ_LINES_masked h m hI
  · unfold CHECK_IRQ_LINES
    by_cases hI : m.m68xx.cc &&& 0x10 = 0
    · rw [if_pos hI, if_neg (not_not.mpr hl)]
      exact m6800_check_irq2_quiet h m hp
    · rw [if_neg hI]

/-- C13 (amended) at `masked_machine` (I flag set, IRQ1 asserted, every status bit set) and at
`running_machine` (I flag clear, nothing pending). -/
theorem C13_context_round_trip_witness :
    (masked_machine.m68xx.cc &&& 0x10 ≠ 0
      ∧ CPU_SET_CONTEXT hdr0 (CPU_GET_CONTEXT masked_machine (some regs0)) masked_machine
          = masked_machine)
    ∧ (running_machine.m68xx.cc &&& 0x10 = 0
      ∧ CPU_SET_CONTEXT hdr0 (CPU_GET_CONTEXT running_machine (some regs0)) running_machine
          = running_machine) :=
  ⟨⟨by decide, C13_context_round_trip hdr0 masked_machine regs0 (Or.inl (by decide))⟩,
   ⟨by decide, C13_context_round_trip hdr0 running_machine regs0 (Or.inr ⟨by decide, by decide⟩)⟩⟩

/-! ## Reset -/

theorem or_and_of_and_eq_zero (x b k : Nat) (hb : b &&& k = 0) : (x ||| b) &&& k = x &&& k := by
  rw [Nat.and_comm, Nat.and_or_distrib_left, Nat.and_comm k b, hb, Nat.or_zero, Nat.and_comm]

theorem or_64_mod_and_64 (x : Nat) : (x ||| 0x40) % 0x100 &&& 0x40 = 0x40 := by
  apply Nat.eq_of_testBit_eq
  intro i
  rw [show (0x100 : Nat) = 2 ^ 8 from rfl, show (0x40 : Nat) = 2 ^ 6 from rfl]
  simp only [Nat.testBit_and, Nat.testBit_mod_two_pow, Nat.testBit_or, Nat.testBit_two_pow]
  by_cases h6 : 6 = i
  · subst h6; simp
  · simp [h6]

theorem RM16_congr (m1 m2 : Machine) (hmem : m1.mem = m2.mem) (a : Nat) :
    RM16 m1 a = RM16 m2 a := by
  unfold RM16 RM
  rw [hmem]

/-- C14: after `CPU_RESET`, from any prior state: the I flag is set; PC is the big-endian word
at 0xFFFE/0xFFFF; `wai_state`, `nmi_state` and both IRQ line latches are 0; the 32-bit counter
is 0; the output-compare and timer-overflow targets are 0xFFFF; `tcsr`, `pending_tcsr` and
`irq2` are 0; `trcsr` is exactly TDRE (0x20); `rmcr` is 0; the transmitter is in state Init with
`txbits = rxbits = 0`; and the status-read latch `trcsr_read` is clear. -/
theorem C14_reset_state (m : Machine) :
    (CPU_RESET m).m68xx.cc &&& 0x10 ≠ 0
    ∧ (CPU_RESET m).m68xx.pc = 0x100 * RM m 0xfffe + RM m 0xffff
    ∧ (CPU_RESET m).m68xx.wai_state = 0
    ∧ (CPU_RESET m).m68xx.nmi_state = 0
    ∧ (CPU_RESET m).m68xx.irq_state_IRQ = 0
    ∧ (CPU_RESET m).m68xx.irq_state_TIN = 0
    ∧ (CPU_RESET m).m68xx.counter = 0
    ∧ (CPU_RESET m).m68xx.output_compare = 0xffff
    ∧ (CPU_RESET m).m68xx.timer_over = 0xffff
    ∧ (CPU_RESET m).m68xx.tcsr = 0
    ∧ (CPU_RESET m).m68xx.pending_tcsr = 0
    ∧ (CPU_RESET m).m68xx.irq2 = 0
    ∧ (CPU_RESET m).m68xx.trcsr = M6800_TRCSR_TDRE ∧ M6800_TRCSR_TDRE = 0x20
    ∧ (CPU_RESET m).m68xx.rmcr = 0
    ∧ (CPU_RESET m).m68xx.txstate = M6800_TX_STATE_INIT
    ∧ (CPU_RESET m).m68xx.txbits = 0
    ∧ (CPU_RESET m).m68xx.rxbits = 0
    ∧ (CPU_RESET m).m68xx.trcsr_read = 0 := by
  have hI : (CPU_RESET m).m68xx.cc &&& 0x10 ≠ 0 := by
    show SEI m.m68xx.cc &&& 0x10 ≠ 0
    rw [SEI_sets_I]
    decide
  refine ⟨hI, ?_, rfl, rfl, rfl, rfl, rfl, rfl, rfl, rfl, rfl, rfl, rfl, rfl,
    rfl, rfl, rfl, rfl, rfl⟩
  show RM16 m 0xfffe = _
  rw [RM16_eq]

/-- C15 refuted as stated: two prior states over the same memory that differ in A, B, X, S and
CC still differ in them after reset (only the I flag has been set in CC). -/
theorem C15_registers_survive_reset_counterexample :
    running_machine.mem = power_on_machine.mem
    ∧ ((CPU_RESET running_machine).m68xx.a, (CPU_RESET running_machine).m68xx.b,
       (CPU_RESET running_machine).m68xx.x, (CPU_RESET running_machine).m68xx.s,
       (CPU_RESET running_machine).m68xx.cc) = (0x11, 0x22, 0xabcd, 0x01ff, 0xd1)
    ∧ ((CPU_RESET power_on_machine).m68xx.a, (CPU_RESET power_on_machine).m68xx.b,
       (CPU_RESET power_on_machine).m68xx.x, (CPU_RESET power_on_machine).m68xx.s,
       (CPU_RESET power_on_machine).m68xx.cc) = (0, 0, 0, 0, 0x10) := by
  refine ⟨rfl, ?_, ?_⟩ <;> decide

/-- C15 (amended): reset reinitialises the fields it assigns, whatever they held. For any two
prior states over the same memory, the states after reset agree on PC, the I flag, `wai_state`,
`nmi_state`, both IRQ latches, `ic_eddge`, the DDRs of ports 1 and 2, `tcsr`, `pending_tcsr`,
`irq2`, the counter, the output-compare and timer-overflow targets, bit 0x40 of `ram_ctrl`,
`trcsr`, `rmcr`, `txstate`, `txbits`, `rxbits` and `trcsr_read`; A, B, X, S and the CC bits
other than I are those of the prior state. -/
theorem C15_reset_assigned_fields_agree (m1 m2 : Machine) (hmem : m1.mem = m2.mem) :
    ((CPU_RESET m1).m68xx.pc = (CPU_RESET m2).m68xx.pc
      ∧ (CPU_RESET m1).m68xx.cc &&& 0x10 = (CPU_RESET m2).m68xx.cc &&& 0x10
      ∧ (CPU_RESET m1).m68xx.wai_state = (CPU_RESET m2).m68xx.wai_state
      ∧ (CPU_RESET m1).m68xx.nmi_state = (CPU_RESET m2).m68xx.nmi_state
      ∧ (CPU_RESET m1).m68xx.irq_state_IRQ = (CPU_RESET m2).m68xx.irq_state_IRQ
      ∧ (CPU_RESET m1).m68xx.irq_state_TIN = (CPU_RESET m2).m68xx.irq_state_TIN
      ∧ (CPU_RESET m1).m68xx.ic_eddge = (CPU_RESET m2).m68xx.ic_eddge
      ∧ (CPU_RESET m1).m68xx.port1_ddr = (CPU_RESET m2).m68xx.port1_ddr
      ∧ (CPU_RESET m1).m68xx.port2_ddr = (CPU_RESET m2).m68xx.port2_ddr
      ∧ (CPU_RESET m1).m68xx.tcsr = (CPU_RESET m2).m68xx.tcsr
      ∧ (CPU_RESET m1).m68xx.pending_tcsr = (CPU_RESET m2).m68xx.pending_tcsr
      ∧ (CPU_RESET m1).m68xx.irq2 = (CPU_RESET m2).m68xx.irq2
      ∧ (CPU_RESET m1).m68xx.counter = (CPU_RESET m2).m68xx.counter
      ∧ (CPU_RESET m1).m68xx.output_compare = (CPU_RESET m2).m68xx.output_compare
      ∧ (CPU_RESET m1).m68xx.timer_over = (CPU_RESET m2).m68xx.timer_over
      ∧ (CPU_RESET m1).m68xx.ram_ctrl &&& 0x40 = (CPU_RESET m2).m68xx.ram_ctrl &&& 0x40
      ∧ (CPU_RESET m1).m68xx.trcsr = (CPU_RESET m2).m68xx.trcsr
      ∧ (CPU_RESET m1).m68xx.rmcr = (CPU_RESET m2).m68xx.rmcr
      ∧ (CPU_RESET m1).m68xx.txstate = (CPU_RESET m2).m68xx.txstate
      ∧ (CPU_RESET m1).m68xx.txbits = (CPU_RESET m2).m68xx.txbits
      ∧ (CPU_RESET m1).m68xx.rxbits = (CPU_RESET m2).m68xx.rxbits
      ∧ (CPU_RESET m1).m68xx.trcsr_read = (CPU_RESET m2).m68xx.trcsr_read)
    ∧ ((CPU_RESET m1).m68xx.a = m1.m68xx.a
      ∧ (CPU_RESET m1).m68xx.b = m1.m68xx.b
      ∧ (CPU_RESET m1).m68xx.x = m1.m68xx.x
      ∧ (CPU_RESET m1).m68xx.s = m1.m68xx.s
      ∧ (CPU_RESET m1).m68xx.cc &&& 0xef = m1.m68xx.cc &&& 0xef) := by
  refine ⟨⟨RM16_congr m1 m2 hmem 0xfffe, ?_, rfl, rfl, rfl, rfl, rfl, rfl, rfl, rfl, rfl, rfl,
    rfl, rfl, rfl, ?_, rfl, rfl, rfl, rfl, rfl, rfl⟩, rfl, rfl, rfl, rfl, ?_⟩
  · show SEI m1.m68xx.cc &&& 0x10 = SEI m2.m68xx.cc &&& 0x10
    unfold SEI
    rw [or_and_self, or_and_self]
  · show (m1.m68xx.ram_ctrl ||| 0x40) % 0x100 &&& 0x40 = (m2.m68xx.ram_ctrl ||| 0x40) % 0x100 &&& 0x40
    rw [or_64_mod_and_64, or_64_mod_and_64]
  · show SEI m1.m68xx.cc &&& 0xef = m1.m68xx.cc &&& 0xef
    unfold SEI
    exact or_and_of_and_eq_zero _ _ _ (by decide)

/-- C15 (amended) at `running_machine` and `power_on_machine`, which share their memory. -/
theorem C15_reset_assigned_fields_agree_witness :
    running_machine.mem = power_on_machine.mem
    ∧ (CPU_RESET running_machine).m68xx.pc = (CPU_RESET power_on_machine).m68xx.pc
    ∧ (CPU_RESET running_machine).m68xx.a = running_machine.m68xx.a :=
  ⟨rfl, (C15_reset_assigned_fields_agree running_machine power_on_machine rfl).1.1,
   (C15_reset_assigned_fields_agree running_machine power_on_machine rfl).2.1⟩

/-- C16 refuted as stated: reset of the zero-initialised register block leaves CC = 0x10, with
both high bits clear. -/
theorem C16_high_bits_clear_counterexample :
    power_on_machine.m68xx.cc = 0
    ∧ (CPU_RESET power_on_machine).m68xx.cc = 0x10
    ∧ (CPU_RESET power_on_machine).m68xx.cc &&& 0xc0 ≠ 0xc0 := by
  decide

/-- C16 (amended): reset sets the I flag and leaves the two high bits of CC as they were, so
`(CC & 0xC0) = 0xC0` holds after reset exactly when it held before. -/
theorem C16_reset_keeps_high_bits (m : Machine) :
    (CPU_RESET m).m68xx.cc &&& 0xc0 = m.m68xx.cc &&& 0xc0
    ∧ (CPU_RESET m).m68xx.cc &&& 0x10 = 0x10
    ∧ ((CPU_RESET m).m68xx.cc &&& 0xc0 = 0xc0 ↔ m.m68xx.cc &&& 0xc0 = 0xc0) := by
  have e : (CPU_RESET m).m68xx.cc &&& 0xc0 = m.m68xx.cc &&& 0xc0 := by
    show SEI m.m68xx.cc &&& 0xc0 = m.m68xx.cc &&& 0xc0
    unfold SEI
    exact or_and_of_and_eq_zero _ _ _ (by decide)
  refine ⟨e, ?_, by rw [e]⟩
  show SEI m.m68xx.cc &&& 0x10 = 0x10
  unfold SEI
  exact or_and_self _ _

/-! ## Illegal opcodes and the cycle tables -/

set_option maxRecDepth 100000 in
theorem routed_to_illegal_lt (v : Cpu) (ireg : Nat) (hr : routed_to_illegal v ireg = true) :
    ireg < 256 := by
  by_contra hge
  have hlen : (opcode_switch v).length ≤ ireg := by
    have : (opcode_switch v).length = 256 := by cases v <;> rfl
    omega
  unfold routed_to_illegal at hr
  rw [List.getD_eq_default _ _ hlen] at hr
  exact absurd hr (by decide)

set_option maxRecDepth 100000 in
/-- C17: on the 6800 and on the 6803, every opcode that the `switch( ireg )` of the execute
loop routes to `illegal()` has the entry 99 at its index in the cycle table of that loop
(`cycles_6800`, `cycles_6803`). -/
theorem C17_illegal_costs_99 (v : Cpu) (hv : v = Cpu.m6800 ∨ v = Cpu.m6803) (ireg : Nat)
    (hr : routed_to_illegal v ireg = true) :
    (cycle_table v).getD ireg 0 = 99 := by
  have hlt := routed_to_illegal_lt v ireg hr
  have k0 : ∀ j : Fin 256, routed_to_illegal Cpu.m6800 j.val = true →
      (cycle_table Cpu.m6800).getD j.val 0 = 99 := by decide
  have k1 : ∀ j : Fin 256, routed_to_illegal Cpu.m6803 j.val = true →
      (cycle_table Cpu.m6803).getD j.val 0 = 99 := by decide
  rcases hv with hv | hv
  · subst hv; exact k0 ⟨ireg, hlt⟩ hr
  · subst hv; exact k1 ⟨ireg, hlt⟩ hr

/-- C17 at opcode 0x00 of the 6800 loop and opcode 0x13 of the 6803 loop. -/
theorem C17_illegal_costs_99_witness :
    (routed_to_illegal Cpu.m6800 0x00 = true ∧ cycles_6800.getD 0x00 0 = 99)
    ∧ (routed_to_illegal Cpu.m6803 0x13 = true ∧ cycles_6803.getD 0x13 0 = 99) :=
  ⟨⟨by decide, C17_illegal_costs_99 Cpu.m6800 (Or.inl rfl) 0x00 (by decide)⟩,
   ⟨by decide, C17_illegal_costs_99 Cpu.m6803 (Or.inr rfl) 0x13 (by decide)⟩⟩

set_option maxRecDepth 100000 in
/-- C18: on the NSC8105 the opcode 0x43 is routed to `illegal()` by the `switch( ireg )` of
`CPU_EXECUTE( nsc8105 )` while `cycles_nsc8105[0x43]` is 2, not 99; the opcodes routed to
`illegal()` whose table entry is not 99 are the 22 listed. -/
theorem C18_nsc8105_illegal_not_99 :
    routed_to_illegal Cpu.nsc8105 0x43 = true ∧ cycles_nsc8105.getD 0x43 0 = 2
    ∧ (List.range 256).filter
        (fun i => routed_to_illegal Cpu.nsc8105 i && decide (cycles_nsc8105.getD i 0 ≠ 99))
      = [0x43, 0x53, 0x63, 0x73, 0x81, 0x82, 0x86, 0x8b, 0x8d, 0x91, 0x92, 0x96, 0x9b, 0x9d,
         0xa1, 0xa2, 0xa6, 0xab, 0xb1, 0xb2, 0xb6, 0xbb] := by
  decide

set_option maxRecDepth 100000 in
/-- C19: each of the four cycle tables has exactly 256 entries, and every entry is either 99
or lies between `CPUINFO_INT_MIN_CYCLES` (1) and `CPUINFO_INT_MAX_CYCLES` (12). -/
theorem C19_cycle_tables_shape (v : Cpu) :
    (cycle_table v).length = 256
    ∧ ∀ i : Fin 256, (cycle_table v).getD i.val 0 = 99
        ∨ (CPUINFO_INT_MIN_CYCLES ≤ (cycle_table v).getD i.val 0
            ∧ (cycle_table v).getD i.val 0 ≤ CPUINFO_INT_MAX_CYCLES) := by
  cases v <;> exact ⟨rfl, by decide⟩

/-! ## The first timer overflow -/

/-- C20 refuted as stated: from the reset state (counter 0, overflow target 0xFFFF) and with no
write to a timer register, a counter step of 65534 cycles leaves TOF clear, and a step that
brings the total to 65535 cycles sets TOF, in one step or in two, while the counter (0xFFFF)
has not yet advanced by 65536. -/
theorem C20_overflow_flag_at_65535_counterexample :
    ((CLEANUP_conters (CPU_RESET running_machine)).m68xx.counter,
     (CLEANUP_conters (CPU_RESET running_machine)).m68xx.timer_over,
     (CLEANUP_conters (CPU_RESET running_machine)).m68xx.tcsr) = (0, 0xffff, 0)
    ∧ (INCREMENT_COUNTER hdr0 65534 (CLEANUP_conters (CPU_RESET running_machine))).m68xx.tcsr
        &&& TCSR_TOF = 0
    ∧ (INCREMENT_COUNTER hdr0 65535 (CLEANUP_conters (CPU_RESET running_machine))).m68xx.tcsr
        &&& TCSR_TOF = TCSR_TOF
    ∧ (INCREMENT_COUNTER hdr0 65535 (CLEANUP_conters (CPU_RESET running_machine))).m68xx.counter
        = 0xffff
    ∧ (INCREMENT_COUNTER hdr0 1 (INCREMENT_COUNTER hdr0 65534
        (CLEANUP_conters (CPU_RESET running_machine)))).m68xx.tcsr &&& TCSR_TOF = TCSR_TOF := by
  decide

/-! ## Frame of the interrupt check -/

theorem m6800_check_irq2_untouched {α : Type} {f : m6800_Regs → α} (hf : Untouched f) (h : Hdr)
    (m : Machine) : f (m6800_check_irq2 h m).m68xx = f m.m68xx := by
  unfold m6800_check_irq2
  split_ifs
  · exact ENTER_INTERRUPT_untouched hf h _ m
  · exact ENTER_INTERRUPT_untouched hf h _ m
  · exact ENTER_INTERRUPT_untouched hf h _ m
  · exact ENTER_INTERRUPT_untouched hf h _ m
  · rfl

theorem CHECK_IRQ_LINES_untouched {α : Type} {f : m6800_Regs → α} (hf : Untouched f) (h : Hdr)
    (m : Machine) : f (CHECK_IRQ_LINES h m).m68xx = f m.m68xx := by
  unfold CHECK_IRQ_LINES
  split_ifs
  · exact ENTER_INTERRUPT_untouched hf h _ m
  · exact m6800_check_irq2_untouched hf h m
  · rfl

theorem untouched_tcsr : Untouched (fun r => r.tcsr) :=
  ⟨fun _ _ => rfl, fun _ _ => rfl, fun _ _ => rfl, fun _ _ => rfl, fun _ _ => rfl⟩
theorem untouched_pending_tcsr : Untouched (fun r => r.pending_tcsr) :=
  ⟨fun _ _ => rfl, fun _ _ => rfl, fun _ _ => rfl, fun _ _ => rfl, fun _ _ => rfl⟩

theorem CLRBITS8_and_self (x a : Nat) : CLRBITS8 x a &&& a = 0 := by
  have := CLRBITS8_and_left x a 0
  rwa [Nat.or_zero] at this

theorem or_mod_and_self (x k : Nat) (hk : k < 0x100) : (x ||| k) % 0x100 &&& k = k := by
  apply Nat.eq_of_testBit_eq
  intro i
  rw [show (0x100 : Nat) = 2 ^ 8 from rfl]
  simp only [Nat.testBit_and, Nat.testBit_mod_two_pow, Nat.testBit_or]
  by_cases hi : i < 8
  · simp only [hi, decide_True, Bool.true_and]
    cases x.testBit i <;> cases k.testBit i <;> rfl
  · have : k.testBit i = false := by
      apply Nat.testBit_lt_two_pow
      calc k < 2 ^ 8 := hk
        _ ≤ 2 ^ i := Nat.pow_le_pow_right (by norm_num) (by omega)
    simp [this]

theorem TOI_EVENT_tcsr (h : Hdr) (m : Machine) :
    (TOI_EVENT h m).m68xx.tcsr = (m.m68xx.tcsr ||| TCSR_TOF) % 0x100
    ∧ (TOI_EVENT h m).m68xx.pending_tcsr = (m.m68xx.pending_tcsr ||| TCSR_TOF) % 0x100 := by
  unfold TOI_EVENT
  dsimp only
  split_ifs
  · exact ⟨ENTER_INTERRUPT_untouched untouched_tcsr h _ _,
      ENTER_INTERRUPT_untouched untouched_pending_tcsr h _ _⟩
  · exact ⟨rfl, rfl⟩

theorem read_09_of_clear (m : Machine) (hp : m.m68xx.pending_tcsr &&& TCSR_TOF = 0) :
    (m6803_internal_registers_r 0x09 m).2
      = MODIFIED_tcsr { m with m68xx := { m.m68xx with
          tcsr := CLRBITS8 m.m68xx.tcsr TCSR_TOF } } := by
  show (if m.m68xx.pending_tcsr &&& TCSR_TOF = 0 then _ else m) = _
  rw [if_pos hp]

theorem read_09_of_pending (m : Machine) (hp : m.m68xx.pending_tcsr &&& TCSR_TOF ≠ 0) :
    (m6803_internal_registers_r 0x09 m).2 = m := by
  show (if m.m68xx.pending_tcsr &&& TCSR_TOF = 0 then _ else m) = _
  rw [if_neg hp]

/-- C22: a read of TCSR (offset 0x08) returns the live `tcsr` and changes nothing but
`pending_tcsr`, which it clears; a read of the counter high byte (offset 0x09) that follows it
clears TOF in `tcsr`; and if a timer-overflow event (the body of `if( CTD >= TOD)` in
`check_timer_event`) comes between the two reads, the read of offset 0x09 leaves TOF set. -/
theorem C22_tcsr_read_sequence (h : Hdr) (m : Machine) :
    (m6803_internal_registers_r 0x08 m).1 = m.m68xx.tcsr
    ∧ (m6803_internal_registers_r 0x08 m).2
        = { m with m68xx := { m.m68xx with pending_tcsr := 0 } }
    ∧ (m6803_internal_registers_r 0x08 m).2.m68xx.tcsr = m.m68xx.tcsr
    ∧ (m6803_internal_registers_r 0x08 m).2.m68xx.pending_tcsr = 0
    ∧ (m6803_internal_registers_r 0x09
        (m6803_internal_registers_r 0x08 m).2).2.m68xx.tcsr &&& TCSR_TOF = 0
    ∧ (m6803_internal_registers_r 0x09
        (TOI_EVENT h (m6803_internal_registers_r 0x08 m).2)).2.m68xx.tcsr &&& TCSR_TOF
        = TCSR_TOF := by
  refine ⟨rfl, rfl, rfl, rfl, ?_, ?_⟩
  · rw [read_09_of_clear _ (show (0 : Nat) &&& TCSR_TOF = 0 by decide)]
    exact CLRBITS8_and_self _ _
  · have hp := (TOI_EVENT_tcsr h (m6803_internal_registers_r 0x08 m).2)
    have hpend : (TOI_EVENT h (m6803_internal_registers_r 0x08 m).2).m68xx.pending_tcsr
        &&& TCSR_TOF ≠ 0 := by
      rw [hp.2, or_mod_and_self _ _ (by decide)]
      decide
    rw [read_09_of_pending _ hpend, hp.1]
    exact or_mod_and_self _ _ (by decide)

/-- Bit `i` of the byte a port read returns: the data bit on an output line, the pin on an
input line. -/
theorem port_merge_testBit (pins ddr data i : Nat) (hi : i < 8) :
    ((pins % 0x100 &&& (ddr ^^^ 0xff)) ||| (data &&& ddr)).testBit i
      = if ddr.testBit i = true then data.testBit i else pins.testBit i := by
  rw [show (0x100 : Nat) = 2 ^ 8 from rfl]
  simp only [Nat.testBit_or, Nat.testBit_and, Nat.testBit_xor, Nat.testBit_mod_two_pow,
    testBit_255, hi, decide_True, Bool.true_and, Bool.xor_true]
  cases ddr.testBit i <;> cases data.testBit i <;> cases pins.testBit i <;> rfl

/-- C23: for each of the four ports, a read of the port data register (offsets 0x02, 0x03,
0x06, 0x07) returns (pins AND NOT ddr) OR (data AND ddr) and leaves the machine as it is; bit
`i` of the byte (`i < 8`) is the stored data bit where the DDR bit is 1 and the external pin
where the DDR bit is 0. -/
theorem C23_port_read_merges_pins (m : Machine) (i : Nat) (hi : i < 8) :
    (m6803_internal_registers_r 0x02 m
        = ((io_read_byte_8be m 1 &&& (m.m68xx.port1_ddr ^^^ 0xff))
            ||| (m.m68xx.port1_data &&& m.m68xx.port1_ddr), m)
      ∧ (m6803_internal_registers_r 0x02 m).1.testBit i
        = if m.m68xx.port1_ddr.testBit i = true then m.m68xx.port1_data.testBit i
          else (m.pins 1).testBit i)
    ∧ (m6803_internal_registers_r 0x03 m
        = ((io_read_byte_8be m 2 &&& (m.m68xx.port2_ddr ^^^ 0xff))
            ||| (m.m68xx.port2_data &&& m.m68xx.port2_ddr), m)
      ∧ (m6803_internal_registers_r 0x03 m).1.testBit i
        = if m.m68xx.port2_ddr.testBit i = true then m.m68xx.port2_data.testBit i
          else (m.pins 2).testBit i)
    ∧ (m6803_internal_registers_r 0x06 m
        = ((io_read_byte_8be m 3 &&& (m.m68xx.port3_ddr ^^^ 0xff))
            ||| (m.m68xx.port3_data &&& m.m68xx.port3_ddr), m)
      ∧ (m6803_internal_registers_r 0x06 m).1.testBit i
        = if m.m68xx.port3_ddr.testBit i = true then m.m68xx.port3_data.testBit i
          else (m.pins 3).testBit i)
    ∧ (m6803_internal_registers_r 0x07 m
        = ((io_read_byte_8be m 4 &&& (m.m68xx.port4_ddr ^^^ 0xff))
            ||| (m.m68xx.port4_data &&& m.m68xx.port4_ddr), m)
      ∧ (m6803_internal_registers_r 0x07 m).1.testBit i
        = if m.m68xx.port4_ddr.testBit i = true then m.m68xx.port4_data.testBit i
          else (m.pins 4).testBit i) :=
  ⟨⟨rfl, port_merge_testBit _ _ _ i hi⟩, ⟨rfl, port_merge_testBit _ _ _ i hi⟩,
   ⟨rfl, port_merge_testBit _ _ _ i hi⟩, ⟨rfl, port_merge_testBit _ _ _ i hi⟩⟩

/-- C23 at bit 4 of port 1 of `running_machine` (DDR 0, so the pin is read). -/
theorem C23_port_read_merges_pins_witness :
    (4 : Nat) < 8
    ∧ (m6803_internal_registers_r 0x02 running_machine).1.testBit 4
        = if running_machine.m68xx.port1_ddr.testBit 4 = true
          then running_machine.m68xx.port1_data.testBit 4
          else (running_machine.pins 1).testBit 4 :=
  ⟨by decide, (C23_port_read_merges_pins running_machine 4 (by decide)).1.2⟩

/-- C24: with the counter at 0xABCD, the output-compare register at 0x5678 and the
input-capture register at 0x1234, the reads of offsets 0x09/0x0A return 0xAB/0xCD and those
of 0x0B/0x0C return 0x56/0x78 (high byte at the lower offset), but the read of offset 0x0D
returns 0x34, the low byte of the input-capture register, and the read of 0x0E returns 0x12,
its high byte. -/
theorem C24_input_capture_low_byte_first :
    ((m6803_internal_registers_r 0x09 capture_machine).1,
     (m6803_internal_registers_r 0x0a capture_machine).1) = (0xab, 0xcd)
    ∧ ((m6803_internal_registers_r 0x0b capture_machine).1,
       (m6803_internal_registers_r 0x0c capture_machine).1) = (0x56, 0x78)
    ∧ ((m6803_internal_registers_r 0x0d capture_machine).1,
       (m6803_internal_registers_r 0x0e capture_machine).1) = (0x34, 0x12) := by
  decide

theorem and_63_and (x k : Nat) (hk : 0x3f &&& k = 0) : x &&& 0x3f &&& k = 0 := by
  rw [Nat.and_assoc, hk, Nat.and_zero]

/-- C25: a read of TRCSR (offset 0x11) returns `trcsr` and sets the status-read latch. A read
of RDR (offset 0x12) always returns `rdr`; a write of TDR (offset 0x13) always stores the byte
in `tdr`. With the latch set, the RDR read clears RDRF and ORFE (`trcsr & 0x3f`) and the TDR
write clears TDRE, and either access clears the latch; with the latch clear, the RDR read
changes nothing and the TDR write leaves `trcsr` and the latch as they are. -/
theorem C25_sci_flags_need_status_read (h : Hdr) (data : Nat) (m : Machine) :
    m6803_internal_registers_r 0x11 m
      = (m.m68xx.trcsr, { m with m68xx := { m.m68xx with trcsr_read := 1 } })
    ∧ (m6803_internal_registers_r 0x12 m).1 = m.m68xx.rdr
    ∧ (m6803_internal_registers_w h 0x13 data m).m68xx.tdr = data
    ∧ (if m.m68xx.trcsr_read ≠ 0 then
        ((m6803_internal_registers_r 0x12 m).2.m68xx.trcsr = m.m68xx.trcsr &&& 0x3f
          ∧ (m6803_internal_registers_r 0x12 m).2.m68xx.trcsr &&& M6800_TRCSR_RDRF = 0
          ∧ (m6803_internal_registers_r 0x12 m).2.m68xx.trcsr &&& M6800_TRCSR_ORFE = 0
          ∧ (m6803_internal_registers_r 0x12 m).2.m68xx.trcsr_read = 0)
        ∧ ((m6803_internal_registers_w h 0x13 data m).m68xx.trcsr
              = CLRBITS8 m.m68xx.trcsr M6800_TRCSR_TDRE
          ∧ (m6803_internal_registers_w h 0x13 data m).m68xx.trcsr &&& M6800_TRCSR_TDRE = 0
          ∧ (m6803_internal_registers_w h 0x13 data m).m68xx.trcsr_read = 0)
      else
        (m6803_internal_registers_r 0x12 m).2 = m
        ∧ (m6803_internal_registers_w h 0x13 data m).m68xx.trcsr = m.m68xx.trcsr
        ∧ (m6803_internal_registers_w h 0x13 data m).m68xx.trcsr_read = m.m68xx.trcsr_read)
    ∧ (m6803_internal_registers_r 0x12 (m6803_internal_registers_r 0x11 m).2).2.m68xx.trcsr
        = m.m68xx.trcsr &&& 0x3f
    ∧ (m6803_internal_registers_w h 0x13 data (m6803_internal_registers_r 0x11 m).2).m68xx.trcsr
        = CLRBITS8 m.m68xx.trcsr M6800_TRCSR_TDRE := by
  have hr : ∀ m : Machine, (m6803_internal_registers_r 0x12 m).2
      = if m.m68xx.trcsr_read ≠ 0 then
          { m with m68xx := { m.m68xx with trcsr_read := 0, trcsr := m.m68xx.trcsr &&& 0x3f } }
        else m := fun _ => rfl
  have hw : ∀ m : Machine, m6803_internal_registers_w h 0x13 data m
      = { m with m68xx := { (if m.m68xx.trcsr_read ≠ 0 then
            { m.m68xx with trcsr_read := 0, trcsr := CLRBITS8 m.m68xx.trcsr M6800_TRCSR_TDRE }
          else m.m68xx) with tdr := data } } := fun _ => rfl
  have hrd : (m6803_internal_registers_r 0x12 m).1 = m.m68xx.rdr := by
    show (if m.m68xx.trcsr_read ≠ 0 then _ else m).m68xx.rdr = _
    split_ifs <;> rfl
  have hone : (m6803_internal_registers_r 0x11 m).2.m68xx.trcsr_read ≠ 0 := by
    show (1 : Int) ≠ 0
    decide
  refine ⟨rfl, hrd, ?_, ?_, ?_, ?_⟩
  · rfl
  · by_cases hl : m.m68xx.trcsr_read ≠ 0
    · rw [if_pos hl, hr, hw, if_pos hl, if_pos hl]
      exact ⟨⟨rfl, and_63_and _ _ (by decide), and_63_and _ _ (by decide), rfl⟩,
        rfl, CLRBITS8_and_self _ _, rfl⟩
    · rw [if_neg hl, hr, hw, if_neg hl, if_neg hl]
      exact ⟨rfl, rfl, rfl⟩
  · rewrite [hr, if_pos hone]
    rfl
  · rewrite [hw, if_pos hone]
    rfl

/-! ## Writes to the output-compare register -/

theorem or_mod_and_keep (x a k : Nat) (hk : k < 0x100) (hx : x &&& k = k) :
    (x ||| a) % 0x100 &&& k = k := by
  apply Nat.eq_of_testBit_eq
  intro i
  have hxi := congrArg (fun t => t.testBit i) hx
  rw [show (0x100 : Nat) = 2 ^ 8 from rfl]
  simp only [Nat.testBit_and, Nat.testBit_mod_two_pow, Nat.testBit_or] at hxi ⊢
  by_cases hi : i < 8
  · simp only [hi, decide_True, Bool.true_and]
    revert hxi
    cases x.testBit i <;> cases k.testBit i <;> cases a.testBit i <;> simp
  · have : k.testBit i = false := by
      apply Nat.testBit_lt_two_pow
      calc k < 2 ^ 8 := hk
        _ ≤ 2 ^ i := Nat.pow_le_pow_right (by norm_num) (by omega)
    simp [this]

theorem OCI_EVENT_tcsr (h : Hdr) (m : Machine) :
    (OCI_EVENT h m).m68xx.tcsr = (m.m68xx.tcsr ||| TCSR_OCF) % 0x100 := by
  unfold OCI_EVENT
  dsimp only
  split_ifs
  · exact ENTER_INTERRUPT_untouched untouched_tcsr h _ _
  · rfl

/-- A timer event with the counter at or past the compare target raises OCF. -/
theorem check_timer_event_sets_OCF (h : Hdr) (m : Machine)
    (hge : m.m68xx.counter ≥ m.m68xx.output_compare) :
    (check_timer_event h m).m68xx.tcsr &&& TCSR_OCF = TCSR_OCF := by
  unfold check_timer_event
  dsimp only
  rw [if_pos hge]
  show (if _ then _ else _ : Machine).m68xx.tcsr &&& TCSR_OCF = TCSR_OCF
  have h1 : (OCI_EVENT h m).m68xx.tcsr &&& TCSR_OCF = TCSR_OCF := by
    rw [OCI_EVENT_tcsr]
    exact or_mod_and_self _ _ (by decide)
  split_ifs
  · rw [(TOI_EVENT_tcsr h _).1]
    exact or_mod_and_keep _ _ _ (by decide) h1
  · exact h1

/-- A counter step (without wrap of the 32-bit counter) on a machine whose compare target and
next timer event are not ahead of the counter raises OCF. -/
theorem INCREMENT_COUNTER_match_due (h : Hdr) (n : Int) (m : Machine) (hn : 0 ≤ n)
    (hc : (m.m68xx.counter : Int) + n < 0x100000000)
    (hoc : m.m68xx.output_compare ≤ m.m68xx.counter)
    (htn : m.timer_next ≤ m.m68xx.counter) :
    (INCREMENT_COUNTER h n m).m68xx.tcsr &&& TCSR_OCF = TCSR_OCF := by
  have ha : m.m68xx.counter ≤ add32 m.m68xx.counter n := by
    unfold add32
    omega
  unfold INCREMENT_COUNTER
  dsimp only
  rw [if_pos (show add32 m.m68xx.counter n ≥ m.timer_next from le_trans htn ha)]
  exact check_timer_event_sets_OCF h _ (le_trans hoc ha)

theorem MODIFIED_counters_fields (m : Machine) :
    (MODIFIED_counters m).m68xx.output_compare
        = mkPAIR (if WL m.m68xx.output_compare ≥ WL m.m68xx.counter then WH m.m68xx.counter
                  else WH m.m68xx.counter + 1) (WL m.m68xx.output_compare)
    ∧ (MODIFIED_counters m).m68xx.counter = m.m68xx.counter
    ∧ (MODIFIED_counters m).m68xx.timer_over = m.m68xx.timer_over
    ∧ (MODIFIED_counters m).timer_next
        = (if sub32 (MODIFIED_counters m).m68xx.output_compare m.m68xx.counter
              < sub32 m.m68xx.timer_over m.m68xx.counter
           then (MODIFIED_counters m).m68xx.output_compare else m.m68xx.timer_over) :=
  ⟨rfl, rfl, rfl, rfl⟩

/-- After `MODIFIED_counters` on a machine whose compare value equals the counter's low word,
the compare target is the counter and so is the next timer event. -/
theorem MODIFIED_counters_equal (m : Machine) (hc : m.m68xx.counter < 0x100000000)
    (ht : m.m68xx.timer_over < 0x100000000)
    (he : WL m.m68xx.output_compare = WL m.m68xx.counter) :
    (MODIFIED_counters m).m68xx.output_compare = m.m68xx.counter
    ∧ (MODIFIED_counters m).timer_next = m.m68xx.counter := by
  obtain ⟨f1, _, _, f4⟩ := MODIFIED_counters_fields m
  have e1 : (MODIFIED_counters m).m68xx.output_compare = m.m68xx.counter := by
    rw [f1, if_pos (le_of_eq he.symm), he]
    unfold mkPAIR WH WL
    omega
  refine ⟨e1, ?_⟩
  rw [f4, e1]
  split_ifs with hlt
  · rfl
  · unfold sub32 at hlt
    omega

theorem MODIFIED_counters_shadow (m : Machine) :
    WL (MODIFIED_counters m).m68xx.output_compare = WL m.m68xx.output_compare
    ∧ WH (MODIFIED_counters m).m68xx.output_compare
        = (if WL (MODIFIED_counters m).m68xx.output_compare ≥ WL m.m68xx.counter
           then WH m.m68xx.counter else (WH m.m68xx.counter + 1) % 0x10000) := by
  have e : WL (MODIFIED_counters m).m68xx.output_compare = WL m.m68xx.output_compare := by
    rw [(MODIFIED_counters_fields m).1]
    unfold mkPAIR WL
    omega
  refine ⟨e, ?_⟩
  rw [e, (MODIFIED_counters_fields m).1]
  split_ifs <;> (unfold mkPAIR WH WL; omega)

theorem MODIFIED_counters_raise (h : Hdr) (n : Int) (m : Machine)
    (hc : m.m68xx.counter < 0x100000000) (ht : m.m68xx.timer_over < 0x100000000)
    (hn : 0 ≤ n) (hcn : (m.m68xx.counter : Int) + n < 0x100000000)
    (he : WL (MODIFIED_counters m).m68xx.output_compare = WL m.m68xx.counter) :
    (MODIFIED_counters m).m68xx.output_compare = m.m68xx.counter
    ∧ (INCREMENT_COUNTER h n (MODIFIED_counters m)).m68xx.tcsr &&& TCSR_OCF = TCSR_OCF := by
  rw [(MODIFIED_counters_shadow m).1] at he
  obtain ⟨e1, e2⟩ := MODIFIED_counters_equal m hc ht he
  refine ⟨e1, INCREMENT_COUNTER_match_due h n _ hn ?_ ?_ ?_⟩
  · rw [(MODIFIED_counters_fields m).2.1]; exact hcn
  · rw [e1, (MODIFIED_counters_fields m).2.1]
  · rw [e2, (MODIFIED_counters_fields m).2.1]

/-- C21 refuted as stated. On `oc_equal_machine` (counter 0x1234) the write of 0x34 to offset
0x0C makes the compare value equal to the counter's low word: the shadow is set to the
counter's high word 0, not to 1, the compare target is the counter itself, and the next
counter step (2 cycles) raises OCF. On `oc_stale_machine` the write of the byte already in
place (0x78 at offset 0x0C) re-derives nothing: the shadow stays 2. -/
theorem C21_equal_compare_matches_at_once_counterexample :
    (WL oc_equal_machine.m68xx.counter, WH oc_equal_machine.m68xx.counter) = (0x1234, 0)
    ∧ (WL (m6803_internal_registers_w hdr0 0x0c 0x34 oc_equal_machine).m68xx.output_compare,
       WH (m6803_internal_registers_w hdr0 0x0c 0x34 oc_equal_machine).m68xx.output_compare)
        = (0x1234, 0)
    ∧ (m6803_internal_registers_w hdr0 0x0c 0x34 oc_equal_machine).m68xx.tcsr &&& TCSR_OCF = 0
    ∧ (INCREMENT_COUNTER hdr0 2
        (m6803_internal_registers_w hdr0 0x0c 0x34 oc_equal_machine)).m68xx.tcsr &&& TCSR_OCF
        = TCSR_OCF
    ∧ (WL (m6803_internal_registers_w hdr0 0x0c 0x78 oc_stale_machine).m68xx.output_compare,
       WH (m6803_internal_registers_w hdr0 0x0c 0x78 oc_stale_machine).m68xx.output_compare)
        = (0x5678, 2) := by
  decide

/-- C21 (amended): a write to offset 0x0B or 0x0C that changes the byte of the output-compare
register (a write of the byte already there changes nothing) sets the compare's high-word
shadow to the counter's high word if the new 16-bit compare value is greater than or equal to
the counter's low word, and to the counter's high word plus one otherwise. In particular,
after a write that makes the compare value equal to the counter's low word the compare target
is the counter itself, and the next counter step (of `n` cycles, without wrap of the 32-bit
counter) raises OCF. -/
theorem C21_compare_write_rederives_shadow (h : Hdr) (data : Nat) (m : Machine) (n : Int)
    (hd : data < 0x100) (hc : m.m68xx.counter < 0x100000000)
    (ht : m.m68xx.timer_over < 0x100000000)
    (hn : 0 ≤ n) (hcn : (m.m68xx.counter : Int) + n < 0x100000000) :
    (if BH m.m68xx.output_compare ≠ data then
        WL (m6803_internal_registers_w h 0x0b data m).m68xx.output_compare
            = 0x100 * data + BL m.m68xx.output_compare
        ∧ WH (m6803_internal_registers_w h 0x0b data m).m68xx.output_compare
            = (if WL (m6803_internal_registers_w h 0x0b data m).m68xx.output_compare
                  ≥ WL m.m68xx.counter
               then WH m.m68xx.counter else (WH m.m68xx.counter + 1) % 0x10000)
        ∧ (WL (m6803_internal_registers_w h 0x0b data m).m68xx.output_compare
              = WL m.m68xx.counter →
            (m6803_internal_registers_w h 0x0b data m).m68xx.output_compare = m.m68xx.counter
            ∧ (INCREMENT_COUNTER h n (m6803_internal_registers_w h 0x0b data m)).m68xx.tcsr
                &&& TCSR_OCF = TCSR_OCF)
      else m6803_internal_registers_w h 0x0b data m = m)
    ∧ (if BL m.m68xx.output_compare ≠ data then
        WL (m6803_internal_registers_w h 0x0c data m).m68xx.output_compare
            = 0x100 * BH m.m68xx.output_compare + data
        ∧ WH (m6803_internal_registers_w h 0x0c data m).m68xx.output_compare
            = (if WL (m6803_internal_registers_w h 0x0c data m).m68xx.output_compare
                  ≥ WL m.m68xx.counter
               then WH m.m68xx.counter else (WH m.m68xx.counter + 1) % 0x10000)
        ∧ (WL (m6803_internal_registers_w h 0x0c data m).m68xx.output_compare
              = WL m.m68xx.counter →
            (m6803_internal_registers_w h 0x0c data m).m68xx.output_compare = m.m68xx.counter
            ∧ (INCREMENT_COUNTER h n (m6803_internal_registers_w h 0x0c data m)).m68xx.tcsr
                &&& TCSR_OCF = TCSR_OCF)
      else m6803_internal_registers_w h 0x0c data m = m) := by
  have hb : m6803_internal_registers_w h 0x0b data m
      = if BH m.m68xx.output_compare ≠ data then
          MODIFIED_counters { m with m68xx := { m.m68xx with
            output_compare := setBH m.m68xx.output_compare data } }
        else m := rfl
  have hl : m6803_internal_registers_w h 0x0c data m
      = if BL m.m68xx.output_compare ≠ data then
          MODIFIED_counters { m with m68xx := { m.m68xx with
            output_compare := setBL m.m68xx.output_compare data } }
        else m := rfl
  constructor
  · by_cases hne : BH m.m68xx.output_compare ≠ data
    · rw [if_pos hne, hb, if_pos hne]
      refine ⟨?_, (MODIFIED_counters_shadow _).2, MODIFIED_counters_raise h n _ hc ht hn hcn⟩
      rw [(MODIFIED_counters_shadow _).1]
      show WL (setBH m.m68xx.output_compare data) = _
      unfold WL setBH BL
      omega
    · rw [if_neg hne, hb, if_neg hne]
  · by_cases hne : BL m.m68xx.output_compare ≠ data
    · rw [if_pos hne, hl, if_pos hne]
      refine ⟨?_, (MODIFIED_counters_shadow _).2, MODIFIED_counters_raise h n _ hc ht hn hcn⟩
      rw [(MODIFIED_counters_shadow _).1]
      show WL (setBL m.m68xx.output_compare data) = _
      unfold WL setBL BH
      omega
    · rw [if_neg hne, hl, if_neg hne]

/-- C21 (amended) at `oc_equal_machine`, byte 0x34, followed by a step of 2 cycles. -/
theorem C21_compare_write_rederives_shadow_witness :
    (0x34 : Nat) < 0x100 ∧ oc_equal_machine.m68xx.counter < 0x100000000
    ∧ oc_equal_machine.m68xx.timer_over < 0x100000000
    ∧ BL oc_equal_machine.m68xx.output_compare ≠ 0x34
    ∧ WH (m6803_internal_registers_w hdr0 0x0c 0x34 oc_equal_machine).m68xx.output_compare
        = (if WL (m6803_internal_registers_w hdr0 0x0c 0x34 oc_equal_machine).m68xx.output_compare
              ≥ WL oc_equal_machine.m68xx.counter
           then WH oc_equal_machine.m68xx.counter
           else (WH oc_equal_machine.m68xx.counter + 1) % 0x10000) :=
  ⟨by decide, by decide, by decide, by decide,
   ((if_pos (show BL oc_equal_machine.m68xx.output_compare ≠ 0x34 by decide)).mp
     (C21_compare_write_rederives_shadow hdr0 0x34 oc_equal_machine 2 (by decide) (by decide)
       (by decide) (by decide) (by decide)).2).2.1⟩

/-! ## The serial transmitter -/

theorem untouched_sci : Untouched sci :=
  ⟨fun _ _ => rfl, fun _ _ => rfl, fun _ _ => rfl, fun _ _ => rfl, fun _ _ => rfl⟩

theorem drive_port_regs (m : Machine) (p ddr data : Nat) :
    (drive_port m p ddr data).m68xx = m.m68xx := by
  unfold drive_port
  split_ifs <;> rfl

theorem m6800_tx_sci (v : Int) (m : Machine) : sci (m6800_tx v m).m68xx = sci m.m68xx := by
  unfold m6800_tx
  dsimp only
  rw [drive_port_regs]
  rfl

/-- A transmit tick with TE set in the Init state. -/
theorem tx_tick_init (h : Hdr) (m : Machine) (hte : m.m68xx.trcsr &&& M6800_TRCSR_TE ≠ 0)
    (hst : m.m68xx.txstate = M6800_TX_STATE_INIT) :
    sci (m6800_tx_tick h m).m68xx
      = (m.m68xx.trcsr,
         (if m.m68xx.txbits + 1 = 10 then M6800_TX_STATE_READY else M6800_TX_STATE_INIT),
         (if m.m68xx.txbits + 1 = 10 then M6800_SERIAL_START else m.m68xx.txbits + 1),
         m.m68xx.tsr, m.m68xx.tdr, 1, m.m68xx.rxbits, m.m68xx.rsr, m.m68xx.rdr) := by
  unfold m6800_tx_tick
  dsimp only
  rw [if_pos hte, m6800_tx_sci]
  unfold TX_ENABLED
  dsimp only
  rw [if_pos hst]
  unfold TX_INIT
  dsimp only
  split_ifs
  · rfl
  · unfold sci
    dsimp only
    rw [hst]

/-- A transmit tick in the Ready state at the start position with nothing to send. -/
theorem tx_tick_idle (h : Hdr) (m : Machine) (hte : m.m68xx.trcsr &&& M6800_TRCSR_TE ≠ 0)
    (hst : m.m68xx.txstate = M6800_TX_STATE_READY)
    (h0 : m.m68xx.txbits = M6800_SERIAL_START)
    (he : m.m68xx.trcsr &&& M6800_TRCSR_TDRE ≠ 0) :
    sci (m6800_tx_tick h m).m68xx
      = (m.m68xx.trcsr, m.m68xx.txstate, m.m68xx.txbits, m.m68xx.tsr, m.m68xx.tdr, 1,
         m.m68xx.rxbits, m.m68xx.rsr, m.m68xx.rdr) := by
  unfold m6800_tx_tick
  dsimp only
  rw [if_pos hte, m6800_tx_sci]
  unfold TX_ENABLED
  dsimp only
  rw [if_neg (by rw [hst]; decide), if_pos hst]
  unfold TX_READY
  dsimp only
  rw [if_pos h0]
  unfold TX_START
  dsimp only
  rw [if_pos he]
  rfl

/-- A transmit tick in the Ready state at the start position with a byte waiting. -/
theorem tx_tick_start (h : Hdr) (m : Machine) (hte : m.m68xx.trcsr &&& M6800_TRCSR_TE ≠ 0)
    (hst : m.m68xx.txstate = M6800_TX_STATE_READY)
    (h0 : m.m68xx.txbits = M6800_SERIAL_START)
    (he : m.m68xx.trcsr &&& M6800_TRCSR_TDRE = 0) :
    sci (m6800_tx_tick h m).m68xx
      = ((m.m68xx.trcsr ||| M6800_TRCSR_TDRE) % 0x100, M6800_TX_STATE_READY, 1, m.m68xx.tdr,
         m.m68xx.tdr, 0, m.m68xx.rxbits, m.m68xx.rsr, m.m68xx.rdr) := by
  unfold m6800_tx_tick
  dsimp only
  rw [if_pos hte, m6800_tx_sci]
  unfold TX_ENABLED
  dsimp only
  rw [if_neg (by rw [hst]; decide), if_pos hst]
  unfold TX_READY
  dsimp only
  rw [if_pos h0]
  unfold TX_START
  dsimp only
  rw [if_neg (not_not.mpr he)]
  unfold sci
  dsimp only
  rw [hst, h0]
  rfl

/-- A transmit tick in the Ready state on a data-bit position. -/
theorem tx_tick_data (h : Hdr) (m : Machine) (hte : m.m68xx.trcsr &&& M6800_TRCSR_TE ≠ 0)
    (hst : m.m68xx.txstate = M6800_TX_STATE_READY)
    (h0 : m.m68xx.txbits ≠ M6800_SERIAL_START) (h9 : m.m68xx.txbits ≠ M6800_SERIAL_STOP) :
    sci (m6800_tx_tick h m).m68xx
      = (m.m68xx.trcsr, M6800_TX_STATE_READY, m.m68xx.txbits + 1, m.m68xx.tsr >>> 1,
         m.m68xx.tdr, ((m.m68xx.tsr &&& 0x01 : Nat) : Int), m.m68xx.rxbits, m.m68xx.rsr,
         m.m68xx.rdr) := by
  unfold m6800_tx_tick
  dsimp only
  rw [if_pos hte, m6800_tx_sci]
  unfold TX_ENABLED
  dsimp only
  rw [if_neg (by rw [hst]; decide), if_pos hst]
  unfold TX_READY
  dsimp only
  rw [if_neg h0, if_neg h9]
  unfold TX_DATA sci
  dsimp only
  rw [hst]

/-- A transmit tick in the Ready state at the stop position. -/
theorem tx_tick_stop (h : Hdr) (m : Machine) (hte : m.m68xx.trcsr &&& M6800_TRCSR_TE ≠ 0)
    (hst : m.m68xx.txstate = M6800_TX_STATE_READY)
    (h9 : m.m68xx.txbits = M6800_SERIAL_STOP) :
    sci (m6800_tx_tick h m).m68xx
      = (m.m68xx.trcsr, M6800_TX_STATE_READY, M6800_SERIAL_START, m.m68xx.tsr,
         m.m68xx.tdr, 1, m.m68xx.rxbits, m.m68xx.rsr, m.m68xx.rdr) := by
  unfold m6800_tx_tick
  dsimp only
  rw [if_pos hte, m6800_tx_sci]
  unfold TX_ENABLED
  dsimp only
  rw [if_neg (by rw [hst]; decide), if_pos hst]
  unfold TX_READY
  dsimp only
  rw [if_neg (by rw [h9]; decide), if_pos h9]
  have hc := CHECK_IRQ_LINES_untouched untouched_sci h
    { m with m68xx := { m.m68xx with
        port2_ddr := (m.m68xx.port2_ddr ||| M6800_PORT2_IO4) % 0x100, tx := 1 } }
  unfold sci at hc
  simp only [Prod.mk.injEq] at hc
  obtain ⟨c1, c2, _, c4, c5, c6, c7, c8, c9⟩ := hc
  unfold TX_STOP sci
  dsimp only
  rw [c1, c2, c4, c5, c6, c7, c8, c9, hst]

theorem or_mod_testBit (x a i : Nat) (hi : i < 8) (hx : x.testBit i = true) :
    ((x ||| a) % 0x100).testBit i = true := by
  rw [show (0x100 : Nat) = 2 ^ 8 from rfl]
  simp only [Nat.testBit_mod_two_pow, Nat.testBit_or, hi, hx, decide_True, Bool.true_and,
    Bool.true_or]

theorem TE_kept_by_or (x a : Nat) (hx : x &&& M6800_TRCSR_TE ≠ 0) :
    (x ||| a) % 0x100 &&& M6800_TRCSR_TE ≠ 0 := by
  have e : M6800_TRCSR_TE = 2 ^ 1 := rfl
  rw [e, and_two_pow_ne_zero] at hx ⊢
  exact or_mod_testBit x a 1 (by decide) hx

theorem TX_TICKS_succ (h : Hdr) (k : Nat) (m : Machine) :
    TX_TICKS h (k + 1) m = m6800_tx_tick h (TX_TICKS h k m) := by
  unfold TX_TICKS
  exact Function.iterate_succ_apply' _ _ _

theorem TX_TICKS_succ_first (h : Hdr) (k : Nat) (m : Machine) :
    TX_TICKS h (k + 1) m = TX_TICKS h k (m6800_tx_tick h m) := rfl

/-- The data ticks of a frame: `k` ticks after the start-bit tick the shift register holds
`d >>> k` and the line carries bit `k - 1` of `d`. -/
theorem tx_data_run (h : Hdr) (d : Nat) (m : Machine)
    (hte : m.m68xx.trcsr &&& M6800_TRCSR_TE ≠ 0)
    (hst : m.m68xx.txstate = M6800_TX_STATE_READY)
    (h1 : m.m68xx.txbits = 1) (hd : m.m68xx.tsr = d) :
    ∀ k, k ≤ 8 →
      (TX_TICKS h k m).m68xx.trcsr = m.m68xx.trcsr
      ∧ (TX_TICKS h k m).m68xx.txstate = M6800_TX_STATE_READY
      ∧ (TX_TICKS h k m).m68xx.txbits = 1 + (k : Int)
      ∧ (TX_TICKS h k m).m68xx.tsr = d >>> k
      ∧ (∀ i, i + 1 = k → (TX_TICKS h k m).m68xx.tx = ((d / 2 ^ i % 2 : Nat) : Int)) := by
  intro k
  induction k with
  | zero =>
    intro _
    exact ⟨rfl, hst, h1.trans rfl, hd, fun i hi => absurd hi (by omega)⟩
  | succ k ih =>
    intro hk
    obtain ⟨e1, e2, e3, e4, _⟩ := ih (by omega)
    have hs := tx_tick_data h (TX_TICKS h k m) (by rw [e1]; exact hte) e2
      (by rw [e3]; unfold M6800_SERIAL_START; omega)
      (by rw [e3]; unfold M6800_SERIAL_STOP; omega)
    rw [← TX_TICKS_succ] at hs
    unfold sci at hs
    simp only [Prod.mk.injEq] at hs
    obtain ⟨c1, c2, c3, c4, _, c6, _⟩ := hs
    refine ⟨by rw [c1, e1], c2, by rw [c3, e3]; push_cast; omega, ?_, ?_⟩
    · rw [c4, e4, ← Nat.shiftRight_add]
    · intro i hi
      have : i = k := by omega
      subst this
      rw [c6, e4, Nat.and_one_is_mod, Nat.shiftRight_eq_div_pow]

/-- C27: for every byte `d`, from the Ready state with `txbits = 0`, TE set, TDRE clear and
`tdr = d`, and no register access in between, the next ten transmit ticks drive `tx` to 0
(start bit), then to bits 0 to 7 of `d` in that order, then to 1 (stop bit); TDRE is set by
the start-bit tick, and after the tenth tick `txbits` is 0 again. -/
theorem C27_transmit_frame (h : Hdr) (d : Nat) (m : Machine)
    (hte : m.m68xx.trcsr &&& M6800_TRCSR_TE ≠ 0)
    (hst : m.m68xx.txstate = M6800_TX_STATE_READY)
    (h0 : m.m68xx.txbits = 0)
    (hne : m.m68xx.trcsr &&& M6800_TRCSR_TDRE = 0)
    (hd : m.m68xx.tdr = d) :
    (TX_TICKS h 1 m).m68xx.tx = 0
    ∧ (TX_TICKS h 1 m).m68xx.trcsr &&& M6800_TRCSR_TDRE = M6800_TRCSR_TDRE
    ∧ (∀ i, i < 8 → (TX_TICKS h (2 + i) m).m68xx.tx = ((d / 2 ^ i % 2 : Nat) : Int))
    ∧ (TX_TICKS h 10 m).m68xx.tx = 1
    ∧ (TX_TICKS h 10 m).m68xx.txbits = 0 := by
  have hs := tx_tick_start h m hte hst h0 hne
  unfold sci at hs
  simp only [Prod.mk.injEq] at hs
  obtain ⟨c1, c2, c3, c4, _, c6, _⟩ := hs
  have hte1 : (m6800_tx_tick h m).m68xx.trcsr &&& M6800_TRCSR_TE ≠ 0 := by
    rw [c1]; exact TE_kept_by_or _ _ hte
  have run := tx_data_run h d (m6800_tx_tick h m) hte1 c2 c3 (by rw [c4, hd])
  refine ⟨c6, ?_, ?_, ?_⟩
  · show (m6800_tx_tick h m).m68xx.trcsr &&& M6800_TRCSR_TDRE = M6800_TRCSR_TDRE
    rw [c1]
    exact or_mod_and_self _ _ (by decide)
  · intro i hi
    have e : TX_TICKS h (2 + i) m = TX_TICKS h (i + 1) (m6800_tx_tick h m) := by
      rw [show 2 + i = (i + 1) + 1 by omega]
      rfl
    rw [e]
    exact (run (i + 1) (by omega)).2.2.2.2 i rfl
  · obtain ⟨e1, e2, e3, _, _⟩ := run 8 (by omega)
    have hstop := tx_tick_stop h (TX_TICKS h 8 (m6800_tx_tick h m)) (by rw [e1]; exact hte1) e2
      (by rw [e3]; rfl)
    rw [← TX_TICKS_succ] at hstop
    unfold sci at hstop
    simp only [Prod.mk.injEq] at hstop
    obtain ⟨_, _, d3, _, _, d6, _⟩ := hstop
    exact ⟨d6, d3⟩

/-- C27 at `tx_loaded_machine` (0xa5 in TDR): bit 2 of 0xa5 is on the line after the fourth
tick. -/
theorem C27_transmit_frame_witness :
    tx_loaded_machine.m68xx.trcsr &&& M6800_TRCSR_TE ≠ 0
    ∧ tx_loaded_machine.m68xx.txstate = M6800_TX_STATE_READY
    ∧ tx_loaded_machine.m68xx.txbits = 0
    ∧ tx_loaded_machine.m68xx.trcsr &&& M6800_TRCSR_TDRE = 0
    ∧ tx_loaded_machine.m68xx.tdr = 0xa5
    ∧ (TX_TICKS hdr0 (2 + 2) tx_loaded_machine).m68xx.tx = ((0xa5 / 2 ^ 2 % 2 : Nat) : Int)
    ∧ (TX_TICKS hdr0 10 tx_loaded_machine).m68xx.txbits = 0 :=
  ⟨by decide, rfl, rfl, by decide, rfl,
   (C27_transmit_frame hdr0 0xa5 tx_loaded_machine (by decide) rfl rfl (by decide) rfl).2.2.1 2
     (by decide),
   (C27_transmit_frame hdr0 0xa5 tx_loaded_machine (by decide) rfl rfl (by decide) rfl).2.2.2.2⟩

/-- C26: on a transmitter stopped in the middle of a frame (`tx_midframe_machine`: Ready,
`txbits = 3`, TE cleared), the write of TE to TRCSR puts it in Init with `txbits` still 3;
with TE staying set it is still in Init after 6 ticks and in Ready with `txbits = 0` after the
seventh, so Init lasts 7 ticks and not 10. Entered from reset (where `txbits` is cleared) Init
lasts 10 ticks. -/
theorem C26_init_shortened_after_restart :
    (tx_midframe_machine.m68xx.txstate, tx_midframe_machine.m68xx.txbits,
     tx_midframe_machine.m68xx.trcsr &&& M6800_TRCSR_TE) = (M6800_TX_STATE_READY, 3, 0)
    ∧ ((m6803_internal_registers_w hdr0 0x11 0x02 tx_midframe_machine).m68xx.txstate,
       (m6803_internal_registers_w hdr0 0x11 0x02 tx_midframe_machine).m68xx.txbits,
       (m6803_internal_registers_w hdr0 0x11 0x02 tx_midframe_machine).m68xx.trcsr
          &&& M6800_TRCSR_TE) = (M6800_TX_STATE_INIT, 3, M6800_TRCSR_TE)
    ∧ (TX_TICKS hdr0 6
        (m6803_internal_registers_w hdr0 0x11 0x02 tx_midframe_machine)).m68xx.txstate
        = M6800_TX_STATE_INIT
    ∧ ((TX_TICKS hdr0 7
          (m6803_internal_registers_w hdr0 0x11 0x02 tx_midframe_machine)).m68xx.txstate,
       (TX_TICKS hdr0 7
          (m6803_internal_registers_w hdr0 0x11 0x02 tx_midframe_machine)).m68xx.txbits)
        = (M6800_TX_STATE_READY, 0)
    ∧ (TX_TICKS hdr0 9
        (m6803_internal_registers_w hdr0 0x11 0x02 (CPU_RESET running_machine))).m68xx.txstate
        = M6800_TX_STATE_INIT
    ∧ ((TX_TICKS hdr0 10
          (m6803_internal_registers_w hdr0 0x11 0x02 (CPU_RESET running_machine))).m68xx.txstate,
       (TX_TICKS hdr0 10
          (m6803_internal_registers_w hdr0 0x11 0x02 (CPU_RESET running_machine))).m68xx.txbits)
        = (M6800_TX_STATE_READY, 0) := by
  decide

/-- A tick of a transmitter that is enabled and has nothing to send drives `tx = 1`, leaves
`trcsr`, `tdr` and the receiver fields as they are, and leaves the transmitter idle; in Ready
it leaves `txbits` at the start position. -/
theorem tx_idle_tick (h : Hdr) (m : Machine) (hi : tx_idle m.m68xx) :
    tx_idle (m6800_tx_tick h m).m68xx
    ∧ (m6800_tx_tick h m).m68xx.tx = 1
    ∧ (m6800_tx_tick h m).m68xx.tdr = m.m68xx.tdr
    ∧ (m6800_tx_tick h m).m68xx.trcsr = m.m68xx.trcsr := by
  obtain ⟨hte, hdre, hs⟩ := hi
  rcases hs with ⟨hst, hlo, hhi⟩ | ⟨hst, h0⟩
  · have ht := tx_tick_init h m hte hst
    unfold sci at ht
    simp only [Prod.mk.injEq] at ht
    obtain ⟨c1, c2, c3, _, c5, c6, _⟩ := ht
    refine ⟨⟨by rw [c1]; exact hte, by rw [c1]; exact hdre, ?_⟩, c6, c5, c1⟩
    rw [c2, c3]
    by_cases h10 : m.m68xx.txbits + 1 = 10
    · rw [if_pos h10, if_pos h10]
      exact Or.inr ⟨rfl, rfl⟩
    · rw [if_neg h10, if_neg h10]
      exact Or.inl ⟨rfl, by omega, by omega⟩
  · have ht := tx_tick_idle h m hte hst h0 hdre
    unfold sci at ht
    simp only [Prod.mk.injEq] at ht
    obtain ⟨c1, c2, c3, _, c5, c6, _⟩ := ht
    exact ⟨⟨by rw [c1]; exact hte, by rw [c1]; exact hdre, Or.inr ⟨by rw [c2, hst], by rw [c3, h0]⟩⟩,
      c6, c5, c1⟩

theorem tx_idle_run (h : Hdr) (m : Machine) (hi : tx_idle m.m68xx) :
    ∀ n, tx_idle (TX_TICKS h n m).m68xx
      ∧ (TX_TICKS h n m).m68xx.tdr = m.m68xx.tdr
      ∧ (TX_TICKS h n m).m68xx.trcsr = m.m68xx.trcsr := by
  intro n
  induction n with
  | zero => exact ⟨hi, rfl, rfl⟩
  | succ n ih =>
    obtain ⟨i1, i2, i3⟩ := ih
    obtain ⟨j1, _, j3, j4⟩ := tx_idle_tick h (TX_TICKS h n m) i1
    rw [TX_TICKS_succ]
    exact ⟨j1, by rw [j3, i2], by rw [j4, i3]⟩

/-- A receive tick at the start position in normal mode that samples 1 changes nothing. -/
theorem RX_TICK_idle (h : Hdr) (m : Machine) (hwu : m.m68xx.trcsr &&& M6800_TRCSR_WU = 0)
    (h0 : m.m68xx.rxbits = M6800_SERIAL_START) : RX_TICK h 1 m = m := by
  unfold RX_TICK
  by_cases hre : m.m68xx.trcsr &&& M6800_TRCSR_RE ≠ 0
  · rw [if_pos hre, if_neg (not_not.mpr hwu), if_pos h0, if_neg (by decide)]
  · rw [if_neg hre]

theorem RX_TICKS_idle (h : Hdr) (m : Machine) (hwu : m.m68xx.trcsr &&& M6800_TRCSR_WU = 0)
    (h0 : m.m68xx.rxbits = M6800_SERIAL_START) :
    ∀ n, RX_TICKS h (List.replicate n 1) m = m := by
  intro n
  induction n with
  | zero => rfl
  | succ n ih =>
    unfold RX_TICKS at ih ⊢
    rw [List.replicate_succ, List.foldl_cons, RX_TICK_idle h m hwu h0]
    exact ih

/-- The state after reset and a write to TRCSR that sets TE: the transmitter is idle. -/
theorem reset_then_TE_idle (h : Hdr) (data : Nat) (m : Machine)
    (hte : data &&& M6800_TRCSR_TE ≠ 0) :
    tx_idle (m6803_internal_registers_w h 0x11 data (CPU_RESET m)).m68xx
    ∧ (m6803_internal_registers_w h 0x11 data (CPU_RESET m)).m68xx.tdr = m.m68xx.tdr := by
  have hw : ∀ m0 : Machine, m6803_internal_registers_w h 0x11 data m0
      = { m0 with m68xx := { (if data &&& M6800_TRCSR_TE ≠ 0 ∧ m0.m68xx.trcsr &&& M6800_TRCSR_TE = 0
            then { m0.m68xx with txstate := M6800_TX_STATE_INIT } else m0.m68xx) with
          trcsr := ((if data &&& M6800_TRCSR_TE ≠ 0 ∧ m0.m68xx.trcsr &&& M6800_TRCSR_TE = 0
            then { m0.m68xx with txstate := M6800_TX_STATE_INIT } else m0.m68xx).trcsr &&& 0xe0)
              ||| (data &&& 0x1f) } } := fun _ => rfl
  have e1 : (m6803_internal_registers_w h 0x11 data (CPU_RESET m)).m68xx.trcsr
      = (M6800_TRCSR_TDRE &&& 0xe0) ||| (data &&& 0x1f) := by
    rewrite [hw]
    dsimp only
    split_ifs <;> rfl
  have e2 : (m6803_internal_registers_w h 0x11 data (CPU_RESET m)).m68xx.txstate
      = M6800_TX_STATE_INIT := by
    rewrite [hw]
    dsimp only
    split_ifs <;> rfl
  have e3 : (m6803_internal_registers_w h 0x11 data (CPU_RESET m)).m68xx.txbits = 0 := by
    rewrite [hw]
    dsimp only
    split_ifs <;> rfl
  have e4 : (m6803_internal_registers_w h 0x11 data (CPU_RESET m)).m68xx.tdr = m.m68xx.tdr := by
    rewrite [hw]
    dsimp only
    split_ifs <;> rfl
  refine ⟨⟨?_, ?_, Or.inl ⟨e2, by rw [e3], by rw [e3]; decide⟩⟩, e4⟩
  · rw [e1]
    have e : M6800_TRCSR_TE = 2 ^ 1 := rfl
    rw [e, and_two_pow_ne_zero] at hte ⊢
    simp only [Nat.testBit_or, Nat.testBit_and, hte]
    decide
  · rw [e1]
    have e : M6800_TRCSR_TDRE = 2 ^ 5 := rfl
    rw [e, and_two_pow_ne_zero, Nat.testBit_or, Nat.testBit_and]
    simp only [Bool.or_eq_true, Bool.and_eq_true]
    exact Or.inl ⟨by decide, by decide⟩

/-- C28: idle line. From the reset state with TE then set by a write to TRCSR and TDR never
written, after any number `n` of transmit ticks TDRE is still set, `tdr` is unchanged, the
transmitter is in Init or in Ready at the start position (`txbits = 0`), and the next tick
drives `tx = 1`. A receiver in normal mode (WU clear) at the start position (`rxbits = 0`)
that samples 1 on each of `n` receive ticks is left as it was: RDRF, ORFE and `rdr`
unchanged. -/
theorem C28_idle_line (h : Hdr) (data n : Nat) (m mr : Machine)
    (hte : data &&& M6800_TRCSR_TE ≠ 0)
    (hwu : mr.m68xx.trcsr &&& M6800_TRCSR_WU = 0)
    (h0 : mr.m68xx.rxbits = 0) :
    (TX_TICKS h (n + 1) (m6803_internal_registers_w h 0x11 data (CPU_RESET m))).m68xx.tx = 1
    ∧ (TX_TICKS h n (m6803_internal_registers_w h 0x11 data (CPU_RESET m))).m68xx.tdr
        = m.m68xx.tdr
    ∧ (TX_TICKS h n (m6803_internal_registers_w h 0x11 data (CPU_RESET m))).m68xx.trcsr
        &&& M6800_TRCSR_TDRE ≠ 0
    ∧ ((TX_TICKS h n (m6803_internal_registers_w h 0x11 data (CPU_RESET m))).m68xx.txstate
          = M6800_TX_STATE_INIT
       ∨ ((TX_TICKS h n (m6803_internal_registers_w h 0x11 data (CPU_RESET m))).m68xx.txstate
            = M6800_TX_STATE_READY
          ∧ (TX_TICKS h n (m6803_internal_registers_w h 0x11 data (CPU_RESET m))).m68xx.txbits
            = 0))
    ∧ RX_TICKS h (List.replicate n 1) mr = mr
    ∧ (RX_TICKS h (List.replicate n 1) mr).m68xx.trcsr = mr.m68xx.trcsr
    ∧ (RX_TICKS h (List.replicate n 1) mr).m68xx.rdr = mr.m68xx.rdr := by
  obtain ⟨hi, htdr⟩ := reset_then_TE_idle h data m hte
  obtain ⟨r1, r2, _⟩ := tx_idle_run h _ hi n
  have hrx := RX_TICKS_idle h mr hwu h0 n
  refine ⟨?_, by rw [r2, htdr], r1.2.1, ?_, hrx, by rw [hrx], by rw [hrx]⟩
  · rw [TX_TICKS_succ]
    exact (tx_idle_tick h _ r1).2.1
  · rcases r1.2.2 with ⟨a, _, _⟩ | ⟨a, b⟩
    · exact Or.inl a
    · exact Or.inr ⟨a, b⟩

/-- C28 at `running_machine` reset with 0x02 written to TRCSR, 25 transmit ticks, and the
receiver of `rx_ready_machine`. -/
theorem C28_idle_line_witness :
    (0x02 : Nat) &&& M6800_TRCSR_TE ≠ 0
    ∧ rx_ready_machine.m68xx.trcsr &&& M6800_TRCSR_WU = 0
    ∧ rx_ready_machine.m68xx.rxbits = 0
    ∧ (TX_TICKS hdr0 (25 + 1)
        (m6803_internal_registers_w hdr0 0x11 0x02 (CPU_RESET running_machine))).m68xx.tx = 1
    ∧ RX_TICKS hdr0 (List.replicate 25 1) rx_ready_machine = rx_ready_machine :=
  ⟨by decide, by decide, rfl,
   (C28_idle_line hdr0 0x02 25 running_machine rx_ready_machine (by decide) (by decide) rfl).1,
   (C28_idle_line hdr0 0x02 25 running_machine rx_ready_machine (by decide) (by decide)
      rfl).2.2.2.2.1⟩

/-! ## The serial receiver -/

/-- A receive tick in normal mode at the start position that samples 0. -/
theorem rx_tick_start (h : Hdr) (m : Machine) (hre : m.m68xx.trcsr &&& M6800_TRCSR_RE ≠ 0)
    (hwu : m.m68xx.trcsr &&& M6800_TRCSR_WU = 0)
    (h0 : m.m68xx.rxbits = M6800_SERIAL_START) :
    RX_TICK h 0 m = { m with m68xx := { m.m68xx with rxbits := m.m68xx.rxbits + 1 } } := by
  unfold RX_TICK
  rw [if_pos hre, if_neg (not_not.mpr hwu), if_pos h0, if_pos rfl]

/-- A receive tick in normal mode on a data-bit position. -/
theorem rx_tick_data (h : Hdr) (rx : Nat) (m : Machine)
    (hre : m.m68xx.trcsr &&& M6800_TRCSR_RE ≠ 0)
    (hwu : m.m68xx.trcsr &&& M6800_TRCSR_WU = 0)
    (h0 : m.m68xx.rxbits ≠ M6800_SERIAL_START) (h9 : m.m68xx.rxbits ≠ M6800_SERIAL_STOP) :
    RX_TICK h rx m = RX_DATA rx m := by
  unfold RX_TICK
  rw [if_pos hre, if_neg (not_not.mpr hwu), if_neg h0, if_neg h9]

/-- A receive tick in normal mode at the stop position. -/
theorem rx_tick_stop (h : Hdr) (rx : Nat) (m : Machine)
    (hre : m.m68xx.trcsr &&& M6800_TRCSR_RE ≠ 0)
    (hwu : m.m68xx.trcsr &&& M6800_TRCSR_WU = 0)
    (h9 : m.m68xx.rxbits = M6800_SERIAL_STOP) :
    RX_TICK h rx m = RX_STOP h rx m := by
  unfold RX_TICK
  rw [if_pos hre, if_neg (not_not.mpr hwu), if_neg (by rw [h9]; decide), if_pos h9]

/-- The stop position, line at 1, RDRF and ORFE clear: the byte is handed over. -/
theorem RX_STOP_commit (h : Hdr) (m : Machine)
    (hf : m.m68xx.trcsr &&& M6800_TRCSR_RDRF = 0) (ho : m.m68xx.trcsr &&& M6800_TRCSR_ORFE = 0) :
    (RX_STOP h 1 m).m68xx.trcsr = (m.m68xx.trcsr ||| M6800_TRCSR_RDRF) % 0x100
    ∧ (RX_STOP h 1 m).m68xx.rdr = m.m68xx.rsr
    ∧ (RX_STOP h 1 m).m68xx.rxbits = M6800_SERIAL_START := by
  unfold RX_STOP
  dsimp only
  rw [if_pos rfl, if_neg (not_not.mpr hf), if_pos ho]
  have hc := CHECK_IRQ_LINES_untouched untouched_sci h
    { m with m68xx := { m.m68xx with
        rdr := m.m68xx.rsr, trcsr := (m.m68xx.trcsr ||| M6800_TRCSR_RDRF) % 0x100 } }
  unfold sci at hc
  simp only [Prod.mk.injEq] at hc
  exact ⟨hc.1, hc.2.2.2.2.2.2.2.2, rfl⟩

/-- The stop position, line at 1, RDRF already set: overrun. -/
theorem RX_STOP_overrun (h : Hdr) (m : Machine)
    (hf : m.m68xx.trcsr &&& M6800_TRCSR_RDRF ≠ 0) :
    (RX_STOP h 1 m).m68xx.trcsr = (m.m68xx.trcsr ||| M6800_TRCSR_ORFE) % 0x100
    ∧ (RX_STOP h 1 m).m68xx.rdr = m.m68xx.rdr
    ∧ (RX_STOP h 1 m).m68xx.rxbits = M6800_SERIAL_START := by
  unfold RX_STOP
  dsimp only
  rw [if_pos rfl, if_pos hf]
  have hc := CHECK_IRQ_LINES_untouched untouched_sci h
    { m with m68xx := { m.m68xx with trcsr := (m.m68xx.trcsr ||| M6800_TRCSR_ORFE) % 0x100 } }
  unfold sci at hc
  simp only [Prod.mk.injEq] at hc
  exact ⟨hc.1, hc.2.2.2.2.2.2.2.2, rfl⟩

/-- The stop position, line not at 1: framing error. -/
theorem RX_STOP_framing (h : Hdr) (rx : Nat) (m : Machine) (hrx : rx ≠ 1) :
    (RX_STOP h rx m).m68xx.trcsr
        = CLRBITS8 ((m.m68xx.trcsr ||| M6800_TRCSR_ORFE) % 0x100) M6800_TRCSR_RDRF
    ∧ (RX_STOP h rx m).m68xx.rdr
        = (if m.m68xx.trcsr &&& M6800_TRCSR_ORFE = 0 then m.m68xx.rsr else m.m68xx.rdr)
    ∧ (RX_STOP h rx m).m68xx.rxbits = M6800_SERIAL_START := by
  unfold RX_STOP
  dsimp only
  rw [if_neg hrx]
  by_cases ho : m.m68xx.trcsr &&& M6800_TRCSR_ORFE = 0
  · rw [if_pos ho, if_pos ho]
    have hc := CHECK_IRQ_LINES_untouched untouched_sci h
      { m with m68xx := { { m.m68xx with rdr := m.m68xx.rsr } with
          trcsr := CLRBITS8 ((m.m68xx.trcsr ||| M6800_TRCSR_ORFE) % 0x100) M6800_TRCSR_RDRF } }
    unfold sci at hc
    simp only [Prod.mk.injEq] at hc
    exact ⟨hc.1, hc.2.2.2.2.2.2.2.2, rfl⟩
  · rw [if_neg ho, if_neg ho]
    have hc := CHECK_IRQ_LINES_untouched untouched_sci h
      { m with m68xx := { m.m68xx with
          trcsr := CLRBITS8 ((m.m68xx.trcsr ||| M6800_TRCSR_ORFE) % 0x100) M6800_TRCSR_RDRF } }
    unfold sci at hc
    simp only [Prod.mk.injEq] at hc
    exact ⟨hc.1, hc.2.2.2.2.2.2.2.2, rfl⟩

/-- The byte left in the shift register by one data bit. -/
theorem shift_in (x : Nat) (b : Bool) (hx : x < 0x100) :
    ((x >>> 1) ||| (b.toNat <<< 7)) % 0x100 = x / 2 + 128 * b.toNat := by
  have e1 : x >>> 1 = x / 2 := Nat.shiftRight_eq_div_pow x 1
  rw [e1]
  cases b
  · show (x / 2 ||| 0) % 0x100 = x / 2 + 128 * 0
    rw [Nat.or_zero]
    omega
  · show (x / 2 ||| 128) % 0x100 = x / 2 + 128 * 1
    have hlt : x / 2 < 2 ^ 7 := by
      show x / 2 < 128
      omega
    have e2 := Nat.mul_add_lt_is_or hlt 1
    rw [Nat.or_comm, show (128 : Nat) = 2 ^ 7 * 1 from rfl, ← e2]
    show (128 + x / 2) % 256 = x / 2 + 128
    omega

/-- One data tick of the receiver, in terms of the fields. -/
theorem rx_data_step (h : Hdr) (b : Bool) (s : Machine) (t : Nat) (k : Int) (x q : Nat)
    (ht : s.m68xx.trcsr = t) (hre : t &&& M6800_TRCSR_RE ≠ 0) (hwu : t &&& M6800_TRCSR_WU = 0)
    (hk : s.m68xx.rxbits = k) (hk0 : k ≠ 0) (hk9 : k ≠ 9)
    (hx : s.m68xx.rsr = x) (hxb : x < 0x100) (hq : s.m68xx.rdr = q) :
    (RX_TICK h b.toNat s).m68xx.trcsr = t
    ∧ (RX_TICK h b.toNat s).m68xx.rxbits = k + 1
    ∧ (RX_TICK h b.toNat s).m68xx.rsr = x / 2 + 128 * b.toNat
    ∧ x / 2 + 128 * b.toNat < 0x100
    ∧ (RX_TICK h b.toNat s).m68xx.rdr = q := by
  subst ht hk hx hq
  rw [rx_tick_data h _ s hre hwu hk0 hk9]
  have hb := Bool.toNat_le b
  exact ⟨rfl, rfl, shift_in _ b hxb, by omega, rfl⟩

theorem or_mod_and_zero (x a k : Nat) (hx : x &&& k = 0) (ha : a &&& k = 0) :
    (x ||| a) % 0x100 &&& k = 0 := by
  apply Nat.eq_of_testBit_eq
  intro i
  have hxi := congrArg (fun t => t.testBit i) hx
  have hai := congrArg (fun t => t.testBit i) ha
  rw [show (0x100 : Nat) = 2 ^ 8 from rfl]
  simp only [Nat.testBit_and, Nat.testBit_mod_two_pow, Nat.testBit_or, Nat.zero_testBit]
    at hxi hai ⊢
  revert hxi hai
  cases x.testBit i <;> cases a.testBit i <;> cases k.testBit i <;> simp

/-- C29: for all bits `b0` .. `b7`, with RE set, WU clear, `rxbits = 0` and RDRF and ORFE
clear (and `rsr` a byte, as its type UINT8 says), ten receive ticks on which the line samples
0 (start), then `b0`, `b1`, ..., `b7`, then 1 (stop) leave
`rdr = b0 + 2*b1 + 4*b2 + ... + 128*b7`, RDRF set, ORFE clear and `rxbits = 0`. -/
theorem C29_receive_frame (h : Hdr) (b0 b1 b2 b3 b4 b5 b6 b7 : Bool) (m : Machine)
    (hre : m.m68xx.trcsr &&& M6800_TRCSR_RE ≠ 0)
    (hwu : m.m68xx.trcsr &&& M6800_TRCSR_WU = 0)
    (h0 : m.m68xx.rxbits = 0)
    (hf : m.m68xx.trcsr &&& M6800_TRCSR_RDRF = 0)
    (ho : m.m68xx.trcsr &&& M6800_TRCSR_ORFE = 0)
    (hx : m.m68xx.rsr < 0x100) :
    (RX_TICKS h [0, b0.toNat, b1.toNat, b2.toNat, b3.toNat, b4.toNat, b5.toNat, b6.toNat,
        b7.toNat, 1] m).m68xx.rdr
      = b0.toNat + 2 * b1.toNat + 4 * b2.toNat + 8 * b3.toNat + 16 * b4.toNat + 32 * b5.toNat
        + 64 * b6.toNat + 128 * b7.toNat
    ∧ (RX_TICKS h [0, b0.toNat, b1.toNat, b2.toNat, b3.toNat, b4.toNat, b5.toNat, b6.toNat,
        b7.toNat, 1] m).m68xx.trcsr &&& M6800_TRCSR_RDRF = M6800_TRCSR_RDRF
    ∧ (RX_TICKS h [0, b0.toNat, b1.toNat, b2.toNat, b3.toNat, b4.toNat, b5.toNat, b6.toNat,
        b7.toNat, 1] m).m68xx.trcsr &&& M6800_TRCSR_ORFE = 0
    ∧ (RX_TICKS h [0, b0.toNat, b1.toNat, b2.toNat, b3.toNat, b4.toNat, b5.toNat, b6.toNat,
        b7.toNat, 1] m).m68xx.rxbits = 0 := by
  unfold RX_TICKS
  simp only [List.foldl]
  have s1 := rx_tick_start h m hre hwu h0
  have k1 : (RX_TICK h 0 m).m68xx.rxbits = 1 := by
    rw [s1]
    show m.m68xx.rxbits + 1 = 1
    rw [h0]
    rfl
  have t1 : (RX_TICK h 0 m).m68xx.trcsr = m.m68xx.trcsr := by rw [s1]
  have x1 : (RX_TICK h 0 m).m68xx.rsr = m.m68xx.rsr := by rw [s1]
  have q1 : (RX_TICK h 0 m).m68xx.rdr = m.m68xx.rdr := by rw [s1]
  obtain ⟨t2, k2, x2, y2, q2⟩ := rx_data_step h b0 _ _ _ _ _ t1 hre hwu k1 (by decide)
    (by decide) x1 hx q1
  obtain ⟨t3, k3, x3, y3, q3⟩ := rx_data_step h b1 _ _ _ _ _ t2 hre hwu k2 (by decide)
    (by decide) x2 y2 q2
  obtain ⟨t4, k4, x4, y4, q4⟩ := rx_data_step h b2 _ _ _ _ _ t3 hre hwu k3 (by decide)
    (by decide) x3 y3 q3
  obtain ⟨t5, k5, x5, y5, q5⟩ := rx_data_step h b3 _ _ _ _ _ t4 hre hwu k4 (by decide)
    (by decide) x4 y4 q4
  obtain ⟨t6, k6, x6, y6, q6⟩ := rx_data_step h b4 _ _ _ _ _ t5 hre hwu k5 (by decide)
    (by decide) x5 y5 q5
  obtain ⟨t7, k7, x7, y7, q7⟩ := rx_data_step h b5 _ _ _ _ _ t6 hre hwu k6 (by decide)
    (by decide) x6 y6 q6
  obtain ⟨t8, k8, x8, y8, q8⟩ := rx_data_step h b6 _ _ _ _ _ t7 hre hwu k7 (by decide)
    (by decide) x7 y7 q7
  obtain ⟨t9, k9, x9, y9, q9⟩ := rx_data_step h b7 _ _ _ _ _ t8 hre hwu k8 (by decide)
    (by decide) x8 y8 q8
  rw [rx_tick_stop h 1 _ (by rw [t9]; exact hre) (by rw [t9]; exact hwu) (k9.trans rfl)]
  obtain ⟨c1, c2, c3⟩ := RX_STOP_commit h _ (by rw [t9]; exact hf) (by rw [t9]; exact ho)
  rw [c1, c2, c3, t9, x9]
  refine ⟨?_, or_mod_and_self _ _ (by decide), or_mod_and_zero _ _ _ ho (by decide), rfl⟩
  have i0 := Bool.toNat_le b0
  have i1 := Bool.toNat_le b1
  have i2 := Bool.toNat_le b2
  have i3 := Bool.toNat_le b3
  have i4 := Bool.toNat_le b4
  have i5 := Bool.toNat_le b5
  have i6 := Bool.toNat_le b6
  have i7 := Bool.toNat_le b7
  omega

/-- C29 at `rx_ready_machine` with the bits of 0xa5, least significant first. -/
theorem C29_receive_frame_witness :
    rx_ready_machine.m68xx.trcsr &&& M6800_TRCSR_RE ≠ 0
    ∧ rx_ready_machine.m68xx.trcsr &&& M6800_TRCSR_WU = 0
    ∧ rx_ready_machine.m68xx.rxbits = 0
    ∧ rx_ready_machine.m68xx.trcsr &&& M6800_TRCSR_RDRF = 0
    ∧ rx_ready_machine.m68xx.trcsr &&& M6800_TRCSR_ORFE = 0
    ∧ rx_ready_machine.m68xx.rsr < 0x100
    ∧ (RX_TICKS hdr0 [0, true.toNat, false.toNat, true.toNat, false.toNat, false.toNat,
        true.toNat, false.toNat, true.toNat, 1] rx_ready_machine).m68xx.rdr
      = true.toNat + 2 * false.toNat + 4 * true.toNat + 8 * false.toNat + 16 * false.toNat
        + 32 * true.toNat + 64 * false.toNat + 128 * true.toNat :=
  ⟨by decide, by decide, rfl, by decide, by decide, by decide,
   (C29_receive_frame hdr0 true false true false false true false true rx_ready_machine
     (by decide) (by decide) rfl (by decide) (by decide) (by decide)).1⟩

/-- C30: at the stop-bit position (`rxbits = 9`, RE set, WU clear) a receive error is recorded
in `trcsr` and the receiver goes on. If the line samples 1 while RDRF is set, ORFE is set and
`rdr` is unchanged (overrun); if the line samples 0, ORFE is set and RDRF is cleared (framing
error). In both cases `rxbits` is back to 0, RE is still set and WU still clear, and a tick
that then samples 0 takes the start bit (`rxbits = 1`). -/
theorem C30_receive_errors (h : Hdr) (m : Machine)
    (hre : m.m68xx.trcsr &&& M6800_TRCSR_RE ≠ 0)
    (hwu : m.m68xx.trcsr &&& M6800_TRCSR_WU = 0)
    (h9 : m.m68xx.rxbits = 9) :
    (m.m68xx.trcsr &&& M6800_TRCSR_RDRF ≠ 0 →
        (RX_TICK h 1 m).m68xx.trcsr &&& M6800_TRCSR_ORFE = M6800_TRCSR_ORFE
        ∧ (RX_TICK h 1 m).m68xx.rdr = m.m68xx.rdr
        ∧ (RX_TICK h 1 m).m68xx.rxbits = 0
        ∧ (RX_TICK h 1 m).m68xx.trcsr &&& M6800_TRCSR_RE ≠ 0
        ∧ (RX_TICK h 1 m).m68xx.trcsr &&& M6800_TRCSR_WU = 0
        ∧ (RX_TICK h 0 (RX_TICK h 1 m)).m68xx.rxbits = 1)
    ∧ ((RX_TICK h 0 m).m68xx.trcsr &&& M6800_TRCSR_ORFE = M6800_TRCSR_ORFE
        ∧ (RX_TICK h 0 m).m68xx.trcsr &&& M6800_TRCSR_RDRF = 0
        ∧ (RX_TICK h 0 m).m68xx.rxbits = 0
        ∧ (RX_TICK h 0 m).m68xx.trcsr &&& M6800_TRCSR_RE ≠ 0
        ∧ (RX_TICK h 0 m).m68xx.trcsr &&& M6800_TRCSR_WU = 0
        ∧ (RX_TICK h 0 (RX_TICK h 0 m)).m68xx.rxbits = 1) := by
  have hRE : M6800_TRCSR_RE = 2 ^ 3 := rfl
  have next : ∀ s : Machine, s.m68xx.trcsr &&& M6800_TRCSR_RE ≠ 0 →
      s.m68xx.trcsr &&& M6800_TRCSR_WU = 0 → s.m68xx.rxbits = 0 →
      (RX_TICK h 0 s).m68xx.rxbits = 1 := by
    intro s a b c
    rw [rx_tick_start h s a b c]
    show s.m68xx.rxbits + 1 = 1
    rw [c]
    rfl
  constructor
  · intro hf
    rw [rx_tick_stop h 1 m hre hwu h9] at *
    obtain ⟨c1, c2, c3⟩ := RX_STOP_overrun h m hf
    have a1 : (RX_STOP h 1 m).m68xx.trcsr &&& M6800_TRCSR_RE ≠ 0 := by
      rw [c1]
      rw [hRE, and_two_pow_ne_zero] at hre ⊢
      exact or_mod_testBit _ _ 3 (by decide) hre
    have a2 : (RX_STOP h 1 m).m68xx.trcsr &&& M6800_TRCSR_WU = 0 := by
      rw [c1]
      exact or_mod_and_zero _ _ _ hwu (by decide)
    refine ⟨?_, c2, c3, a1, a2, next _ a1 a2 c3⟩
    rw [c1]
    exact or_mod_and_self _ _ (by decide)
  · rw [rx_tick_stop h 0 m hre hwu h9]
    obtain ⟨c1, c2, c3⟩ := RX_STOP_framing h 0 m (by decide)
    have a1 : (RX_STOP h 0 m).m68xx.trcsr &&& M6800_TRCSR_RE ≠ 0 := by
      rw [c1]
      rw [hRE, and_two_pow_ne_zero] at hre ⊢
      unfold CLRBITS8
      rw [Nat.testBit_and, or_mod_testBit _ _ 3 (by decide) hre]
      decide
    have a2 : (RX_STOP h 0 m).m68xx.trcsr &&& M6800_TRCSR_WU = 0 :=  by
      rw [c1]
      exact CLRBITS8_and_of_and _ _ _ (or_mod_and_zero _ _ _ hwu (by decide))
    refine ⟨?_, ?_, c3, a1, a2, next _ a1 a2 c3⟩
    · rw [c1]
      unfold CLRBITS8
      rw [Nat.and_assoc, Nat.and_comm _ M6800_TRCSR_ORFE, ← Nat.and_assoc,
        or_mod_and_self _ _ (by decide)]
      decide
    · rw [c1]
      exact CLRBITS8_and_self _ _

/-- C30 at `rx_overrun_machine` (stop position, RDRF set). -/
theorem C30_receive_errors_witness :
    rx_overrun_machine.m68xx.trcsr &&& M6800_TRCSR_RE ≠ 0
    ∧ rx_overrun_machine.m68xx.trcsr &&& M6800_TRCSR_WU = 0
    ∧ rx_overrun_machine.m68xx.rxbits = 9
    ∧ rx_overrun_machine.m68xx.trcsr &&& M6800_TRCSR_RDRF ≠ 0
    ∧ (RX_TICK hdr0 1 rx_overrun_machine).m68xx.rdr = rx_overrun_machine.m68xx.rdr
    ∧ (RX_TICK hdr0 0 rx_overrun_machine).m68xx.trcsr &&& M6800_TRCSR_RDRF = 0 :=
  ⟨by decide, by decide, rfl, by decide,
   ((C30_receive_errors hdr0 rx_overrun_machine (by decide) (by decide) rfl).1 (by decide)).2.1,
   (C30_receive_errors hdr0 rx_overrun_machine (by decide) (by decide) rfl).2.2.1⟩

/-! ## The wake-up mode of the receiver -/

theorem RX_TICKS_append (h : Hdr) (a b : List Nat) (m : Machine) :
    RX_TICKS h (a ++ b) m = RX_TICKS h b (RX_TICKS h a m) := by
  unfold RX_TICKS
  rw [List.foldl_append]

theorem wake_at_zero (m : Machine) (h0 : m.m68xx.rxbits = M6800_SERIAL_START) :
    wake_at m 0 = m := by
  unfold wake_at
  obtain ⟨r, a, b, c, d, e, f, g⟩ := m
  have : r.rxbits = 0 := h0
  rw [show ((0 : Nat) : Int) = 0 from rfl, ← this]

/-- A sample at 1 in wake-up mode below the tenth: one more counted. -/
theorem wake_tick_one (h : Hdr) (m : Machine) (k : Nat)
    (hre : m.m68xx.trcsr &&& M6800_TRCSR_RE ≠ 0) (hwu : m.m68xx.trcsr &&& M6800_TRCSR_WU ≠ 0)
    (hk : k + 1 ≤ 9) : RX_TICK h 1 (wake_at m k) = wake_at m (k + 1) := by
  have e : RX_TICK h 1 (wake_at m k)
      = if m.m68xx.trcsr &&& M6800_TRCSR_RE ≠ 0 then
          if m.m68xx.trcsr &&& M6800_TRCSR_WU ≠ 0 then RX_WAKE 1 (wake_at m k)
          else if (k : Int) = M6800_SERIAL_START then
            if (1 : Nat) = 0 then
              { wake_at m k with m68xx := { (wake_at m k).m68xx with rxbits := (k : Int) + 1 } }
            else wake_at m k
          else if (k : Int) = M6800_SERIAL_STOP then RX_STOP h 1 (wake_at m k)
          else RX_DATA 1 (wake_at m k)
        else wake_at m k := rfl
  have w : RX_WAKE 1 (wake_at m k)
      = if (1 : Nat) = 1 then
          if (k : Int) + 1 = 10 then
            { m with m68xx := { m.m68xx with
                trcsr := CLRBITS8 m.m68xx.trcsr M6800_TRCSR_WU, rxbits := M6800_SERIAL_START } }
          else { m with m68xx := { m.m68xx with rxbits := (k : Int) + 1 } }
        else { m with m68xx := { m.m68xx with rxbits := M6800_SERIAL_START } } := rfl
  rewrite [e, if_pos hre, if_pos hwu, w, if_pos rfl, if_neg (by omega)]
  rfl

/-- The tenth sample at 1 in a row: WU is cleared and the count reset. -/
theorem wake_tick_tenth (h : Hdr) (m : Machine)
    (hre : m.m68xx.trcsr &&& M6800_TRCSR_RE ≠ 0) (hwu : m.m68xx.trcsr &&& M6800_TRCSR_WU ≠ 0) :
    RX_TICK h 1 (wake_at m 9)
      = { m with m68xx := { m.m68xx with
            trcsr := CLRBITS8 m.m68xx.trcsr M6800_TRCSR_WU, rxbits := 0 } } := by
  have e : RX_TICK h 1 (wake_at m 9)
      = if m.m68xx.trcsr &&& M6800_TRCSR_RE ≠ 0 then
          if m.m68xx.trcsr &&& M6800_TRCSR_WU ≠ 0 then
            { m with m68xx := { m.m68xx with
                trcsr := CLRBITS8 m.m68xx.trcsr M6800_TRCSR_WU, rxbits := 0 } }
          else RX_STOP h 1 (wake_at m 9)
        else wake_at m 9 := rfl
  rewrite [e, if_pos hre, if_pos hwu]
  rfl

/-- A sample at 0 in wake-up mode: the count starts again. -/
theorem wake_tick_zero (h : Hdr) (m : Machine) (k : Nat)
    (hre : m.m68xx.trcsr &&& M6800_TRCSR_RE ≠ 0) (hwu : m.m68xx.trcsr &&& M6800_TRCSR_WU ≠ 0) :
    RX_TICK h 0 (wake_at m k) = wake_at m 0 := by
  have e : RX_TICK h 0 (wake_at m k)
      = if m.m68xx.trcsr &&& M6800_TRCSR_RE ≠ 0 then
          if m.m68xx.trcsr &&& M6800_TRCSR_WU ≠ 0 then RX_WAKE 0 (wake_at m k)
          else if (k : Int) = M6800_SERIAL_START then
            if (0 : Nat) = 0 then
              { wake_at m k with m68xx := { (wake_at m k).m68xx with rxbits := (k : Int) + 1 } }
            else wake_at m k
          else if (k : Int) = M6800_SERIAL_STOP then RX_STOP h 0 (wake_at m k)
          else RX_DATA 0 (wake_at m k)
        else wake_at m k := rfl
  rewrite [e, if_pos hre, if_pos hwu]
  rfl

theorem wake_run (h : Hdr) (m : Machine)
    (hre : m.m68xx.trcsr &&& M6800_TRCSR_RE ≠ 0) (hwu : m.m68xx.trcsr &&& M6800_TRCSR_WU ≠ 0) :
    ∀ (j k : Nat), k + j ≤ 9 →
      RX_TICKS h (List.replicate j 1) (wake_at m k) = wake_at m (k + j) := by
  intro j
  induction j with
  | zero => intro k _; rfl
  | succ n ih =>
    intro k hk
    have e : RX_TICKS h (List.replicate (n + 1) 1) (wake_at m k)
        = RX_TICKS h (List.replicate n 1) (RX_TICK h 1 (wake_at m k)) := rfl
    rw [e, wake_tick_one h m k hre hwu (by omega), ih (k + 1) (by omega)]
    congr 1
    omega

theorem wake_restarts (h : Hdr) (m : Machine)
    (hre : m.m68xx.trcsr &&& M6800_TRCSR_RE ≠ 0) (hwu : m.m68xx.trcsr &&& M6800_TRCSR_WU ≠ 0) :
    ∀ runs : List Nat, (∀ k ∈ runs, k ≤ 9) →
      RX_TICKS h (runs.flatMap fun k => List.replicate k 1 ++ [0]) (wake_at m 0) = wake_at m 0 := by
  intro runs
  induction runs with
  | nil => intro _; rfl
  | cons k ks ih =>
    intro hks
    have hk : k ≤ 9 := hks k (List.mem_cons_self k ks)
    rw [List.flatMap_cons, RX_TICKS_append, RX_TICKS_append, wake_run h m hre hwu k 0 (by omega)]
    have e : RX_TICKS h [0] (wake_at m (0 + k)) = RX_TICK h 0 (wake_at m (0 + k)) := rfl
    rw [e, wake_tick_zero h m _ hre hwu]
    exact ih fun x hx => hks x (List.mem_cons_of_mem k hx)

/-- C31: in wake-up mode (RE and WU set, `rxbits` 0 on entry), over any line history made of
runs of fewer than 10 samples at 1, each ended by a sample at 0, followed by `j` samples at 1:
while `j` is below 10 the receiver has only counted (`rxbits` = `j`, every other field,
among them WU, `rdr`, `rsr`, RDRF and ORFE, as on entry), a sample at 0 puts the count back to
0, and the tick that completes 10 samples at 1 in a row clears WU and resets `rxbits` to 0,
nothing else changing. -/
theorem C31_wake_up_after_ten_ones (h : Hdr) (m : Machine) (runs : List Nat) (j : Nat)
    (hre : m.m68xx.trcsr &&& M6800_TRCSR_RE ≠ 0) (hwu : m.m68xx.trcsr &&& M6800_TRCSR_WU ≠ 0)
    (h0 : m.m68xx.rxbits = M6800_SERIAL_START) (hruns : ∀ k ∈ runs, k ≤ 9) (hj : j ≤ 9) :
    RX_TICKS h (wake_samples runs j) m
        = { m with m68xx := { m.m68xx with rxbits := (j : Int) } }
    ∧ RX_TICK h 0 (RX_TICKS h (wake_samples runs j) m) = m
    ∧ RX_TICKS h (wake_samples runs 10) m
        = { m with m68xx := { m.m68xx with
              trcsr := CLRBITS8 m.m68xx.trcsr M6800_TRCSR_WU, rxbits := 0 } }
    ∧ (RX_TICKS h (wake_samples runs 10) m).m68xx.trcsr &&& M6800_TRCSR_WU = 0 := by
  have hj' : RX_TICKS h (wake_samples runs j) m = wake_at m j := by
    unfold wake_samples
    rw [RX_TICKS_append]
    nth_rewrite 1 [← wake_at_zero m h0]
    rw [wake_restarts h m hre hwu runs hruns, wake_run h m hre hwu j 0 (by omega)]
    congr 1
    omega
  have h10 : RX_TICKS h (wake_samples runs 10) m
      = { m with m68xx := { m.m68xx with
            trcsr := CLRBITS8 m.m68xx.trcsr M6800_TRCSR_WU, rxbits := 0 } } := by
    unfold wake_samples
    rw [RX_TICKS_append]
    nth_rewrite 1 [← wake_at_zero m h0]
    rw [wake_restarts h m hre hwu runs hruns,
      show List.replicate 10 1 = List.replicate 9 1 ++ [1] from rfl, RX_TICKS_append,
      wake_run h m hre hwu 9 0 (by omega)]
    exact wake_tick_tenth h m hre hwu
  refine ⟨hj', ?_, h10, ?_⟩
  · rw [hj', wake_tick_zero h m j hre hwu, wake_at_zero m h0]
  · rw [h10]
    exact CLRBITS8_and_self m.m68xx.trcsr M6800_TRCSR_WU

/-- C31 on `rx_wake_machine`: seven samples at 1, a 0, then nine more at 1 leave WU set and
the data registers alone; a tenth clears WU. -/
theorem C31_wake_up_after_ten_ones_witness :
    rx_wake_machine.m68xx.trcsr &&& M6800_TRCSR_RE ≠ 0
    ∧ rx_wake_machine.m68xx.trcsr &&& M6800_TRCSR_WU ≠ 0
    ∧ RX_TICKS hdr0 (wake_samples [7] 9) rx_wake_machine
        = { rx_wake_machine with m68xx := { rx_wake_machine.m68xx with rxbits := ((9 : Nat) : Int) } }
    ∧ (RX_TICKS hdr0 (wake_samples [7] 10) rx_wake_machine).m68xx.trcsr = 0x88 :=
  ⟨by decide, by decide,
   (C31_wake_up_after_ten_ones hdr0 rx_wake_machine [7] 9 (by decide) (by decide) rfl
      (by decide) (by decide)).1,
   by decide⟩

/-! ## The flag algebra and the two high bits of CC -/

theorem and_c0_of_lt (x : Nat) (hx : x < 0x40) : x &&& 0xc0 = 0 := by
  apply Nat.eq_of_testBit_eq
  intro i
  rw [Nat.testBit_and, Nat.zero_testBit]
  by_cases hi : i < 6
  · have : Nat.testBit 0xc0 i = false := by
      interval_cases i <;> decide
    rw [this, Bool.and_false]
  · have : x.testBit i = false := by
      apply Nat.testBit_lt_two_pow
      calc x < 2 ^ 6 := hx
        _ ≤ 2 ^ i := Nat.pow_le_pow_right (by norm_num) (by omega)
    rw [this, Bool.false_and]

/-- A setter that ORs a value below 0x40 into CC keeps bits 7 and 6 and clears nothing. -/
theorem setter_keeps (cc x : Nat) (hx : x < 0x40) :
    (cc ||| x) &&& 0xc0 = cc &&& 0xc0 ∧ (cc ||| x) &&& cc = cc :=
  ⟨or_and_of_and_eq_zero cc x 0xc0 (and_c0_of_lt x hx), by rw [Nat.or_comm]; exact or_and_self x cc⟩

/-- A clear mask with bits 7 and 6 set keeps bits 7 and 6. -/
theorem mask_keeps (cc k : Nat) (hk : k &&& 0xc0 = 0xc0) : (cc &&& k) &&& 0xc0 = cc &&& 0xc0 := by
  rw [Nat.and_assoc, hk]

theorem shr_and_lt (a k s : Nat) (hk : k / 2 ^ s < 0x40) : (a &&& k) >>> s < 0x40 := by
  rw [Nat.shiftRight_eq_div_pow]
  exact lt_of_le_of_lt (Nat.div_le_div_right Nat.and_le_right) hk

set_option maxRecDepth 100000 in
theorem flags8_tables_lt (a : Nat) :
    flags8i.getD (a &&& 0xff) 0 < 0x40 ∧ flags8d.getD (a &&& 0xff) 0 < 0x40 := by
  have hi : ∀ j : Fin 256, flags8i.getD j.val 0 < 0x40 ∧ flags8d.getD j.val 0 < 0x40 := by
    decide
  have hlt : a &&& 0xff < 256 := lt_of_le_of_lt Nat.and_le_right (by norm_num)
  exact hi ⟨a &&& 0xff, hlt⟩

theorem SET_Z_keeps (cc a : Nat) : SET_Z cc a &&& 0xc0 = cc &&& 0xc0 ∧ SET_Z cc a &&& cc = cc := by
  unfold SET_Z
  split_ifs
  · exact setter_keeps cc 0x04 (by norm_num)
  · exact ⟨rfl, Nat.and_self cc⟩

/-- C32: bits 7 and 6 of CC are never altered by the flag algebra. For every CC value and all
arguments, each clear mask (`CLR_HNZVC`, `CLR_NZV`, `CLR_HNZC`, `CLR_NZVC`, `CLR_Z`, `CLR_NZC`,
`CLR_ZC`, `CLR_C`), each setter (`SET_Z8`, `SET_Z16`, `SET_N8`, `SET_N16`, `SET_H`, `SET_C8`,
`SET_C16`, `SET_V8`, `SET_V16`, `SET_FLAGS8I`, `SET_FLAGS8D`) and each single-flag macro (`SEC`
to `CLI`) leaves `CC & 0xC0` unchanged, and every setter only ORs bits in: the bits of the old
CC are all still set in the new one. -/
theorem C32_flag_algebra_keeps_high_bits (cc a b r : Nat) :
    (CLR_HNZVC cc &&& 0xc0 = cc &&& 0xc0 ∧ CLR_NZV cc &&& 0xc0 = cc &&& 0xc0
      ∧ CLR_HNZC cc &&& 0xc0 = cc &&& 0xc0 ∧ CLR_NZVC cc &&& 0xc0 = cc &&& 0xc0
      ∧ CLR_Z cc &&& 0xc0 = cc &&& 0xc0 ∧ CLR_NZC cc &&& 0xc0 = cc &&& 0xc0
      ∧ CLR_ZC cc &&& 0xc0 = cc &&& 0xc0 ∧ CLR_C cc &&& 0xc0 = cc &&& 0xc0)
    ∧ ((SET_Z8 cc a &&& 0xc0 = cc &&& 0xc0 ∧ SET_Z8 cc a &&& cc = cc)
      ∧ (SET_Z16 cc a &&& 0xc0 = cc &&& 0xc0 ∧ SET_Z16 cc a &&& cc = cc)
      ∧ (SET_N8 cc a &&& 0xc0 = cc &&& 0xc0 ∧ SET_N8 cc a &&& cc = cc)
      ∧ (SET_N16 cc a &&& 0xc0 = cc &&& 0xc0 ∧ SET_N16 cc a &&& cc = cc)
      ∧ (SET_H cc a b r &&& 0xc0 = cc &&& 0xc0 ∧ SET_H cc a b r &&& cc = cc)
      ∧ (SET_C8 cc a &&& 0xc0 = cc &&& 0xc0 ∧ SET_C8 cc a &&& cc = cc)
      ∧ (SET_C16 cc a &&& 0xc0 = cc &&& 0xc0 ∧ SET_C16 cc a &&& cc = cc)
      ∧ (SET_V8 cc a b r &&& 0xc0 = cc &&& 0xc0 ∧ SET_V8 cc a b r &&& cc = cc)
      ∧ (SET_V16 cc a b r &&& 0xc0 = cc &&& 0xc0 ∧ SET_V16 cc a b r &&& cc = cc)
      ∧ (SET_FLAGS8I cc a &&& 0xc0 = cc &&& 0xc0 ∧ SET_FLAGS8I cc a &&& cc = cc)
      ∧ (SET_FLAGS8D cc a &&& 0xc0 = cc &&& 0xc0 ∧ SET_FLAGS8D cc a &&& cc = cc))
    ∧ (SEC cc &&& 0xc0 = cc &&& 0xc0 ∧ CLC cc &&& 0xc0 = cc &&& 0xc0
      ∧ SEZ cc &&& 0xc0 = cc &&& 0xc0 ∧ CLZ cc &&& 0xc0 = cc &&& 0xc0
      ∧ SEN cc &&& 0xc0 = cc &&& 0xc0 ∧ CLN cc &&& 0xc0 = cc &&& 0xc0
      ∧ SEV cc &&& 0xc0 = cc &&& 0xc0 ∧ CLV cc &&& 0xc0 = cc &&& 0xc0
      ∧ SEH cc &&& 0xc0 = cc &&& 0xc0 ∧ CLH cc &&& 0xc0 = cc &&& 0xc0
      ∧ SEI cc &&& 0xc0 = cc &&& 0xc0 ∧ CLI cc &&& 0xc0 = cc &&& 0xc0) := by
  refine ⟨⟨mask_keeps cc _ (by decide), mask_keeps cc _ (by decide), mask_keeps cc _ (by decide),
      mask_keeps cc _ (by decide), mask_keeps cc _ (by decide), mask_keeps cc _ (by decide),
      mask_keeps cc _ (by decide), mask_keeps cc _ (by decide)⟩,
    ⟨SET_Z_keeps cc _, SET_Z_keeps cc _,
      setter_keeps cc _ (shr_and_lt a 0x80 4 (by norm_num)),
      setter_keeps cc _ (shr_and_lt a 0x8000 12 (by norm_num)),
      setter_keeps cc _ ?_,
      setter_keeps cc _ (shr_and_lt a 0x100 8 (by norm_num)),
      setter_keeps cc _ (shr_and_lt a 0x10000 16 (by norm_num)),
      setter_keeps cc _ (shr_and_lt _ 0x80 6 (by norm_num)),
      setter_keeps cc _ (shr_and_lt _ 0x8000 14 (by norm_num)),
      setter_keeps cc _ (flags8_tables_lt a).1,
      setter_keeps cc _ (flags8_tables_lt a).2⟩,
    ⟨(setter_keeps cc 0x01 (by norm_num)).1, mask_keeps cc _ (by decide),
      (setter_keeps cc 0x04 (by norm_num)).1, mask_keeps cc _ (by decide),
      (setter_keeps cc 0x08 (by norm_num)).1, mask_keeps cc _ (by decide),
      (setter_keeps cc 0x02 (by norm_num)).1, mask_keeps cc _ (by decide),
      (setter_keeps cc 0x20 (by norm_num)).1, mask_keeps cc _ (by decide),
      (setter_keeps cc 0x10 (by norm_num)).1, mask_keeps cc _ (by decide)⟩⟩
  rw [Nat.shiftLeft_eq]
  have : (a ^^^ b ^^^ r) &&& 0x10 ≤ 0x10 := Nat.and_le_right
  omega

/-! ## The counter and the budget move together -/

theorem untouched_counter : Untouched (fun r => r.counter) :=
  ⟨fun _ _ => rfl, fun _ _ => rfl, fun _ _ => rfl, fun _ _ => rfl, fun _ _ => rfl⟩

theorem OCI_EVENT_counter (h : Hdr) (m : Machine) :
    (OCI_EVENT h m).m68xx.counter = m.m68xx.counter := by
  unfold OCI_EVENT TAKE_OCI
  dsimp only
  split_ifs
  · exact ENTER_INTERRUPT_untouched untouched_counter h _ (OCF_SET m)
  · rfl

theorem TOI_EVENT_counter (h : Hdr) (m : Machine) :
    (TOI_EVENT h m).m68xx.counter = m.m68xx.counter := by
  unfold TOI_EVENT TAKE_TOI
  dsimp only
  split_ifs
  · exact ENTER_INTERRUPT_untouched untouched_counter h _ (TOF_SET m)
  · rfl

/-- A timer event leaves the counter alone. -/
theorem check_timer_event_counter (h : Hdr) (m : Machine) :
    (check_timer_event h m).m68xx.counter = m.m68xx.counter := by
  have e : (check_timer_event h m).m68xx
      = (if (if m.m68xx.counter ≥ m.m68xx.output_compare then OCI_EVENT h m else m).m68xx.counter
            ≥ (if m.m68xx.counter ≥ m.m68xx.output_compare then OCI_EVENT h m else m).m68xx.timer_over
          then TOI_EVENT h (if m.m68xx.counter ≥ m.m68xx.output_compare then OCI_EVENT h m else m)
          else (if m.m68xx.counter ≥ m.m68xx.output_compare then OCI_EVENT h m else m)).m68xx := rfl
  rw [e]
  have h1 : (if m.m68xx.counter ≥ m.m68xx.output_compare then OCI_EVENT h m else m).m68xx.counter
      = m.m68xx.counter := by
    split_ifs
    · exact OCI_EVENT_counter h m
    · rfl
  generalize (if m.m68xx.counter ≥ m.m68xx.output_compare then OCI_EVENT h m else m) = m1 at h1 ⊢
  split_ifs
  · rw [TOI_EVENT_counter, h1]
  · exact h1

/-- `INCREMENT_COUNTER(amount)` adds `amount` to the 32-bit counter. -/
theorem INCREMENT_COUNTER_counter (h : Hdr) (amount : Int) (m : Machine) :
    (INCREMENT_COUNTER h amount m).m68xx.counter = add32 m.m68xx.counter amount := by
  unfold INCREMENT_COUNTER
  dsimp only
  split_ifs
  · rw [check_timer_event_counter]
  · rfl

theorem add32_cast (c : Nat) (n : Int) :
    ((add32 c n : Nat) : Int) = ((c : Int) + n) % 0x100000000 :=
  Int.toNat_of_nonneg (Int.emod_nonneg _ (by norm_num))

theorem add32_lt (c : Nat) (n : Int) : add32 c n < 0x100000000 := by
  have h1 := add32_cast c n
  have h2 : ((c : Int) + n) % 0x100000000 < 0x100000000 := Int.emod_lt_of_pos _ (by norm_num)
  omega

theorem INCREMENT_COUNTER_charge (h : Hdr) (amount : Int) (m : Machine) :
    charge (INCREMENT_COUNTER h amount m) = charge m := by
  unfold charge
  rw [INCREMENT_COUNTER_counter, (INCREMENT_COUNTER_cycles h amount m).1, add32_cast]
  omega

theorem EAT_CYCLES_charge (h : Hdr) (m : Machine) : charge (EAT_CYCLES h m) = charge m := by
  unfold EAT_CYCLES
  dsimp only
  split_ifs <;> first | rfl | exact INCREMENT_COUNTER_charge h _ m

theorem execute_body_charge (h : Hdr) (v : Cpu) (insn : Nat → Machine → Machine)
    (hinsn : insn_keeps_charge insn) (m : Machine) :
    charge (execute_body h v insn m) = charge m := by
  unfold execute_body
  dsimp only
  split_ifs
  · exact EAT_CYCLES_charge h m
  · rw [INCREMENT_COUNTER_charge, hinsn]
    rfl

theorem execute_loop_charge (h : Hdr) (v : Cpu) (insn : Nat → Machine → Machine)
    (hinsn : insn_keeps_charge insn) :
    ∀ (fuel : Nat) (m m' : Machine), execute_loop h v insn fuel m = some m' →
      charge m' = charge m := by
  intro fuel
  induction fuel with
  | zero => intro m m' hrun; simp [execute_loop] at hrun
  | succ n ih =>
    intro m m' hrun
    simp only [execute_loop] at hrun
    split_ifs at hrun with hc
    · rw [ih _ _ hrun, execute_body_charge h v insn hinsn]
    · have e : execute_body h v insn m = m' := by simpa using hrun
      rw [← e]
      exact execute_body_charge h v insn hinsn m

/-- An opcode body that touches neither the counter nor the budget keeps the cycle account. -/
theorem keeps_charge_of_frame (insn : Nat → Machine → Machine)
    (hc : ∀ op m, (insn op m).m68xx.counter = m.m68xx.counter)
    (hb : ∀ op m, (insn op m).m6800_ICount = m.m6800_ICount) : insn_keeps_charge insn := by
  intro op m
  unfold charge
  rw [hc, hb]

theorem nop_insn_keeps_charge : insn_keeps_charge nop_insn := fun _ _ => rfl

/-- C33: every `INCREMENT_COUNTER(n)` takes `n` from the budget and adds `n` to the 32-bit
counter; an interrupt entry changes neither the counter nor the budget and never lowers
`extra_cycles`. So for an execute call whose opcode bodies do not write the counter registers,
the cycle count returned is the advance of the counter from just after the entry
`CLEANUP_conters` to the return. -/
theorem C33_returned_cycles_are_counter_advance (h : Hdr) (v : Cpu)
    (insn : Nat → Machine → Machine) (hinsn : insn_keeps_charge insn) (fuel : Nat)
    (cycles : Int) (m : Machine) (ret : Int) (m' : Machine)
    (hrun : CPU_EXECUTE h v insn fuel cycles m = some (ret, m')) :
    (∀ (n : Int) (s : Machine),
        (INCREMENT_COUNTER h n s).m6800_ICount = s.m6800_ICount - n
        ∧ (INCREMENT_COUNTER h n s).m68xx.counter = add32 s.m68xx.counter n)
    ∧ (∀ (vec : Nat) (s : Machine),
        (ENTER_INTERRUPT h vec s).m68xx.counter = s.m68xx.counter
        ∧ (ENTER_INTERRUPT h vec s).m6800_ICount = s.m6800_ICount
        ∧ s.m68xx.extra_cycles ≤ (ENTER_INTERRUPT h vec s).m68xx.extra_cycles)
    ∧ m'.m68xx.counter
        = add32 (CLEANUP_conters { m with m6800_ICount := cycles }).m68xx.counter ret := by
  refine ⟨fun n s => ⟨(INCREMENT_COUNTER_cycles h n s).1, INCREMENT_COUNTER_counter h n s⟩,
    fun vec s => ⟨ENTER_INTERRUPT_untouched untouched_counter h vec s,
      ENTER_INTERRUPT_ICount h vec s, ENTER_INTERRUPT_extra_le h vec s⟩, ?_⟩
  unfold CPU_EXECUTE at hrun
  simp only at hrun
  split at hrun
  · exact absurd hrun (by simp)
  · rename_i m4 hloop
    simp only [Option.some.injEq, Prod.mk.injEq] at hrun
    obtain ⟨hret, hm'⟩ := hrun
    have h4 := execute_loop_charge h v insn hinsn _ _ _ hloop
    have h3 : charge ({ INCREMENT_COUNTER h
          (CLEANUP_conters { m with m6800_ICount := cycles }).m68xx.extra_cycles
          (CLEANUP_conters { m with m6800_ICount := cycles }) with
        m68xx := { (INCREMENT_COUNTER h
          (CLEANUP_conters { m with m6800_ICount := cycles }).m68xx.extra_cycles
          (CLEANUP_conters { m with m6800_ICount := cycles })).m68xx with extra_cycles := 0 } }
          : Machine)
        = charge (CLEANUP_conters { m with m6800_ICount := cycles }) :=
      INCREMENT_COUNTER_charge h _ _
    have h1 : (CLEANUP_conters { m with m6800_ICount := cycles }).m6800_ICount = cycles :=
      CLEANUP_conters_ICount _
    have h5 : charge m' = charge m4 := by
      rw [← hm']
      exact INCREMENT_COUNTER_charge h _ m4
    have h6 : m'.m68xx.counter = add32 m4.m68xx.counter m4.m68xx.extra_cycles := by
      rw [← hm']
      exact INCREMENT_COUNTER_counter h _ m4
    have h7a : cycles - (INCREMENT_COUNTER h m4.m68xx.extra_cycles m4).m6800_ICount = ret := hret
    have h7b : m'.m6800_ICount = (INCREMENT_COUNTER h m4.m68xx.extra_cycles m4).m6800_ICount := by
      rw [← hm']
    have h7 : m'.m6800_ICount = cycles - ret := by omega
    have h8 := add32_lt m4.m68xx.counter m4.m68xx.extra_cycles
    have h9 := add32_cast (CLEANUP_conters { m with m6800_ICount := cycles }).m68xx.counter ret
    rw [h3] at h4
    rw [h4] at h5
    unfold charge at h5
    rw [h1, h7] at h5
    rw [← h6] at h8
    omega

/-- C33 on `running_machine` with a budget of 3 cycles: the call returns 4 and the counter has
advanced by 4. -/
theorem C33_returned_cycles_are_counter_advance_witness :
    insn_keeps_charge nop_insn
    ∧ (CPU_EXECUTE hdr0 Cpu.m6800 nop_insn 5 3 running_machine).map Prod.fst = some 4
    ∧ ((CPU_EXECUTE hdr0 Cpu.m6800 nop_insn 5 3 running_machine).get (by decide)).2.m68xx.counter
        = add32 (CLEANUP_conters { running_machine with m6800_ICount := 3 }).m68xx.counter 4 :=
  ⟨nop_insn_keeps_charge, by decide,
   (C33_returned_cycles_are_counter_advance hdr0 Cpu.m6800 nop_insn nop_insn_keeps_charge 5 3
     running_machine 4
     ((CPU_EXECUTE hdr0 Cpu.m6800 nop_insn 5 3 running_machine).get (by decide)).2
     (by rfl)).2.2⟩

/-! ## Eating cycles while halted -/

theorem sub32_of_le (x y : Nat) (hxy : y ≤ x) (hx : x < 0x100000000) : sub32 x y = x - y := by
  unfold sub32
  omega

theorem toInt32_of_lt (x : Nat) (hx : x < 0x80000000) : toInt32 x = (x : Int) := by
  unfold toInt32
  have h1 : x % 0x100000000 = x := Nat.mod_eq_of_lt (by omega)
  rw [h1, if_pos hx]

/-- `EAT_CYCLES` as one conditional on the clamped distance to the next timer event. -/
theorem EAT_CYCLES_eq (h : Hdr) (m : Machine) (d : Int)
    (hd : toInt32 (sub32 m.timer_next m.m68xx.counter) = d) :
    EAT_CYCLES h m
      = if 0 < min d m.m6800_ICount then INCREMENT_COUNTER h (min d m.m6800_ICount) m else m := by
  have e : EAT_CYCLES h m
      = if (if toInt32 (sub32 m.timer_next m.m68xx.counter) > m.m6800_ICount then m.m6800_ICount
            else toInt32 (sub32 m.timer_next m.m68xx.counter)) > 0
        then INCREMENT_COUNTER h
          (if toInt32 (sub32 m.timer_next m.m68xx.counter) > m.m6800_ICount then m.m6800_ICount
            else toInt32 (sub32 m.timer_next m.m68xx.counter)) m
        else m := rfl
  have hmin : (if d > m.m6800_ICount then m.m6800_ICount else d) = min d m.m6800_ICount := by
    split_ifs with hc
    · exact (min_eq_right (le_of_lt hc)).symm
    · exact (min_eq_left (not_lt.mp hc)).symm
  rewrite [e, hd, hmin]
  rfl

/-- The halted branch of the loop body is `EAT_CYCLES`, whatever the opcode bodies are. -/
theorem execute_body_halted (h : Hdr) (v : Cpu) (insn : Nat → Machine → Machine) (m : Machine)
    (hw : m.m68xx.wai_state &&& halt_mask h v ≠ 0) : execute_body h v insn m = EAT_CYCLES h m := by
  unfold execute_body
  rw [if_pos hw]

/-- C34 as stated fails on `far_event_machine`: the counter (0) is not past `timer_next`
(0x80000000) and the budget is 100, so `min(timer_next - CTD, budget)` is 100, yet
`EAT_CYCLES` eats nothing: the distance is read as a negative C `int`. -/
theorem C34_far_event_counterexample :
    far_event_machine.m68xx.counter ≤ far_event_machine.timer_next
    ∧ min ((far_event_machine.timer_next : Int) - far_event_machine.m68xx.counter)
        far_event_machine.m6800_ICount = 100
    ∧ (EAT_CYCLES hdr0 far_event_machine).m68xx.counter = far_event_machine.m68xx.counter
    ∧ (EAT_CYCLES hdr0 far_event_machine).m6800_ICount = 100 := by
  decide

/-- C34 (amended): for every state with `CTD <= timer_next`, the distance `timer_next - CTD`
below 2^31 (a non-negative C `int`), and every budget, `EAT_CYCLES` advances the counter by
exactly `min(timer_next - CTD, budget)` when that is positive and by 0 otherwise, taking the
same amount from the budget; the counter reached never exceeds the old `timer_next`; and the
halted loop body is `EAT_CYCLES` whatever the opcode bodies are, so no opcode is fetched. -/
theorem C34_eat_cycles_advance (h : Hdr) (m : Machine)
    (hle : m.m68xx.counter ≤ m.timer_next) (hn : m.timer_next < 0x100000000)
    (hd : m.timer_next - m.m68xx.counter < 0x80000000) :
    (((EAT_CYCLES h m).m68xx.counter : Nat) : Int)
        = (m.m68xx.counter : Int)
          + (if 0 < min ((m.timer_next : Int) - m.m68xx.counter) m.m6800_ICount
             then min ((m.timer_next : Int) - m.m68xx.counter) m.m6800_ICount else 0)
    ∧ (EAT_CYCLES h m).m6800_ICount
        = m.m6800_ICount
          - (if 0 < min ((m.timer_next : Int) - m.m68xx.counter) m.m6800_ICount
             then min ((m.timer_next : Int) - m.m68xx.counter) m.m6800_ICount else 0)
    ∧ (EAT_CYCLES h m).m68xx.counter ≤ m.timer_next
    ∧ (∀ (v : Cpu) (insn : Nat → Machine → Machine), m.m68xx.wai_state &&& halt_mask h v ≠ 0 →
        execute_body h v insn m = EAT_CYCLES h m) := by
  have hdist : toInt32 (sub32 m.timer_next m.m68xx.counter)
      = (m.timer_next : Int) - m.m68xx.counter := by
    rw [sub32_of_le _ _ hle hn, toInt32_of_lt _ hd]
    omega
  rw [EAT_CYCLES_eq h m _ hdist]
  refine ⟨?_, ?_, ?_, fun v insn hw => by rw [execute_body_halted h v insn m hw,
    EAT_CYCLES_eq h m _ hdist]⟩
  · split_ifs with hp
    · rw [INCREMENT_COUNTER_counter, add32_cast]
      have := min_le_left ((m.timer_next : Int) - m.m68xx.counter) m.m6800_ICount
      omega
    · omega
  · split_ifs with hp
    · exact (INCREMENT_COUNTER_cycles h _ m).1
    · omega
  · split_ifs with hp
    · have h1 := INCREMENT_COUNTER_counter h
        (min ((m.timer_next : Int) - m.m68xx.counter) m.m6800_ICount) m
      have h2 := add32_cast m.m68xx.counter
        (min ((m.timer_next : Int) - m.m68xx.counter) m.m6800_ICount)
      have h3 := min_le_left ((m.timer_next : Int) - m.m68xx.counter) m.m6800_ICount
      rw [← h1] at h2
      omega
    · exact hle

/-- C34 (amended) on `near_event_machine`: the event is 0x40 cycles ahead and the budget 100,
so the counter advances by 0x40 to the old `timer_next`. -/
theorem C34_eat_cycles_advance_witness :
    near_event_machine.m68xx.counter ≤ near_event_machine.timer_next
    ∧ near_event_machine.timer_next < 0x100000000
    ∧ near_event_machine.timer_next - near_event_machine.m68xx.counter < 0x80000000
    ∧ (((EAT_CYCLES hdr0 near_event_machine).m68xx.counter : Nat) : Int)
        = (near_event_machine.m68xx.counter : Int)
          + (if 0 < min ((near_event_machine.timer_next : Int)
                - near_event_machine.m68xx.counter) near_event_machine.m6800_ICount
             then min ((near_event_machine.timer_next : Int)
                - near_event_machine.m68xx.counter) near_event_machine.m6800_ICount else 0)
    ∧ (EAT_CYCLES hdr0 near_event_machine).m68xx.counter = 0x1040 :=
  ⟨by decide, by decide, by decide,
   (C34_eat_cycles_advance hdr0 near_event_machine (by decide) (by decide) (by decide)).1,
   by decide⟩

/-! ## The timer targets across the normalization -/

/-- C35: on `second_period_machine` (counter 0x10005, compare target 0x1ffff, overflow target
0) `CLEANUP_conters` clears the counter's high word and keeps the distance from the counter to
the compare target (0xfffa before and after), but changes the distance to the overflow target
from 0xfffefffb to 0xfffa: `TOH -= CTH` subtracts the counter's high word from the low word of
`timer_over`. -/
theorem C35_overflow_distance_not_preserved :
    (second_period_machine.m68xx.counter, second_period_machine.m68xx.output_compare,
     second_period_machine.m68xx.timer_over) = (0x10005, 0x1ffff, 0)
    ∧ ((CLEANUP_conters second_period_machine).m68xx.counter,
       (CLEANUP_conters second_period_machine).m68xx.output_compare,
       (CLEANUP_conters second_period_machine).m68xx.timer_over) = (0x5, 0xffff, 0xffff)
    ∧ (sub32 second_period_machine.m68xx.output_compare second_period_machine.m68xx.counter,
       sub32 (CLEANUP_conters second_period_machine).m68xx.output_compare
         (CLEANUP_conters second_period_machine).m68xx.counter) = (0xfffa, 0xfffa)
    ∧ (sub32 second_period_machine.m68xx.timer_over second_period_machine.m68xx.counter,
       sub32 (CLEANUP_conters second_period_machine).m68xx.timer_over
         (CLEANUP_conters second_period_machine).m68xx.counter) = (0xfffefffb, 0xfffa) := by
  decide

/-! ## The pending shadow of TCSR -/

theorem clr_zero_iff (p t : Nat) :
    CLRBITS8 p t = 0 ↔ ∀ i, i < 8 → p.testBit i = true → t.testBit i = true := by
  constructor
  · intro h i hi hp
    have hb : (CLRBITS8 p t).testBit i = false := by rw [h, Nat.zero_testBit]
    simp only [CLRBITS8, Nat.testBit_and, Nat.testBit_xor, testBit_255, hi, hp, decide_True,
      Bool.true_and] at hb
    cases ht : t.testBit i
    · rw [ht] at hb; exact absurd hb (by decide)
    · rfl
  · intro h
    apply Nat.eq_of_testBit_eq
    intro i
    simp only [CLRBITS8, Nat.testBit_and, Nat.testBit_xor, testBit_255, Nat.zero_testBit]
    by_cases hi : i < 8
    · cases hp : p.testBit i
      · simp
      · simp [hi, h i hi hp]
    · simp [hi]

theorem pil_or (p t k : Nat) (h : CLRBITS8 p t = 0) :
    CLRBITS8 ((p ||| k) % 0x100) ((t ||| k) % 0x100) = 0 := by
  rw [clr_zero_iff] at h ⊢
  intro i hi
  rw [show (0x100 : Nat) = 2 ^ 8 from rfl]
  simp only [Nat.testBit_mod_two_pow, Nat.testBit_or, hi, decide_True, Bool.true_and]
  intro hp
  cases hk : k.testBit i
  · rw [hk, Bool.or_false] at hp
    rw [h i hi hp]
    rfl
  · exact Bool.or_true _

theorem pil_clear (p t k : Nat) (h : CLRBITS8 p t = 0) (hk : p &&& k = 0) :
    CLRBITS8 p (CLRBITS8 t k) = 0 := by
  rw [clr_zero_iff] at h ⊢
  intro i hi hp
  have hb : (p &&& k).testBit i = false := by rw [hk, Nat.zero_testBit]
  rw [Nat.testBit_and, hp, Bool.true_and] at hb
  simp only [CLRBITS8, Nat.testBit_and, Nat.testBit_xor, testBit_255, hi, decide_True,
    Bool.true_and, hb, h i hi hp]
  rfl

theorem pil_zero (t : Nat) : CLRBITS8 0 t = 0 := by
  rw [clr_zero_iff]
  intro i _ hp
  rw [Nat.zero_testBit] at hp
  exact absurd hp (by decide)

theorem pil_write (p d : Nat) : CLRBITS8 (p &&& d) d = 0 := by
  rw [clr_zero_iff]
  intro i _ hp
  rw [Nat.testBit_and] at hp
  cases hd : d.testBit i
  · rw [hd, Bool.and_false] at hp; exact absurd hp (by decide)
  · rfl

theorem untouched_pending_in_live : Untouched (fun r => pending_in_live r) :=
  ⟨fun _ _ => rfl, fun _ _ => rfl, fun _ _ => rfl, fun _ _ => rfl, fun _ _ => rfl⟩

theorem ENTER_INTERRUPT_pil (h : Hdr) (v : Nat) (m : Machine) (hm : pending_in_live m.m68xx) :
    pending_in_live (ENTER_INTERRUPT h v m).m68xx := by
  have := ENTER_INTERRUPT_untouched untouched_pending_in_live h v m
  exact this ▸ hm

theorem m6800_check_irq2_pil (h : Hdr) (m : Machine) (hm : pending_in_live m.m68xx) :
    pending_in_live (m6800_check_irq2 h m).m68xx := by
  have := m6800_check_irq2_untouched untouched_pending_in_live h m
  exact this ▸ hm

theorem CHECK_IRQ_LINES_pil (h : Hdr) (m : Machine) (hm : pending_in_live m.m68xx) :
    pending_in_live (CHECK_IRQ_LINES h m).m68xx := by
  have := CHECK_IRQ_LINES_untouched untouched_pending_in_live h m
  exact this ▸ hm

theorem OCF_SET_pil (m : Machine) (hm : pending_in_live m.m68xx) :
    pending_in_live (OCF_SET m).m68xx :=
  pil_or m.m68xx.pending_tcsr m.m68xx.tcsr TCSR_OCF hm

theorem TOF_SET_pil (m : Machine) (hm : pending_in_live m.m68xx) :
    pending_in_live (TOF_SET m).m68xx :=
  pil_or m.m68xx.pending_tcsr m.m68xx.tcsr TCSR_TOF hm

theorem ICF_SET_pil (m : Machine) (hm : pending_in_live m.m68xx) :
    pending_in_live (ICF_SET m).m68xx :=
  pil_or m.m68xx.pending_tcsr m.m68xx.tcsr TCSR_ICF hm

theorem check_timer_event_pil (h : Hdr) (m : Machine) (hm : pending_in_live m.m68xx) :
    pending_in_live (check_timer_event h m).m68xx := by
  have e : (check_timer_event h m).m68xx
      = (if (if m.m68xx.counter ≥ m.m68xx.output_compare then OCI_EVENT h m else m).m68xx.counter
            ≥ (if m.m68xx.counter ≥ m.m68xx.output_compare then OCI_EVENT h m else m).m68xx.timer_over
          then TOI_EVENT h (if m.m68xx.counter ≥ m.m68xx.output_compare then OCI_EVENT h m else m)
          else (if m.m68xx.counter ≥ m.m68xx.output_compare then OCI_EVENT h m else m)).m68xx := rfl
  rw [e]
  have h1 : pending_in_live
      (if m.m68xx.counter ≥ m.m68xx.output_compare then OCI_EVENT h m else m).m68xx := by
    split_ifs
    · unfold OCI_EVENT TAKE_OCI
      dsimp only
      split_ifs
      · exact ENTER_INTERRUPT_pil h _ _ (OCF_SET_pil m hm)
      · exact OCF_SET_pil m hm
    · exact hm
  generalize (if m.m68xx.counter ≥ m.m68xx.output_compare then OCI_EVENT h m else m) = m1 at h1 ⊢
  split_ifs
  · unfold TOI_EVENT TAKE_TOI
    dsimp only
    split_ifs
    · exact ENTER_INTERRUPT_pil h _ _ (TOF_SET_pil m1 h1)
    · exact TOF_SET_pil m1 h1
  · exact h1

theorem TIN_EDGE_pil (h : Hdr) (m : Machine) (hm : pending_in_live m.m68xx) :
    pending_in_live (TIN_EDGE h m).m68xx := by
  unfold TIN_EDGE
  dsimp only
  apply CHECK_IRQ_LINES_pil
  split_ifs
  · exact m6800_check_irq2_pil h _ (ICF_SET_pil m hm)
  · exact ICF_SET_pil m hm

theorem set_irq_line_pil (h : Hdr) (line : IrqLine) (state : Nat) (m : Machine)
    (hm : pending_in_live m.m68xx) : pending_in_live (set_irq_line h line state m).m68xx := by
  cases line
  · unfold set_irq_line
    dsimp only
    split_ifs
    · exact hm
    · exact hm
    · exact ENTER_INTERRUPT_pil h _ _ hm
  · unfold set_irq_line
    dsimp only
    split_ifs
    · exact hm
    · exact hm
    · exact CHECK_IRQ_LINES_pil h _ hm
  · unfold set_irq_line
    dsimp only
    split_ifs
    · exact hm
    · exact hm
    · exact TIN_EDGE_pil h _ hm
    · exact hm
    · exact TIN_EDGE_pil h _ hm

/-- A flag-clearing read keeps the pending bits inside the live register: the live flag is
cleared only when its pending bit is clear. -/
theorem flag_read_pil (m : Machine) (k : Nat) (hm : pending_in_live m.m68xx) :
    pending_in_live (if m.m68xx.pending_tcsr &&& k = 0 then
        MODIFIED_tcsr { m with m68xx := { m.m68xx with tcsr := CLRBITS8 m.m68xx.tcsr k } }
      else m).m68xx := by
  split_ifs with hk
  · exact pil_clear m.m68xx.pending_tcsr m.m68xx.tcsr k hm hk
  · exact hm

/-- C36: the invariant `(pending_tcsr AND NOT tcsr) = 0` holds after reset and is preserved by
`check_timer_event`, by `set_irq_line` (the input-capture edge and every other case), by the
register reads of offsets 0x08, 0x09, 0x0B, 0x0C and 0x0D, and by every write to TCSR (offset
0x08), which sets `tcsr` to the byte written and `pending_tcsr` to its old value ANDed with
that byte. -/
theorem C36_pending_inside_live (h : Hdr) (m : Machine) (hm : pending_in_live m.m68xx) :
    (∀ m0 : Machine, pending_in_live (CPU_RESET m0).m68xx)
    ∧ pending_in_live (check_timer_event h m).m68xx
    ∧ (∀ (line : IrqLine) (state : Nat), pending_in_live (set_irq_line h line state m).m68xx)
    ∧ pending_in_live (m6803_internal_registers_r 0x08 m).2.m68xx
    ∧ pending_in_live (m6803_internal_registers_r 0x09 m).2.m68xx
    ∧ pending_in_live (m6803_internal_registers_r 0x0b m).2.m68xx
    ∧ pending_in_live (m6803_internal_registers_r 0x0c m).2.m68xx
    ∧ pending_in_live (m6803_internal_registers_r 0x0d m).2.m68xx
    ∧ (∀ (data : Nat) (s : Machine),
        (m6803_internal_registers_w h 0x08 data s).m68xx.tcsr = data
        ∧ (m6803_internal_registers_w h 0x08 data s).m68xx.pending_tcsr
            = s.m68xx.pending_tcsr &&& data
        ∧ pending_in_live (m6803_internal_registers_w h 0x08 data s).m68xx) := by
  refine ⟨fun m0 => pil_zero 0, check_timer_event_pil h m hm,
    fun line state => set_irq_line_pil h line state m hm, pil_zero m.m68xx.tcsr,
    flag_read_pil m TCSR_TOF hm, flag_read_pil m TCSR_OCF hm, flag_read_pil m TCSR_OCF hm,
    flag_read_pil m TCSR_ICF hm, ?_⟩
  intro data s
  have e : m6803_internal_registers_w h 0x08 data s = TCSR_WRITE h data s := rfl
  rw [e]
  unfold TCSR_WRITE
  dsimp only
  split_ifs
  · refine ⟨m6800_check_irq2_untouched untouched_tcsr h _,
      m6800_check_irq2_untouched untouched_pending_tcsr h _, ?_⟩
    exact m6800_check_irq2_pil h _ (pil_write s.m68xx.pending_tcsr data)
  · exact ⟨rfl, rfl, pil_write s.m68xx.pending_tcsr data⟩

/-- C36 on `pending_flags_machine` (both timer flags live and pending): a timer event and a
read of the counter keep the pending bits inside the live register. -/
theorem C36_pending_inside_live_witness :
    pending_in_live pending_flags_machine.m68xx
    ∧ pending_in_live (check_timer_event hdr0 pending_flags_machine).m68xx
    ∧ pending_in_live (m6803_internal_registers_r 0x09 pending_flags_machine).2.m68xx :=
  ⟨by decide,
   (C36_pending_inside_live hdr0 pending_flags_machine (by decide)).2.1,
   (C36_pending_inside_live hdr0 pending_flags_machine (by decide)).2.2.2.2.1⟩

/-! ## The halted loop and its budget -/

/-- With no timer event ahead of the counter, `EAT_CYCLES` does nothing. -/
theorem EAT_CYCLES_no_distance (h : Hdr) (m : Machine)
    (hd : toInt32 (sub32 m.timer_next m.m68xx.counter) ≤ 0) : EAT_CYCLES h m = m := by
  rw [EAT_CYCLES_eq h m _ rfl, if_neg]
  have := min_le_left (toInt32 (sub32 m.timer_next m.m68xx.counter)) m.m6800_ICount
  omega

/-- A halted CPU with budget left and no timer event ahead never leaves the loop. -/
theorem execute_loop_spins (h : Hdr) (v : Cpu) (insn : Nat → Machine → Machine) (m : Machine)
    (hw : m.m68xx.wai_state &&& halt_mask h v ≠ 0) (hb : 0 < m.m6800_ICount)
    (hd : toInt32 (sub32 m.timer_next m.m68xx.counter) ≤ 0) :
    ∀ fuel : Nat, execute_loop h v insn fuel m = none := by
  intro fuel
  induction fuel with
  | zero => rfl
  | succ n ih =>
    have e : execute_body h v insn m = m := by
      rw [execute_body_halted h v insn m hw, EAT_CYCLES_no_distance h m hd]
    simp only [execute_loop, e, if_pos hb]
    exact ih

/-- A halted iteration with the next event strictly ahead takes at least one cycle. -/
theorem EAT_CYCLES_progress (h : Hdr) (m : Machine) (hb : 0 < m.m6800_ICount)
    (hd : 0 < toInt32 (sub32 m.timer_next m.m68xx.counter)) :
    (EAT_CYCLES h m).m6800_ICount
        = m.m6800_ICount - min (toInt32 (sub32 m.timer_next m.m68xx.counter)) m.m6800_ICount
    ∧ (EAT_CYCLES h m).m6800_ICount ≤ m.m6800_ICount - 1 := by
  have hp : 0 < min (toInt32 (sub32 m.timer_next m.m68xx.counter)) m.m6800_ICount :=
    lt_min hd hb
  rw [EAT_CYCLES_eq h m _ rfl, if_pos hp, (INCREMENT_COUNTER_cycles h _ m).1]
  exact ⟨rfl, by omega⟩

/-- While every state met is halted with the next event ahead, the loop ends within as many
iterations as the budget has cycles. -/
theorem execute_loop_halted_terminates (h : Hdr) (v : Cpu) (insn : Nat → Machine → Machine)
    (Inv : Machine → Prop)
    (hinv : ∀ s, Inv s → s.m68xx.wai_state &&& halt_mask h v ≠ 0
      ∧ 0 < toInt32 (sub32 s.timer_next s.m68xx.counter)
      ∧ (0 < (EAT_CYCLES h s).m6800_ICount → Inv (EAT_CYCLES h s))) :
    ∀ (fuel : Nat) (m : Machine), Inv m → 0 < m.m6800_ICount → m.m6800_ICount ≤ (fuel : Int) →
      ∃ m', execute_loop h v insn fuel m = some m' := by
  intro fuel
  induction fuel with
  | zero => intro m _ hb hf; exact absurd hf (by push_cast; omega)
  | succ n ih =>
    intro m hm hb hf
    obtain ⟨hw, hd, hnext⟩ := hinv m hm
    have e : execute_body h v insn m = EAT_CYCLES h m := execute_body_halted h v insn m hw
    have hp := (EAT_CYCLES_progress h m hb hd).2
    simp only [execute_loop, e]
    split_ifs with hc
    · exact ih _ (hnext hc) hc (by push_cast at hf; omega)
    · exact ⟨_, rfl⟩

/-- C37: on `stuck_machine`, the reset machine with the halted context `stuck_regs` restored,
an execute call with a budget of 10 enters its loop halted, with the full budget and
`timer_next` equal to the counter: the timer event taken on entry moved the overflow target by
one (`TOH++` on the low word of `timer_over`), from 4 onto the counter at 5. One iteration of
the halted branch leaves the budget at 10, and the call never returns, whatever the opcode
bodies are and however many iterations are allowed. -/
theorem C37_halted_loop_never_ends :
    stuck_entry_machine.m68xx.wai_state &&& halt_mask hdr0 Cpu.m6800 ≠ 0
    ∧ stuck_entry_machine.m6800_ICount = 10
    ∧ (stuck_machine.m68xx.counter, stuck_machine.m68xx.timer_over) = (5, 4)
    ∧ (stuck_entry_machine.m68xx.counter, stuck_entry_machine.m68xx.timer_over,
       stuck_entry_machine.timer_next) = (5, 5, 5)
    ∧ (execute_body hdr0 Cpu.m6800 nop_insn stuck_entry_machine).m6800_ICount = 10
    ∧ (∀ (insn : Nat → Machine → Machine) (fuel : Nat),
        CPU_EXECUTE hdr0 Cpu.m6800 insn fuel 10 stuck_machine = none) := by
  refine ⟨by decide, by decide, by decide, by decide, by decide, ?_⟩
  intro insn fuel
  have key := execute_loop_spins hdr0 Cpu.m6800 insn
    ({ stuck_entry_machine with
        m68xx := { stuck_entry_machine.m68xx with extra_cycles := 0 } } : Machine)
    (by decide) (by decide) (by decide) fuel
  unfold CPU_EXECUTE
  dsimp only
  split
  · rfl
  · rename_i m4 hloop
    exact absurd (hloop.symm.trans key) (by simp)

/-! ## The compare target after a write -/

/-- C38: after `MODIFIED_counters`, if the counter's high word is below 0xFFFF (the counter a
32-bit value), the re-derived compare target is not behind the counter and less than one
period ahead: `0 <= OCD - CTD <= 65535`. This holds after the writes to the counter bytes
(offsets 0x09 and 0x0A, with the counter they store) and after the writes to the
output-compare bytes that change the byte (offsets 0x0B and 0x0C). -/
theorem C38_compare_target_within_period (h : Hdr) (data : Nat) (m : Machine)
    (hc : m.m68xx.counter < 0x100000000) (hh : WH m.m68xx.counter < 0xffff) :
    (m.m68xx.counter ≤ (MODIFIED_counters m).m68xx.output_compare
      ∧ (MODIFIED_counters m).m68xx.output_compare - m.m68xx.counter ≤ 65535
      ∧ (MODIFIED_counters m).m68xx.counter = m.m68xx.counter)
    ∧ ((m6803_internal_registers_w h 0x09 data m).m68xx.counter
          ≤ (m6803_internal_registers_w h 0x09 data m).m68xx.output_compare
      ∧ (m6803_internal_registers_w h 0x09 data m).m68xx.output_compare
          - (m6803_internal_registers_w h 0x09 data m).m68xx.counter ≤ 65535)
    ∧ ((m6803_internal_registers_w h 0x0a data m).m68xx.counter
          ≤ (m6803_internal_registers_w h 0x0a data m).m68xx.output_compare
      ∧ (m6803_internal_registers_w h 0x0a data m).m68xx.output_compare
          - (m6803_internal_registers_w h 0x0a data m).m68xx.counter ≤ 65535)
    ∧ (BH m.m68xx.output_compare ≠ data →
        m.m68xx.counter ≤ (m6803_internal_registers_w h 0x0b data m).m68xx.output_compare
        ∧ (m6803_internal_registers_w h 0x0b data m).m68xx.output_compare - m.m68xx.counter
            ≤ 65535)
    ∧ (BL m.m68xx.output_compare ≠ data →
        m.m68xx.counter ≤ (m6803_internal_registers_w h 0x0c data m).m68xx.output_compare
        ∧ (m6803_internal_registers_w h 0x0c data m).m68xx.output_compare - m.m68xx.counter
            ≤ 65535) := by
  have key : ∀ (s : Machine) (c : Nat), s.m68xx.counter = c → c < 0x100000000 → WH c < 0xffff →
      c ≤ (MODIFIED_counters s).m68xx.output_compare
      ∧ (MODIFIED_counters s).m68xx.output_compare - c ≤ 65535 := by
    intro s c hs h1 h2
    subst hs
    rw [(MODIFIED_counters_fields s).1]
    unfold WH at h2
    unfold mkPAIR WH WL
    split_ifs with hge <;> (unfold WL at hge; omega)
  have hb : m6803_internal_registers_w h 0x0b data m
      = if BH m.m68xx.output_compare ≠ data then
          MODIFIED_counters { m with m68xx := { m.m68xx with
            output_compare := setBH m.m68xx.output_compare data } }
        else m := rfl
  have hl : m6803_internal_registers_w h 0x0c data m
      = if BL m.m68xx.output_compare ≠ data then
          MODIFIED_counters { m with m68xx := { m.m68xx with
            output_compare := setBL m.m68xx.output_compare data } }
        else m := rfl
  have h9 : m6803_internal_registers_w h 0x09 data m
      = MODIFIED_counters { m with
          latch09 := data &&& 0xff,
          m68xx := { m.m68xx with
            counter := mkPAIR (WH m.m68xx.counter) 0xfff8,
            timer_over := mkPAIR (WH m.m68xx.timer_over) (WH m.m68xx.counter) } } := rfl
  have ha : m6803_internal_registers_w h 0x0a data m
      = MODIFIED_counters { m with
          m68xx := { m.m68xx with
            counter := mkPAIR (WH m.m68xx.counter) ((m.latch09 <<< 8) ||| (data &&& 0xff)),
            timer_over := mkPAIR (WH m.m68xx.timer_over) (WH m.m68xx.counter) } } := rfl
  have pc : ∀ l : Nat, mkPAIR (WH m.m68xx.counter) l < 0x100000000
      ∧ WH (mkPAIR (WH m.m68xx.counter) l) < 0xffff := by
    intro l
    unfold WH at hh
    unfold mkPAIR WH
    constructor <;> omega
  refine ⟨⟨(key m _ rfl hc hh).1, (key m _ rfl hc hh).2, rfl⟩, ?_, ?_, ?_, ?_⟩
  · rw [h9]
    rw [(MODIFIED_counters_fields _).2.1]
    exact key _ _ rfl (pc _).1 (pc _).2
  · rw [ha]
    rw [(MODIFIED_counters_fields _).2.1]
    exact key _ _ rfl (pc _).1 (pc _).2
  · intro hne
    rw [hb, if_pos hne]
    exact key _ _ rfl hc hh
  · intro hne
    rw [hl, if_pos hne]
    exact key _ _ rfl hc hh

/-- C38 at `oc_equal_machine` (counter 0x1234) with the low compare byte 0x34 written. -/
theorem C38_compare_target_within_period_witness :
    oc_equal_machine.m68xx.counter < 0x100000000 ∧ WH oc_equal_machine.m68xx.counter < 0xffff
    ∧ BL oc_equal_machine.m68xx.output_compare ≠ 0x34
    ∧ oc_equal_machine.m68xx.counter
        ≤ (m6803_internal_registers_w hdr0 0x0c 0x34 oc_equal_machine).m68xx.output_compare
    ∧ (m6803_internal_registers_w hdr0 0x0c 0x34 oc_equal_machine).m68xx.output_compare
        - oc_equal_machine.m68xx.counter ≤ 65535 :=
  ⟨by decide, by decide, by decide,
   ((C38_compare_target_within_period hdr0 0x34 oc_equal_machine (by decide)
      (by decide)).2.2.2.2 (by decide)).1,
   ((C38_compare_target_within_period hdr0 0x34 oc_equal_machine (by decide)
      (by decide)).2.2.2.2 (by decide)).2⟩

/-! ## The bit counters of the serial interface -/

theorem untouched_txbits : Untouched (fun r => r.txbits) :=
  ⟨fun _ _ => rfl, fun _ _ => rfl, fun _ _ => rfl, fun _ _ => rfl, fun _ _ => rfl⟩
theorem untouched_rxbits : Untouched (fun r => r.rxbits) :=
  ⟨fun _ _ => rfl, fun _ _ => rfl, fun _ _ => rfl, fun _ _ => rfl, fun _ _ => rfl⟩

theorem m6800_tx_bits (v : Int) (m : Machine) :
    (m6800_tx v m).m68xx.txbits = m.m68xx.txbits
    ∧ (m6800_tx v m).m68xx.rxbits = m.m68xx.rxbits := by
  have hs := m6800_tx_sci v m
  unfold sci at hs
  simp only [Prod.mk.injEq] at hs
  exact ⟨hs.2.2.1, hs.2.2.2.2.2.2.1⟩

theorem TX_STOP_bits (h : Hdr) (m : Machine) :
    (TX_STOP h m).m68xx.txbits = M6800_SERIAL_START
    ∧ (TX_STOP h m).m68xx.rxbits = m.m68xx.rxbits :=
  ⟨rfl, CHECK_IRQ_LINES_untouched untouched_rxbits h
    { m with m68xx := { m.m68xx with tx := 1 } }⟩

/-- The enabled transmitter keeps `txbits` in 0..9 and leaves `rxbits` alone. -/
theorem TX_ENABLED_bits (h : Hdr) (m : Machine)
    (h0 : 0 ≤ m.m68xx.txbits) (h9 : m.m68xx.txbits ≤ 9) :
    (0 ≤ (TX_ENABLED h m).m68xx.txbits ∧ (TX_ENABLED h m).m68xx.txbits ≤ 9)
    ∧ (TX_ENABLED h m).m68xx.rxbits = m.m68xx.rxbits := by
  unfold TX_ENABLED
  dsimp only
  split_ifs with hi hr
  · unfold TX_INIT
    dsimp only
    split_ifs with h10
    · refine ⟨⟨?_, ?_⟩, rfl⟩ <;> (try dsimp only [M6800_SERIAL_START, M6800_SERIAL_STOP] at *) <;> omega
    · refine ⟨⟨?_, ?_⟩, rfl⟩ <;> (try dsimp only [M6800_SERIAL_START, M6800_SERIAL_STOP] at *) <;> omega
  · unfold TX_READY
    dsimp only
    split_ifs with hs hp
    · unfold TX_START
      dsimp only
      split_ifs
      · exact ⟨⟨h0, h9⟩, rfl⟩
      · refine ⟨⟨?_, ?_⟩, rfl⟩ <;> (try dsimp only [M6800_SERIAL_START, M6800_SERIAL_STOP] at *) <;> omega
    · rw [(TX_STOP_bits h _).1, (TX_STOP_bits h _).2]
      exact ⟨⟨by decide, by decide⟩, rfl⟩
    · unfold TX_DATA
      dsimp only
      refine ⟨⟨?_, ?_⟩, rfl⟩ <;> (try dsimp only [M6800_SERIAL_START, M6800_SERIAL_STOP] at *) <;> omega
  · exact ⟨⟨h0, h9⟩, rfl⟩

theorem tx_tick_bits (h : Hdr) (m : Machine)
    (h0 : 0 ≤ m.m68xx.txbits) (h9 : m.m68xx.txbits ≤ 9) :
    (0 ≤ (m6800_tx_tick h m).m68xx.txbits ∧ (m6800_tx_tick h m).m68xx.txbits ≤ 9)
    ∧ (m6800_tx_tick h m).m68xx.rxbits = m.m68xx.rxbits := by
  unfold m6800_tx_tick
  dsimp only
  rw [(m6800_tx_bits _ _).1, (m6800_tx_bits _ _).2]
  split_ifs
  · exact TX_ENABLED_bits h m h0 h9
  · exact ⟨⟨h0, h9⟩, rfl⟩

theorem RX_STOP_bits (h : Hdr) (rx : Nat) (m : Machine) :
    (RX_STOP h rx m).m68xx.rxbits = M6800_SERIAL_START
    ∧ (RX_STOP h rx m).m68xx.txbits = m.m68xx.txbits := by
  refine ⟨rfl, ?_⟩
  unfold RX_STOP
  dsimp only
  split_ifs
  · exact CHECK_IRQ_LINES_untouched untouched_txbits h _
  · exact CHECK_IRQ_LINES_untouched untouched_txbits h _
  · rfl
  · exact CHECK_IRQ_LINES_untouched untouched_txbits h _
  · exact CHECK_IRQ_LINES_untouched untouched_txbits h _

theorem rx_tick_bits (h : Hdr) (rx : Nat) (m : Machine)
    (h0 : 0 ≤ m.m68xx.rxbits) (h9 : m.m68xx.rxbits ≤ 9) :
    (0 ≤ (RX_TICK h rx m).m68xx.rxbits ∧ (RX_TICK h rx m).m68xx.rxbits ≤ 9)
    ∧ (RX_TICK h rx m).m68xx.txbits = m.m68xx.txbits := by
  unfold RX_TICK
  split_ifs with hre hwu hs hrx hp
  · unfold RX_WAKE
    dsimp only
    split_ifs with h1 h10
    · refine ⟨⟨?_, ?_⟩, rfl⟩ <;> (try dsimp only [M6800_SERIAL_START, M6800_SERIAL_STOP] at *) <;> omega
    · refine ⟨⟨?_, ?_⟩, rfl⟩ <;> (try dsimp only [M6800_SERIAL_START, M6800_SERIAL_STOP] at *) <;> omega
    · refine ⟨⟨?_, ?_⟩, rfl⟩ <;> (try dsimp only [M6800_SERIAL_START, M6800_SERIAL_STOP] at *) <;> omega
  · refine ⟨⟨?_, ?_⟩, rfl⟩ <;> (try dsimp only [M6800_SERIAL_START, M6800_SERIAL_STOP] at *) <;> omega
  · exact ⟨⟨h0, h9⟩, rfl⟩
  · rw [(RX_STOP_bits h rx m).1, (RX_STOP_bits h rx m).2]
    exact ⟨⟨by decide, by decide⟩, rfl⟩
  · unfold RX_DATA
    dsimp only
    refine ⟨⟨?_, ?_⟩, rfl⟩ <;> (try dsimp only [M6800_SERIAL_START, M6800_SERIAL_STOP] at *) <;> omega
  · exact ⟨⟨h0, h9⟩, rfl⟩

/-- C39: for every state with `0 <= txbits <= 9` and `0 <= rxbits <= 9`, after a call of
`m6800_tx_tick` `txbits` is again in 0..9 (and `rxbits` is unchanged), and after a call of
`m6800_rx_tick`, in wake-up or normal mode and whatever the line sample is, `rxbits` is again
in 0..9 (and `txbits` is unchanged). -/
theorem C39_bit_counters_stay_in_range (h : Hdr) (rx : Nat) (m : Machine)
    (ht0 : 0 ≤ m.m68xx.txbits) (ht9 : m.m68xx.txbits ≤ 9)
    (hr0 : 0 ≤ m.m68xx.rxbits) (hr9 : m.m68xx.rxbits ≤ 9) :
    (0 ≤ (m6800_tx_tick h m).m68xx.txbits ∧ (m6800_tx_tick h m).m68xx.txbits ≤ 9
      ∧ (m6800_tx_tick h m).m68xx.rxbits = m.m68xx.rxbits)
    ∧ (0 ≤ (m6800_rx_tick h m).m68xx.rxbits ∧ (m6800_rx_tick h m).m68xx.rxbits ≤ 9
      ∧ (m6800_rx_tick h m).m68xx.txbits = m.m68xx.txbits)
    ∧ (0 ≤ (RX_TICK h rx m).m68xx.rxbits ∧ (RX_TICK h rx m).m68xx.rxbits ≤ 9
      ∧ (RX_TICK h rx m).m68xx.txbits = m.m68xx.txbits) :=
  ⟨⟨(tx_tick_bits h m ht0 ht9).1.1, (tx_tick_bits h m ht0 ht9).1.2, (tx_tick_bits h m ht0 ht9).2⟩,
   ⟨(rx_tick_bits h (m6800_rx m) m hr0 hr9).1.1, (rx_tick_bits h (m6800_rx m) m hr0 hr9).1.2,
    (rx_tick_bits h (m6800_rx m) m hr0 hr9).2⟩,
   ⟨(rx_tick_bits h rx m hr0 hr9).1.1, (rx_tick_bits h rx m hr0 hr9).1.2,
    (rx_tick_bits h rx m hr0 hr9).2⟩⟩

/-- C39 on `tx_midframe_machine`. -/
theorem C39_bit_counters_stay_in_range_witness :
    (0 ≤ tx_midframe_machine.m68xx.txbits ∧ tx_midframe_machine.m68xx.txbits ≤ 9)
    ∧ (0 ≤ tx_midframe_machine.m68xx.rxbits ∧ tx_midframe_machine.m68xx.rxbits ≤ 9)
    ∧ 0 ≤ (m6800_tx_tick hdr0 tx_midframe_machine).m68xx.txbits
    ∧ (m6800_tx_tick hdr0 tx_midframe_machine).m68xx.txbits ≤ 9 :=
  ⟨by decide, by decide,
   (C39_bit_counters_stay_in_range hdr0 1 tx_midframe_machine (by decide) (by decide)
      (by decide) (by decide)).1.1,
   (C39_bit_counters_stay_in_range hdr0 1 tx_midframe_machine (by decide) (by decide)
      (by decide) (by decide)).1.2.1⟩

/-! ## The mp68a keypad encoder -/

theorem and_one_shiftLeft_eq_zero (x i : Nat) : x &&& (1 <<< i) = 0 ↔ x.testBit i = false := by
  rw [Nat.one_shiftLeft, Nat.and_two_pow]
  cases x.testBit i <;> simp

/-- The scan loop started at `a012` ends within `a012 + 1` tests, on the highest set bit of
`line` below `a012`, or on 0 when there is none. -/
theorem scan_loop_spec (line : Nat) :
    ∀ (fuel a012 : Nat), a012 < fuel →
      ∃ r, scan_loop line fuel a012 = some r
        ∧ ((r < a012 ∧ line.testBit r = true ∧ ∀ j, r < j → j < a012 → line.testBit j = false)
           ∨ (r = 0 ∧ ∀ j, j < a012 → line.testBit j = false)) := by
  intro fuel
  induction fuel with
  | zero => intro a h; exact absurd h (Nat.not_lt_zero a)
  | succ n ih =>
    intro a ha
    cases a with
    | zero =>
      refine ⟨0, ?_, Or.inr ⟨rfl, fun j hj => absurd hj (Nat.not_lt_zero j)⟩⟩
      simp [scan_loop]
    | succ b =>
      by_cases hb : line &&& (1 <<< b) = 0
      · obtain ⟨r, hr, hspec⟩ := ih b (by omega)
        have hbit := (and_one_shiftLeft_eq_zero line b).mp hb
        refine ⟨r, ?_, ?_⟩
        · simp [scan_loop, hb, hr]
        · rcases hspec with ⟨h1, h2, h3⟩ | ⟨h1, h2⟩
          · refine Or.inl ⟨by omega, h2, fun j hj1 hj2 => ?_⟩
            by_cases hjb : j = b
            · rw [hjb]; exact hbit
            · exact h3 j hj1 (by omega)
          · refine Or.inr ⟨h1, fun j hj => ?_⟩
            by_cases hjb : j = b
            · rw [hjb]; exact hbit
            · exact h2 j (by omega)
      · have hbit : line.testBit b = true := by
          cases hx : line.testBit b
          · exact absurd ((and_one_shiftLeft_eq_zero line b).mpr hx) hb
          · rfl
        refine ⟨b, ?_, Or.inl ⟨by omega, hbit, fun j hj1 hj2 => by omega⟩⟩
        simp [scan_loop, hb]

/-- A non-zero byte has a set bit among its low eight. -/
theorem byte_has_bit (x : Nat) (hx : x % 0x100 ≠ 0) : ¬ ∀ j, j < 8 → (x % 0x100).testBit j = false := by
  intro hall
  apply hx
  apply Nat.eq_of_testBit_eq
  intro i
  rw [Nat.zero_testBit]
  by_cases hi : i < 8
  · exact hall i hi
  · apply Nat.testBit_lt_two_pow
    calc x % 0x100 < 2 ^ 8 := Nat.mod_lt _ (by norm_num)
      _ ≤ 2 ^ i := Nat.pow_le_pow_right (by norm_num) (by omega)

/-- The scan of a non-zero byte from 8 finds its highest set bit. -/
theorem scan_byte (x fuel : Nat) (hx : x % 0x100 ≠ 0) (hf : 9 ≤ fuel) :
    ∃ i, i < 8 ∧ scan_loop (x % 0x100) fuel 8 = some i ∧ (x % 0x100).testBit i = true
      ∧ ∀ j, i < j → j < 8 → (x % 0x100).testBit j = false := by
  obtain ⟨r, hr, hspec⟩ := scan_loop_spec (x % 0x100) fuel 8 (by omega)
  rcases hspec with ⟨h1, h2, h3⟩ | ⟨_, h2⟩
  · exact ⟨r, h1, hr, h2, h3⟩
  · exact absurd h2 (byte_has_bit x hx)

/-- C40: the mp68a keypad encoder returns the pressed key's value. For every hexadecimal digit
`k`, with exactly the key labelled `k` held (its bit set in `m_lines` as `INPUT_PORTS_START(
mp68a )` lays it out) and the shift latch clear, `pia2_kbB_r` returns `k`. The bit-scan loop
ends within `a012 + 1` tests for every line value, so the handler returns for every state. With
the shift latch clear and several keys held, rows 0 and 1 take precedence (the value is 8 plus
the highest set bit of `m_lines[0] | m_lines[1]` whatever rows 2 and 3 hold), and with rows 0
and 1 empty the value is the highest set bit of `m_lines[2] | m_lines[3]`. -/
theorem C40_keypad_encoder_returns_key :
    (∀ k : Fin 16, (pia2_kbB_r 9 (mp68a_pressed [k.val])).map Prod.fst = some k.val)
    ∧ (∀ line a012 : Nat, ∃ r, scan_loop line (a012 + 1) a012 = some r)
    ∧ (∀ (s : mp68a_state) (fuel : Nat), 9 ≤ fuel → ∃ pb s', pia2_kbB_r fuel s = some (pb, s'))
    ∧ (∀ (s : mp68a_state) (fuel : Nat), 9 ≤ fuel → s.m_shift = 0 →
        (s.m_lines 0 ||| s.m_lines 1) % 0x100 ≠ 0 →
        ∃ i, i < 8 ∧ pia2_kbB_r fuel s = some (8 + i, s)
          ∧ ((s.m_lines 0 ||| s.m_lines 1) % 0x100).testBit i = true
          ∧ ∀ j, i < j → j < 8 → ((s.m_lines 0 ||| s.m_lines 1) % 0x100).testBit j = false)
    ∧ (∀ (s : mp68a_state) (fuel : Nat), 9 ≤ fuel → s.m_shift = 0 →
        (s.m_lines 0 ||| s.m_lines 1) % 0x100 = 0 → (s.m_lines 2 ||| s.m_lines 3) % 0x100 ≠ 0 →
        ∃ i, i < 8 ∧ pia2_kbB_r fuel s = some (i, s)
          ∧ ((s.m_lines 2 ||| s.m_lines 3) % 0x100).testBit i = true
          ∧ ∀ j, i < j → j < 8 → ((s.m_lines 2 ||| s.m_lines 3) % 0x100).testBit j = false) := by
  refine ⟨by decide, ?_, ?_, ?_, ?_⟩
  · intro line a
    obtain ⟨r, hr, _⟩ := scan_loop_spec line (a + 1) a (by omega)
    exact ⟨r, hr⟩
  · intro s fuel hf
    unfold pia2_kbB_r kb_rows01 kb_rows23
    dsimp only
    by_cases h01 : (s.m_lines 0 ||| s.m_lines 1) % 0x100 ≠ 0
    · obtain ⟨i, hi, hs, _, _⟩ := scan_byte _ fuel h01 hf
      rw [if_pos h01, hs]
      have h8 : (i + 8) % 0x100 ≠ 0 := by omega
      simp only [Option.map_some', Option.some_bind, h8, false_and, if_false]
      exact ⟨_, _, rfl⟩
    · rw [if_neg h01]
      simp only [Option.some_bind, true_and]
      by_cases h23 : (s.m_lines 2 ||| s.m_lines 3) % 0x100 ≠ 0
      · obtain ⟨i, hi, hs, _, _⟩ := scan_byte _ fuel h23 hf
        rw [if_pos h23, hs]
        exact ⟨_, _, rfl⟩
      · rw [if_neg h23]
        exact ⟨_, _, rfl⟩
  · intro s fuel hf hsh h01
    obtain ⟨i, hi, hs, hb, hhi⟩ := scan_byte _ fuel h01 hf
    refine ⟨i, hi, ?_, hb, hhi⟩
    unfold pia2_kbB_r kb_rows01 kb_rows23
    dsimp only
    rw [if_pos h01, hs]
    have h8 : (i + 8) % 0x100 ≠ 0 := by omega
    have h8' : (i + 8) % 0x100 = 8 + i := by omega
    simp only [Option.map_some', Option.some_bind, h8, false_and, if_false]
    unfold kb_shift
    rw [if_neg (not_not.mpr hsh), h8']
  · intro s fuel hf hsh h01 h23
    obtain ⟨i, hi, hs, hb, hhi⟩ := scan_byte _ fuel h23 hf
    refine ⟨i, hi, ?_, hb, hhi⟩
    unfold pia2_kbB_r kb_rows01 kb_rows23
    dsimp only
    rw [if_neg (not_not.mpr h01)]
    simp only [Option.some_bind, true_and]
    rw [if_pos h23, hs]
    unfold kb_shift
    simp only [Option.map_some', hsh, ne_eq, not_true_eq_false, if_false]

/-- C40 with the keys 3, 6 and A held together: row 1 wins, the value is 0xA. -/
theorem C40_keypad_encoder_returns_key_witness :
    (pia2_kbB_r 9 (mp68a_pressed [0x5])).map Prod.fst = some 0x5
    ∧ (pia2_kbB_r 9 (mp68a_pressed [0x3, 0x6, 0xa])).map Prod.fst = some 0xa :=
  ⟨C40_keypad_encoder_returns_key.1 ⟨5, by decide⟩, by decide⟩

/-! ## The first timer overflow, for every run of counter steps -/

theorem untouched_timer_over : Untouched (fun r => r.timer_over) :=
  ⟨fun _ _ => rfl, fun _ _ => rfl, fun _ _ => rfl, fun _ _ => rfl, fun _ _ => rfl⟩

theorem OCI_EVENT_timer_over (h : Hdr) (m : Machine) :
    (OCI_EVENT h m).m68xx.timer_over = m.m68xx.timer_over := by
  unfold OCI_EVENT TAKE_OCI
  dsimp only
  split_ifs
  · exact ENTER_INTERRUPT_untouched untouched_timer_over h _ (OCF_SET m)
  · rfl

/-- A timer event with the counter at or past the overflow target raises TOF. -/
theorem check_timer_event_sets_TOF (h : Hdr) (m : Machine)
    (hge : m.m68xx.counter ≥ m.m68xx.timer_over) :
    (check_timer_event h m).m68xx.tcsr &&& TCSR_TOF = TCSR_TOF := by
  have e : (check_timer_event h m).m68xx
      = (if (if m.m68xx.counter ≥ m.m68xx.output_compare then OCI_EVENT h m else m).m68xx.counter
            ≥ (if m.m68xx.counter ≥ m.m68xx.output_compare then OCI_EVENT h m else m).m68xx.timer_over
          then TOI_EVENT h (if m.m68xx.counter ≥ m.m68xx.output_compare then OCI_EVENT h m else m)
          else (if m.m68xx.counter ≥ m.m68xx.output_compare then OCI_EVENT h m else m)).m68xx := rfl
  rw [e]
  have h1 : (if m.m68xx.counter ≥ m.m68xx.output_compare then OCI_EVENT h m else m).m68xx.counter
      ≥ (if m.m68xx.counter ≥ m.m68xx.output_compare then OCI_EVENT h m else m).m68xx.timer_over := by
    split_ifs
    · rw [OCI_EVENT_counter, OCI_EVENT_timer_over]
      exact hge
    · exact hge
  rw [if_pos h1, (TOI_EVENT_tcsr h _).1]
  exact or_mod_and_self _ _ (by decide)

/-- A counter step that stays below 0xFFFF takes no timer event. -/
theorem before_overflow_step (h : Hdr) (t k : Nat) (s : Machine) (hs : before_overflow t s)
    (hk : t + k < 0xffff) : before_overflow (t + k) (INCREMENT_COUNTER h ((k : Nat) : Int) s) := by
  obtain ⟨hc, hn, ho, hf⟩ := hs
  have ha : add32 s.m68xx.counter ((k : Nat) : Int) = t + k := by
    unfold add32
    rw [hc]
    omega
  unfold INCREMENT_COUNTER
  dsimp only
  rw [ha, hn, if_neg (by omega)]
  exact ⟨rfl, rfl, ho, hf⟩

theorem before_overflow_steps (h : Hdr) :
    ∀ (steps : List Nat) (t : Nat) (s : Machine), before_overflow t s →
      t + steps.sum < 0xffff → before_overflow (t + steps.sum) (COUNTER_STEPS h steps s) := by
  intro steps
  induction steps with
  | nil => intro t s hs _; exact hs
  | cons k ks ih =>
    intro t s hs hsum
    rw [List.sum_cons] at hsum ⊢
    have e : COUNTER_STEPS h (k :: ks) s
        = COUNTER_STEPS h ks (INCREMENT_COUNTER h ((k : Nat) : Int) s) := rfl
    rw [e, ← Nat.add_assoc]
    exact ih (t + k) _ (before_overflow_step h t k s hs (by omega)) (by omega)

theorem reset_quiet (m : Machine) : timer_quiet (CPU_RESET m) := by
  show (0 : Nat) < 0x10000 ∧ (0 : Nat) < 0xffff ∧ (0xffff : Nat) < 0x100000000
    ∧ (0 : Nat) < 0xffff ∧ (0xffff : Nat) < 0x100000000
  decide

/-- The reset state after the entry normalization of execute. -/
theorem before_overflow_reset (m : Machine) :
    before_overflow 0 (CLEANUP_conters (CPU_RESET m)) := by
  rw [CLEANUP_conters_quiet _ (reset_quiet m)]
  refine ⟨rfl, ?_, rfl, ?_⟩
  · have e : (SET_TIMER_EVENT (CPU_RESET m)).timer_next
        = (if sub32 (CPU_RESET m).m68xx.output_compare (CPU_RESET m).m68xx.counter
              < sub32 (CPU_RESET m).m68xx.timer_over (CPU_RESET m).m68xx.counter
           then (CPU_RESET m).m68xx.output_compare else (CPU_RESET m).m68xx.timer_over) := rfl
    rw [e]
    split_ifs <;> rfl
  · show (0 : Nat) &&& TCSR_TOF = 0
    decide

/-- C20 (amended): from the reset state (counter 0, overflow target at its reset value 0xFFFF)
after the entry normalization of execute, and with no write to a timer register, TOF stays
clear after any sequence of `INCREMENT_COUNTER` steps totalling fewer than 65535 cycles (the
counter then holds that total), and is set by the step with which the total reaches or passes
65535. -/
theorem C20_overflow_flag_set_at_65535 (h : Hdr) (m : Machine) (steps : List Nat) (n : Nat)
    (hsum : steps.sum < 65535) (hn : 65535 ≤ steps.sum + n)
    (h32 : steps.sum + n < 0x100000000) :
    (COUNTER_STEPS h steps (CLEANUP_conters (CPU_RESET m))).m68xx.counter = steps.sum
    ∧ (COUNTER_STEPS h steps (CLEANUP_conters (CPU_RESET m))).m68xx.tcsr &&& TCSR_TOF = 0
    ∧ (INCREMENT_COUNTER h ((n : Nat) : Int)
        (COUNTER_STEPS h steps (CLEANUP_conters (CPU_RESET m)))).m68xx.tcsr &&& TCSR_TOF
        = TCSR_TOF := by
  have hb := before_overflow_steps h steps 0 _ (before_overflow_reset m) (by omega)
  rw [Nat.zero_add] at hb
  obtain ⟨hc, hnx, ho, hf⟩ := hb
  refine ⟨hc, hf, ?_⟩
  have ha : add32 (COUNTER_STEPS h steps (CLEANUP_conters (CPU_RESET m))).m68xx.counter
      ((n : Nat) : Int) = steps.sum + n := by
    unfold add32
    rw [hc]
    omega
  unfold INCREMENT_COUNTER
  dsimp only
  rw [ha, hnx, if_pos (show steps.sum + n ≥ 0xffff from hn)]
  apply check_timer_event_sets_TOF
  show steps.sum + n ≥ (COUNTER_STEPS h steps (CLEANUP_conters (CPU_RESET m))).m68xx.timer_over
  rw [ho]
  exact hn

/-- C20 (amended) on `running_machine` with steps of 40000 and 25534 cycles and then one of 1
cycle. -/
theorem C20_overflow_flag_set_at_65535_witness :
    ([40000, 25534] : List Nat).sum < 65535
    ∧ (COUNTER_STEPS hdr0 [40000, 25534] (CLEANUP_conters (CPU_RESET running_machine))).m68xx.tcsr
        &&& TCSR_TOF = 0
    ∧ (INCREMENT_COUNTER hdr0 ((1 : Nat) : Int)
        (COUNTER_STEPS hdr0 [40000, 25534]
          (CLEANUP_conters (CPU_RESET running_machine)))).m68xx.tcsr &&& TCSR_TOF = TCSR_TOF :=
  ⟨by decide,
   (C20_overflow_flag_set_at_65535 hdr0 running_machine [40000, 25534] 1 (by decide) (by decide)
      (by decide)).2.1,
   (C20_overflow_flag_set_at_65535 hdr0 running_machine [40000, 25534] 1 (by decide) (by decide)
      (by decide)).2.2⟩

end M6800
